import Mathlib

/-!
# morpherctl: the agent lifecycle manager (`internal/agent/agent.go`)

A shallow embedding of the Go package `agent`.  The host (process table, `PATH`,
filesystem, init system) is an explicit state `σ` together with a record `OS σ` of
the library calls the package makes (`os.Stat`, `os.Remove`, `exec.LookPath`,
`(*exec.Cmd).Run`, ...).  Every method of `Agent` becomes a function that threads a
`World σ`: the host state plus the log of library calls issued so far, in order.
-/

namespace Morpher

/-! ## Go errors -/

/-- Error numbers that the library calls used here may report. -/
inductive Errno
  | ENOENT
  | EACCES
  | EPERM
  | EBUSY
  deriving DecidableEq, Repr

/-- The text Go prints for an error number. -/
def Errno.Error : Errno → String
  | .ENOENT => "no such file or directory"
  | .EACCES => "permission denied"
  | .EPERM => "operation not permitted"
  | .EBUSY => "device or resource busy"

/-- A non-nil Go `error` value.  The Go type `error` itself is `Option GoError`,
with `none` for `nil`. -/
inductive GoError
  /-- The value of `errors.New(s)`, and of `fmt.Errorf` without a wrapped operand. -/
  | errorString (s : String)
  /-- An `*fs.PathError`: operation, path, error number. -/
  | pathError (op path : String) (errno : Errno)
  /-- An `*exec.ExitError`: the command ran and exited with a non-zero code. -/
  | exitError (code : Nat)
  /-- An `*exec.Error`: the command could not be found or started. -/
  | execError (name : String) (reason : String)
  /-- The value of `fmt.Errorf` with one `%w` operand that is a non-nil error. -/
  | wrapError (msg : String) (err : GoError)
  deriving DecidableEq, Repr

/-- The method `Error()` of an error value. -/
def GoError.Error : GoError → String
  | .errorString s => s
  | .pathError op path errno => op ++ " " ++ path ++ ": " ++ errno.Error
  | .exitError code => "exit status " ++ toString code
  | .execError name reason => "exec: \"" ++ name ++ "\": " ++ reason
  | .wrapError msg _ => msg

/-- The function `errors.Unwrap`. -/
def GoError.Unwrap : GoError → Option GoError
  | .wrapError _ err => some err
  | _ => none

/-- The call `fmt.Errorf(s)` for a format `s` without verbs. -/
def Errorf (s : String) : GoError := .errorString s

/-- The call `fmt.Errorf(pre ++ "%w", err)`.  When `err` is nil the verb prints
`%!w(<nil>)`, no error is wrapped, and the value returned is still a non-nil error. -/
def ErrorfW (pre : String) : Option GoError → GoError
  | some err => .wrapError (pre ++ err.Error) err
  | none => .errorString (pre ++ "%!w(<nil>)")

/-- The function `os.IsNotExist`, on the errors the library calls return. -/
def IsNotExist : Option GoError → Bool
  | some (.pathError _ _ .ENOENT) => true
  | _ => false

/-! ## Strings and paths -/

/-- The predicate `unicode.IsSpace`. -/
def isSpace (c : Char) : Bool :=
  let n := c.toNat
  n == 0x09 || n == 0x0A || n == 0x0B || n == 0x0C || n == 0x0D || n == 0x20 ||
  n == 0x85 || n == 0xA0 || n == 0x1680 || (0x2000 ≤ n && n ≤ 0x200A) ||
  n == 0x2028 || n == 0x2029 || n == 0x202F || n == 0x205F || n == 0x3000

/-- The function `strings.TrimSpace`. -/
def TrimSpace (s : String) : String :=
  String.mk (((s.data.dropWhile isSpace).reverse.dropWhile isSpace).reverse)

/-- Split a path at every separator `/`. -/
def splitSep : List Char → List (List Char)
  | [] => [[]]
  | c :: cs =>
    match splitSep cs with
    | [] => [[]]
    | x :: xs => if c = '/' then [] :: x :: xs else (c :: x) :: xs

/-- One step of `filepath.Clean` over the stack of kept elements (top first). -/
def cleanStep (rooted : Bool) (stack : List (List Char)) (e : List Char) :
    List (List Char) :=
  if e = [] ∨ e = ['.'] then stack
  else if e = ['.', '.'] then
    match stack with
    | [] => if rooted then [] else [e]
    | top :: rest => if top = ['.', '.'] then e :: top :: rest else rest
  else e :: stack

/-- The function `filepath.Clean` on a Unix host: the shortest path equivalent to
the argument by purely lexical processing. -/
def Clean (path : String) : String :=
  let rooted := path.data.head? = some '/'
  let kept := ((splitSep path.data).foldl (cleanStep rooted) []).reverse
  let body := List.intercalate ['/'] kept
  let out := if rooted then '/' :: body else body
  if out = [] then "." else String.mk out

/-- The function `filepath.Join` for two elements on a Unix host: empty elements
are ignored and the result is cleaned; with no non-empty element it is empty. -/
def Join (a b : String) : String :=
  if a ≠ "" then Clean (a ++ "/" ++ b)
  else if b ≠ "" then Clean b
  else ""

/-! ## The host -/

/-- An `*exec.Cmd` as the package builds it. -/
structure Cmd where
  /-- The program to run. -/
  Path : String
  /-- The argument vector, the program name first. -/
  Args : List String
  /-- The environment of the process; `none` is Go's nil: inherit the caller's. -/
  Env : Option (List String)
  /-- Whether `Stdout` was set to `os.Stdout`. -/
  Stdout : Bool
  /-- Whether `Stderr` was set to `os.Stderr`. -/
  Stderr : Bool
  deriving DecidableEq, Repr

/-- The function `exec.Command`. -/
def Command (name : String) (args : List String) : Cmd :=
  { Path := name, Args := name :: args, Env := none, Stdout := false, Stderr := false }

/-- A library call that reaches the host. -/
inductive Action
  | LookPath (file : String)
  | Run (cmd : Cmd)
  | Output (cmd : Cmd)
  | Stat (name : String)
  | Chmod (name : String) (mode : Nat)
  | Remove (name : String)
  | RemoveAll (path : String)
  | CreateTemp (dir pattern : String)
  | Close (name : String)
  deriving DecidableEq, Repr

/-- The host as the package sees it: each library call maps the host state to its
Go results and the next host state. -/
structure OS (σ : Type) where
  /-- The function `exec.LookPath`. -/
  LookPath : σ → String → (String × Option GoError) × σ
  /-- The method `(*exec.Cmd).Run`. -/
  Run : σ → Cmd → Option GoError × σ
  /-- The method `(*exec.Cmd).Output`. -/
  Output : σ → Cmd → (String × Option GoError) × σ
  /-- The function `os.Stat`; the `FileInfo` is never used by the package. -/
  Stat : σ → String → Option GoError × σ
  /-- The function `os.Chmod`. -/
  Chmod : σ → String → Nat → Option GoError × σ
  /-- The function `os.Remove`. -/
  Remove : σ → String → Option GoError × σ
  /-- The function `os.RemoveAll`. -/
  RemoveAll : σ → String → Option GoError × σ
  /-- The function `os.CreateTemp`; the first result is the name of the new file. -/
  CreateTemp : σ → String → String → (String × Option GoError) × σ
  /-- The method `(*os.File).Close`; its error is never looked at by the package. -/
  Close : σ → String → σ
  /-- The function `os.Environ`. -/
  Environ : σ → List String

/-- The host state together with the log of the library calls issued so far. -/
structure World (σ : Type) where
  /-- The current host state. -/
  host : σ
  /-- The calls issued so far, oldest first. -/
  log : List Action

/-- Record a call and move to the next host state. -/
def World.next {σ : Type} (w : World σ) (a : Action) (s : σ) : World σ :=
  { host := s, log := w.log ++ [a] }

variable {σ : Type}

/-- The call `exec.LookPath(file)`, logged. -/
def lookPath (os : OS σ) (file : String) (w : World σ) :
    (String × Option GoError) × World σ :=
  ((os.LookPath w.host file).1, w.next (.LookPath file) (os.LookPath w.host file).2)

/-- The call `cmd.Run()`, logged. -/
def run (os : OS σ) (cmd : Cmd) (w : World σ) : Option GoError × World σ :=
  ((os.Run w.host cmd).1, w.next (.Run cmd) (os.Run w.host cmd).2)

/-- The call `cmd.Output()`, logged. -/
def output (os : OS σ) (cmd : Cmd) (w : World σ) :
    (String × Option GoError) × World σ :=
  ((os.Output w.host cmd).1, w.next (.Output cmd) (os.Output w.host cmd).2)

/-- The call `os.Stat(name)`, logged. -/
def stat (os : OS σ) (name : String) (w : World σ) : Option GoError × World σ :=
  ((os.Stat w.host name).1, w.next (.Stat name) (os.Stat w.host name).2)

/-- The call `os.Chmod(name, mode)`, logged. -/
def chmod (os : OS σ) (name : String) (mode : Nat) (w : World σ) :
    Option GoError × World σ :=
  ((os.Chmod w.host name mode).1, w.next (.Chmod name mode) (os.Chmod w.host name mode).2)

/-- The call `os.Remove(name)`, logged. -/
def remove (os : OS σ) (name : String) (w : World σ) : Option GoError × World σ :=
  ((os.Remove w.host name).1, w.next (.Remove name) (os.Remove w.host name).2)

/-- The call `os.RemoveAll(path)`, logged. -/
def removeAll (os : OS σ) (path : String) (w : World σ) : Option GoError × World σ :=
  ((os.RemoveAll w.host path).1, w.next (.RemoveAll path) (os.RemoveAll w.host path).2)

/-- The call `os.CreateTemp(dir, pattern)`, logged. -/
def createTemp (os : OS σ) (dir pattern : String) (w : World σ) :
    (String × Option GoError) × World σ :=
  ((os.CreateTemp w.host dir pattern).1,
    w.next (.CreateTemp dir pattern) (os.CreateTemp w.host dir pattern).2)

/-- The call `f.Close()` on the file named `name`, logged. -/
def close (os : OS σ) (name : String) (w : World σ) : World σ :=
  w.next (.Close name) (os.Close w.host name)

/-! ## Package `agent` -/

/-- The struct `VerificationResult`. -/
structure VerificationResult where
  BinaryInstalled : Bool
  BinaryPath : String
  ServiceStatus : String
  ServiceRunning : Bool
  ServiceEnabled : Bool
  deriving DecidableEq, Repr

/-- The struct `StatusResult`. -/
structure StatusResult where
  Installed : Bool
  InstallPath : String
  ServiceStatus : String
  ServiceEnabled : Bool
  deriving DecidableEq, Repr

/-- The struct `Agent`. -/
structure Agent where
  ControllerIP : String
  ControllerPort : Int
  Architecture : String
  InstallPath : String
  ServiceName : String
  deriving DecidableEq, Repr

/-- The function `NewAgent`; `GOARCH` is the constant `runtime.GOARCH` of the build. -/
def NewAgent (GOARCH : String) (controllerIP : String) : Agent :=
  { ControllerIP := controllerIP
    ControllerPort := 9000
    Architecture := GOARCH
    InstallPath := "/usr/local/bin"
    ServiceName := "morpher-agent" }

/-- The method `Agent.downloadFile`. -/
def Agent.downloadFile (os : OS σ) (_a : Agent) (url dest : String) (w : World σ) :
    Option GoError × World σ :=
  match lookPath os "wget" w with
  | ((_, none), w1) =>
    match run os (Command "wget" ["-O", dest, url]) w1 with
    | (err, w2) => (some (ErrorfW "wget failed: " err), w2)
  | ((_, some _), w1) =>
    match lookPath os "curl" w1 with
    | ((_, none), w2) =>
      match run os (Command "curl" ["-o", dest, url]) w2 with
      | (err, w3) => (some (ErrorfW "curl failed: " err), w3)
    | ((_, some _), w2) => (some (Errorf "neither wget nor curl found"), w2)

/-- The name `scriptName` computed by `Agent.downloadInstallScript`. -/
def Agent.scriptName (a : Agent) : String :=
  "install_" ++ a.Architecture ++ ".sh"

/-- The address `scriptURL` computed by `Agent.downloadInstallScript`. -/
def Agent.scriptURL (a : Agent) : String :=
  "https://raw.githubusercontent.com/morpher-vm/morpher-agent/main/scripts/" ++ a.scriptName

/-- The method `Agent.downloadInstallScript`.  The deferred `tmpFile.Close()` runs
when the method returns, after the download. -/
def Agent.downloadInstallScript (os : OS σ) (a : Agent) (w : World σ) :
    (String × Option GoError) × World σ :=
  match createTemp os "" a.scriptName w with
  | ((_, some err), w1) => (("", some (ErrorfW "failed to create temp file: " (some err))), w1)
  | ((tmpFile, none), w1) =>
    match a.downloadFile os a.scriptURL tmpFile w1 with
    | (some err, w2) =>
      (("", some (ErrorfW "failed to download script: " (some err))), close os tmpFile w2)
    | (none, w2) => ((tmpFile, none), close os tmpFile w2)

/-- The command built by `Agent.runInstallScript`. -/
def Agent.installScriptCmd (a : Agent) (environ : List String) (scriptPath : String) : Cmd :=
  { Command "sudo" ["-E", scriptPath] with
    Env := some (environ ++ ["MORPHER_CONTROLLER_IP=" ++ a.ControllerIP])
    Stdout := true
    Stderr := true }

/-- The method `Agent.runInstallScript`. -/
def Agent.runInstallScript (os : OS σ) (a : Agent) (scriptPath : String) (w : World σ) :
    Option GoError × World σ :=
  match run os (a.installScriptCmd (os.Environ w.host) scriptPath) w with
  | (some err, w1) => (some (ErrorfW "failed to run install script: " (some err)), w1)
  | (none, w1) => (none, w1)

/-- The method `Agent.isInstalled`. -/
def Agent.isInstalled (os : OS σ) (a : Agent) (w : World σ) : Bool × World σ :=
  match stat os (Join a.InstallPath a.ServiceName) w with
  | (err, w1) => (err.isNone, w1)

/-- The command built by `Agent.stopService`. -/
def Agent.stopCmd (a : Agent) : Cmd :=
  Command "sudo" ["systemctl", "disable", "--now", a.ServiceName]

/-- The method `Agent.stopService`. -/
def Agent.stopService (os : OS σ) (a : Agent) (w : World σ) : Option GoError × World σ :=
  match run os a.stopCmd w with
  | (some err, w1) => (some (ErrorfW "failed to stop service: " (some err)), w1)
  | (none, w1) => (none, w1)

/-- The command built by `Agent.startService`. -/
def Agent.startCmd (a : Agent) : Cmd :=
  Command "sudo" ["systemctl", "start", a.ServiceName]

/-- The method `Agent.startService`. -/
def Agent.startService (os : OS σ) (a : Agent) (w : World σ) : Option GoError × World σ :=
  match run os a.startCmd w with
  | (some err, w1) => (some (ErrorfW "failed to start service: " (some err)), w1)
  | (none, w1) => (none, w1)

/-- The path `servicePath` computed by `Agent.removeServiceFile`. -/
def Agent.servicePath (a : Agent) : String :=
  "/etc/systemd/system/" ++ a.ServiceName ++ ".service"

/-- The method `Agent.removeServiceFile`. -/
def Agent.removeServiceFile (os : OS σ) (a : Agent) (w : World σ) :
    Option GoError × World σ :=
  match remove os a.servicePath w with
  | (some err, w1) => (some (ErrorfW "failed to remove service file: " (some err)), w1)
  | (none, w1) => (none, w1)

/-- The path `binaryPath` computed by `Agent.removeAgentBinary`. -/
def Agent.binaryPath (a : Agent) : String :=
  Join a.InstallPath a.ServiceName

/-- The method `Agent.removeAgentBinary`. -/
def Agent.removeAgentBinary (os : OS σ) (a : Agent) (w : World σ) :
    Option GoError × World σ :=
  match remove os a.binaryPath w with
  | (some err, w1) => (some (ErrorfW "failed to remove agent binary: " (some err)), w1)
  | (none, w1) => (none, w1)

/-- The path `configPath` of `Agent.removeConfigDirectory`. -/
def configPath : String := "/etc/morpher-agent"

/-- The method `Agent.removeConfigDirectory`. -/
def Agent.removeConfigDirectory (os : OS σ) (_a : Agent) (w : World σ) :
    Option GoError × World σ :=
  match removeAll os configPath w with
  | (some err, w1) => (some (ErrorfW "failed to remove config directory: " (some err)), w1)
  | (none, w1) => (none, w1)

/-- The command built by `Agent.reloadSystemd`. -/
def reloadCmd : Cmd :=
  Command "sudo" ["systemctl", "daemon-reload"]

/-- The method `Agent.reloadSystemd`. -/
def Agent.reloadSystemd (os : OS σ) (_a : Agent) (w : World σ) : Option GoError × World σ :=
  match run os reloadCmd w with
  | (some err, w1) => (some (ErrorfW "failed to reload systemd: " (some err)), w1)
  | (none, w1) => (none, w1)

/-- The command built by `Agent.getServiceStatus`. -/
def Agent.isActiveCmd (a : Agent) : Cmd :=
  Command "systemctl" ["is-active", a.ServiceName]

/-- The method `Agent.getServiceStatus`. -/
def Agent.getServiceStatus (os : OS σ) (a : Agent) (w : World σ) :
    (String × Option GoError) × World σ :=
  match output os a.isActiveCmd w with
  | ((_, some err), w1) => (("", some (ErrorfW "failed to get service status: " (some err))), w1)
  | ((out, none), w1) => ((TrimSpace out, none), w1)

/-- The command built by `Agent.isServiceEnabled`. -/
def Agent.isEnabledCmd (a : Agent) : Cmd :=
  Command "systemctl" ["is-enabled", a.ServiceName]

/-- The method `Agent.isServiceEnabled`. -/
def Agent.isServiceEnabled (os : OS σ) (a : Agent) (w : World σ) :
    (Bool × Option GoError) × World σ :=
  match output os a.isEnabledCmd w with
  | ((_, some err), w1) =>
    ((false, some (ErrorfW "failed to check if service is enabled: " (some err))), w1)
  | ((out, none), w1) => ((TrimSpace out == "enabled", none), w1)

/-- The method `Agent.Install`; the version argument is the blank parameter `_`. -/
def Agent.Install (os : OS σ) (a : Agent) (_version : String) (w : World σ) :
    Option GoError × World σ :=
  match a.downloadInstallScript os w with
  | ((_, some err), w1) => (some (ErrorfW "failed to download install script: " (some err)), w1)
  | ((scriptPath, none), w1) =>
    match chmod os scriptPath 0o755 w1 with
    | (some err, w2) => (some (ErrorfW "failed to make script executable: " (some err)), w2)
    | (none, w2) =>
      match a.runInstallScript os scriptPath w2 with
      | (some err, w3) => (some (ErrorfW "failed to run install script: " (some err)), w3)
      | (none, w3) =>
        match remove os scriptPath w3 with
        | (_, w4) => (none, w4)

/-- The method `Agent.Uninstall`. -/
def Agent.Uninstall (os : OS σ) (a : Agent) (w : World σ) : Option GoError × World σ :=
  match a.stopService os w with
  | (some err, w1) => (some (ErrorfW "failed to stop service: " (some err)), w1)
  | (none, w1) =>
    match a.removeServiceFile os w1 with
    | (some err, w2) => (some (ErrorfW "failed to remove service file: " (some err)), w2)
    | (none, w2) =>
      match a.removeAgentBinary os w2 with
      | (some err, w3) => (some (ErrorfW "failed to remove agent binary: " (some err)), w3)
      | (none, w3) =>
        match a.removeConfigDirectory os w3 with
        | (some err, w4) =>
          (some (ErrorfW "failed to remove config directory: " (some err)), w4)
        | (none, w4) =>
          match a.reloadSystemd os w4 with
          | (some err, w5) => (some (ErrorfW "failed to reload systemd: " (some err)), w5)
          | (none, w5) => (none, w5)

/-- The method `Agent.Upgrade`. -/
def Agent.Upgrade (os : OS σ) (a : Agent) (version : String) (w : World σ) :
    Option GoError × World σ :=
  match a.isInstalled os w with
  | (false, w0) => (some (Errorf "agent is not installed"), w0)
  | (true, w0) =>
    match a.stopService os w0 with
    | (some err, w1) => (some (ErrorfW "failed to stop service: " (some err)), w1)
    | (none, w1) =>
      match a.Install os version w1 with
      | (some err, w2) => (some (ErrorfW "failed to install new version: " (some err)), w2)
      | (none, w2) =>
        match a.startService os w2 with
        | (some err, w3) => (some (ErrorfW "failed to start service: " (some err)), w3)
        | (none, w3) => (none, w3)

/-- The method `Agent.Verify`. -/
def Agent.Verify (os : OS σ) (a : Agent) (w : World σ) :
    (VerificationResult × Option GoError) × World σ :=
  let result : VerificationResult :=
    { BinaryInstalled := false, BinaryPath := "", ServiceStatus := "",
      ServiceRunning := false, ServiceEnabled := false }
  match a.isInstalled os w with
  | (installed, w1) =>
    let result :=
      if installed then
        { result with BinaryInstalled := true
                      BinaryPath := Join a.InstallPath a.ServiceName }
      else result
    match a.getServiceStatus os w1 with
    | ((status, err), w2) =>
      let result :=
        if err.isNone then
          { result with ServiceStatus := status, ServiceRunning := status == "active" }
        else result
      match a.isServiceEnabled os w2 with
      | ((enabled, err), w3) =>
        let result := if err.isNone then { result with ServiceEnabled := enabled } else result
        ((result, none), w3)

/-- The method `Agent.Status`. -/
def Agent.Status (os : OS σ) (a : Agent) (w : World σ) :
    (StatusResult × Option GoError) × World σ :=
  let status : StatusResult :=
    { Installed := false, InstallPath := "", ServiceStatus := "", ServiceEnabled := false }
  match a.isInstalled os w with
  | (installed, w1) =>
    let status :=
      if installed then
        { status with Installed := true, InstallPath := Join a.InstallPath a.ServiceName }
      else status
    match a.getServiceStatus os w1 with
    | ((serviceStatus, err), w2) =>
      let status := if err.isNone then { status with ServiceStatus := serviceStatus } else status
      match a.isServiceEnabled os w2 with
      | ((enabled, err), w3) =>
        let status := if err.isNone then { status with ServiceEnabled := enabled } else status
        ((status, none), w3)

/-! ## Replaying a sequence of calls -/

/-- The error result of one call on the host state `s`, and the next host state. -/
def OS.call (os : OS σ) (s : σ) : Action → Option GoError × σ
  | .LookPath file => ((os.LookPath s file).1.2, (os.LookPath s file).2)
  | .Run cmd => os.Run s cmd
  | .Output cmd => ((os.Output s cmd).1.2, (os.Output s cmd).2)
  | .Stat name => os.Stat s name
  | .Chmod name mode => os.Chmod s name mode
  | .Remove name => os.Remove s name
  | .RemoveAll path => os.RemoveAll s path
  | .CreateTemp dir pattern => ((os.CreateTemp s dir pattern).1.2, (os.CreateTemp s dir pattern).2)
  | .Close name => (none, os.Close s name)

/-- The error results of a sequence of calls issued one after the other from `s`. -/
def OS.outcomes (os : OS σ) : σ → List Action → List (Option GoError)
  | _, [] => []
  | s, a :: rest => (os.call s a).1 :: os.outcomes (os.call s a).2 rest

/-- The host state after a sequence of calls issued one after the other from `s`. -/
def OS.after (os : OS σ) : σ → List Action → σ
  | s, [] => s
  | s, a :: rest => os.after (os.call s a).2 rest

/-- The fixed sequence of calls of `Agent.Uninstall`: stop and disable the service,
remove the unit file, remove the binary, remove the configuration directory, reload
the unit cache. -/
def Agent.uninstallSteps (a : Agent) : List Action :=
  [.Run a.stopCmd, .Remove a.servicePath, .Remove a.binaryPath, .RemoveAll configPath,
    .Run reloadCmd]

/-- A pipeline of named steps, as the design describes every lifecycle operation:
the steps run in order, each step either succeeds and advances or fails, and the
first failure aborts the operation with that step's error under the step's name. -/
def pipeline : List (String × (World σ → Option GoError × World σ)) → World σ →
    Option GoError × World σ
  | [], w => (none, w)
  | (name, step) :: rest, w =>
    match step w with
    | (some err, w1) => (some (ErrorfW name (some err)), w1)
    | (none, w1) => pipeline rest w1

/-- Whether a command asks the init system to enable a unit at boot, directly or
through `sudo`. -/
def Cmd.enablesAtBoot (c : Cmd) : Bool :=
  c.Args.take 2 == ["systemctl", "enable"] || c.Args.take 3 == ["sudo", "systemctl", "enable"]

/-! ## A concrete host

A small executable host on which the package can be run: a filesystem that is a list
of existing paths, a `PATH` that is a list of program names, and canned command
results.  `os.Remove` fails on a path that does not exist and `os.RemoveAll` does
not, as the Go library documents. -/

/-- The state of the concrete host. -/
structure Host where
  /-- The paths that exist. -/
  files : List String
  /-- Existing paths whose removal and mode change the kernel refuses. -/
  locked : List String
  /-- Paths that cannot be examined: `stat` is refused with `EACCES`. -/
  unreadable : List String
  /-- The programs found on `PATH`. -/
  tools : List String
  /-- Argument vectors whose process exits with the given non-zero status. -/
  failing : List (List String × Nat)
  /-- Argument vectors with the standard output their process prints. -/
  prints : List (List String × String)
  /-- The environment of the calling process. -/
  environ : List String
  deriving DecidableEq, Repr

/-- The error of starting a program that is not on `PATH`. -/
def notFound (name : String) : GoError :=
  .execError name "executable file not found in $PATH"

/-- The exit of a process on the concrete host. -/
def Host.exit (h : Host) (cmd : Cmd) : Option GoError :=
  if cmd.Path ∈ h.tools then
    match h.failing.lookup cmd.Args with
    | some code => some (.exitError code)
    | none => none
  else some (notFound cmd.Path)

/-- Whether `path` is `root` or lies below it. -/
def below (root path : String) : Bool :=
  path == root || (root.data ++ ['/']).isPrefixOf path.data

/-- The concrete host. -/
def stdOS : OS Host where
  LookPath h file :=
    if file ∈ h.tools then (("/usr/bin/" ++ file, none), h) else (("", some (notFound file)), h)
  Run h cmd := (h.exit cmd, h)
  Output h cmd := (((h.prints.lookup cmd.Args).getD "", h.exit cmd), h)
  Stat h name :=
    if name ∈ h.unreadable then (some (.pathError "stat" name .EACCES), h)
    else if name ∈ h.files then (none, h)
    else (some (.pathError "stat" name .ENOENT), h)
  Chmod h name _ :=
    if name ∈ h.files then
      if name ∈ h.locked then (some (.pathError "chmod" name .EPERM), h) else (none, h)
    else (some (.pathError "chmod" name .ENOENT), h)
  Remove h name :=
    if name ∈ h.files then
      if name ∈ h.locked then (some (.pathError "remove" name .EPERM), h)
      else (none, { h with files := h.files.filter (fun f => f != name) })
    else (some (.pathError "remove" name .ENOENT), h)
  RemoveAll h path :=
    match (h.files.filter (below path)).find? (fun f => f ∈ h.locked) with
    | some f => (some (.pathError "unlinkat" f .EPERM), h)
    | none => (none, { h with files := h.files.filter (fun f => !below path f) })
  CreateTemp h dir pattern :=
    let name := (if dir = "" then "/tmp" else dir) ++ "/" ++ pattern ++ "1234567890"
    ((name, none), { h with files := name :: h.files })
  Close h _ := h
  Environ h := h.environ

/-- The agent that `NewAgent` builds on an amd64 build for the controller 10.0.0.1. -/
def exAgent : Agent := NewAgent "amd64" "10.0.0.1"

/-! ## Example hosts -/

/-- A host with the agent installed whose unit file cannot be removed. -/
def hostUnitLocked : Host :=
  { files := ["/etc/systemd/system/morpher-agent.service", "/usr/local/bin/morpher-agent",
      "/etc/morpher-agent"]
    locked := ["/etc/systemd/system/morpher-agent.service"]
    unreadable := []
    tools := ["sudo", "systemctl", "wget", "curl"]
    failing := []
    prints := []
    environ := ["PATH=/usr/bin"] }

/-- A host on which nothing is installed. -/
def hostBare : Host :=
  { files := []
    locked := []
    unreadable := []
    tools := ["sudo", "systemctl", "wget", "curl"]
    failing := []
    prints := []
    environ := ["PATH=/usr/bin"] }

/-- A host where wget is on `PATH` and its transfer to `d` from `u` exits with
status 4 (network failure); curl is on `PATH` as well. -/
def hostWgetFails : Host :=
  { hostBare with failing := [(["wget", "-O", "d", "u"], 4)] }

/-- A host with the agent installed whose binary cannot be removed. -/
def hostBinLocked : Host :=
  { hostUnitLocked with locked := ["/usr/local/bin/morpher-agent"] }

/-- A host where wget is on `PATH` and the transfer of the install script exits with
status 4. -/
def hostDownloadFails : Host :=
  { hostBare with
    failing := [(["wget", "-O", "/tmp/install_amd64.sh1234567890", exAgent.scriptURL], 4)] }

/-- A host where the binary path cannot be examined. -/
def hostUnreadable : Host :=
  { hostBare with
    files := ["/usr/local/bin/morpher-agent"]
    unreadable := ["/usr/local/bin/morpher-agent"] }

/-- A host with the agent installed on which every call behaves normally. -/
def hostInstalled : Host :=
  { hostUnitLocked with locked := [] }

/-! ## The summaries of the status and verify commands -/

/-- The four arms of the summary `switch` of `showStatus` and of `verifyAgent`. -/
inductive Summary
  /-- Installed, running and enabled at boot. -/
  | runningEnabled
  /-- Installed and running, not enabled at boot. -/
  | runningNotEnabled
  /-- Installed, service not running. -/
  | installedNotRunning
  /-- Not installed. -/
  | notInstalled
  deriving DecidableEq, Repr

/-- The arm taken by the `switch` under "Summary:" in `showStatus`. -/
def summaryCase (status : StatusResult) : Summary :=
  if status.Installed && status.ServiceStatus == "active" && status.ServiceEnabled then
    .runningEnabled
  else if status.Installed && status.ServiceStatus == "active" then .runningNotEnabled
  else if status.Installed then .installedNotRunning
  else .notInstalled

/-- The line each arm of the summary `switch` of `showStatus` prints. -/
def summaryText : Summary → String
  | .runningEnabled => "Agent is running and properly configured"
  | .runningNotEnabled => "Agent is running but not enabled at boot"
  | .installedNotRunning => "Agent is installed but service is not running"
  | .notInstalled => "Agent is not installed"

/-- The arm taken by the `switch` under "Overall Status:" in `verifyAgent`. -/
def overallCase (result : VerificationResult) : Summary :=
  if result.BinaryInstalled && result.ServiceRunning && result.ServiceEnabled then
    .runningEnabled
  else if result.BinaryInstalled && result.ServiceRunning then .runningNotEnabled
  else if result.BinaryInstalled then .installedNotRunning
  else .notInstalled

/-- The line each arm of the overall-status `switch` of `verifyAgent` prints. -/
def overallText : Summary → String
  | .runningEnabled => "PASS - Agent is properly installed and running"
  | .runningNotEnabled => "WARNING - Agent is running but not enabled"
  | .installedNotRunning => "WARNING - Agent is installed but service is not running"
  | .notInstalled => "FAIL - Agent is not properly installed"

/-! ## Variants of a host and further readings of a run -/

/-- The host `os` changed in one respect only: the query `cmd` fails with `e`.  Its
standard output and the host state it leaves are as on `os`. -/
def OS.failingQuery (os : OS σ) (cmd : Cmd) (e : GoError) : OS σ :=
  { os with
    Output := fun s c =>
      if c = cmd then (((os.Output s c).1.1, some e), (os.Output s c).2) else os.Output s c }

/-- The names `Agent.Uninstall` attaches to the errors of its five steps, in step
order. -/
def uninstallStepNames : List String :=
  ["failed to stop service", "failed to remove service file", "failed to remove agent binary",
    "failed to remove config directory", "failed to reload systemd"]

/-- The value a started process sees for the variable `key` when its environment is
the list `env`: of several entries for one key the last is used, as `os/exec`
documents. -/
def lookupEnv (env : List String) (key : String) : Option String :=
  match env.reverse.find? (fun kv => (key.data ++ ['=']).isPrefixOf kv.data) with
  | some kv => some (String.mk (kv.data.drop (key.data.length + 1)))
  | none => none

/-- A host with the agent installed where `systemctl is-active` answers "active" and
`systemctl is-enabled` answers "disabled", both with exit status 0. -/
def hostDisabled : Host :=
  { hostInstalled with
    prints := [(["systemctl", "is-active", "morpher-agent"], "active\n"),
      (["systemctl", "is-enabled", "morpher-agent"], "disabled\n")] }

/-- The host `hostDisabled` except that `systemctl is-enabled` fails with exit
status 1. -/
def hostEnabledUnknown : Host :=
  { hostDisabled with failing := [(["systemctl", "is-enabled", "morpher-agent"], 1)] }

/-- The error `Uninstall` returns on the host `hostUnitLocked`: the refusal of the
unit-file removal, wrapped by `removeServiceFile` and again by `Uninstall`. -/
def errUnitLocked : GoError :=
  ErrorfW "failed to remove service file: "
    (some (ErrorfW "failed to remove service file: "
      (some (.pathError "remove" "/etc/systemd/system/morpher-agent.service" .EPERM))))

/-! ## Package `config` and package `cmd/agent` -/

/-- The host as the commands of package `cmd/agent` see it: the calls of package
`agent` and, beyond them, the user of the process, its home directory, its terminal
and the configuration library.  These further calls move the host state and are not
entered in the log. -/
structure Console (σ : Type) extends OS σ where
  /-- The function `os.Geteuid`. -/
  Geteuid : σ → Int
  /-- The function `os.UserHomeDir`. -/
  UserHomeDir : σ → String × Option GoError
  /-- The calls `viper.SetConfigFile(file)`, `viper.SetConfigType("yaml")` and
  `viper.ReadInConfig()` in a row; the result is that of `ReadInConfig`. -/
  ReadInConfig : σ → String → Option GoError × σ
  /-- The function `viper.GetString`. -/
  GetString : σ → String → String
  /-- The call `fmt.Scanln(&response)` on an empty `response`: the value of
  `response` after the call, and the error. -/
  Scanln : σ → (String × Option GoError) × σ
  /-- Writing a text to standard output, as `fmt.Print`, `fmt.Println` and
  `fmt.Printf` do. -/
  Print : σ → String → σ

/-- Move to the next host state without a log entry. -/
def World.move (w : World σ) (s : σ) : World σ :=
  { w with host := s }

/-- Write `text` to standard output. -/
def print (cs : Console σ) (text : String) (w : World σ) : World σ :=
  w.move (cs.Print w.host text)

/-- The call `fmt.Scanln(&response)`. -/
def scanln (cs : Console σ) (w : World σ) : (String × Option GoError) × World σ :=
  ((cs.Scanln w.host).1, w.move (cs.Scanln w.host).2)

/-- The function `filepath.Dir` on a Unix host: the path up to and including its last
separator, cleaned. -/
def Dir (path : String) : String :=
  Clean (String.mk ((path.data.reverse.dropWhile (fun c => c != '/')).reverse))

/-- The struct `config.Manager`. -/
structure Manager where
  configFile : String
  configDir : String
  deriving DecidableEq, Repr

/-- The function `config.NewManager`, on the host state `s`. -/
def NewManager (cs : Console σ) (configFile : String) (s : σ) : Manager :=
  let homeDir :=
    match cs.UserHomeDir s with
    | (_, some _) => "."
    | (home, none) => home
  let defaultConfigDir := Join homeDir ".morpherctl"
  let configFile := if configFile = "" then Join defaultConfigDir "config.yaml" else configFile
  let configDir :=
    if configFile = Join defaultConfigDir "config.yaml" then defaultConfigDir
    else Dir configFile
  { configFile := configFile, configDir := configDir }

/-- The method `Manager.load`. -/
def Manager.load (cs : Console σ) (m : Manager) (w : World σ) : Option GoError × World σ :=
  match cs.ReadInConfig w.host m.configFile with
  | (some err, s1) =>
    (some (ErrorfW "failed to read configuration file: " (some err)), w.move s1)
  | (none, s1) => (none, w.move s1)

/-- The method `Manager.GetString`. -/
def Manager.GetString (cs : Console σ) (m : Manager) (key : String) (w : World σ) :
    (String × Option GoError) × World σ :=
  match m.load cs w with
  | (some err, w1) => (("", some err), w1)
  | (none, w1) => ((cs.GetString w1.host key, none), w1)

/-- The function `runPreflight` of `install.go`. -/
def runPreflight (cs : Console σ) (w : World σ) : Option GoError × World σ :=
  if cs.Geteuid w.host ≠ 0 then (some (Errorf "installation requires root privileges"), w)
  else
    match stat cs.toOS "/run/systemd/system" w with
    | (err, w1) =>
      if IsNotExist err then (some (Errorf "systemd is not available"), w1) else (none, w1)

/-- The function `runUninstallPreflight`. -/
def runUninstallPreflight (cs : Console σ) (w : World σ) : Option GoError × World σ :=
  if cs.Geteuid w.host ≠ 0 then (some (Errorf "uninstallation requires root privileges"), w)
  else
    match stat cs.toOS "/run/systemd/system" w with
    | (err, w1) =>
      if IsNotExist err then (some (Errorf "systemd is not available"), w1) else (none, w1)

/-- The last check of `runUpgradePreflight`: whether the user can run sudo
commands. -/
def checkSudoPrivileges (cs : Console σ) (w : World σ) : Option GoError × World σ :=
  if cs.Geteuid w.host ≠ 0 then
    match run cs.toOS (Command "sudo" ["-n", "true"]) (print cs "Checking sudo privileges... " w)
      with
    | (some _, w1) =>
      (some (Errorf ("sudo privileges required - please run with " ++
        "'sudo morpherctl agent upgrade' or ensure sudo access")), print cs "FAILED\n" w1)
    | (none, w1) => (none, print cs "OK\n" w1)
  else (none, w)

/-- The function `runUpgradePreflight`. -/
def runUpgradePreflight (cs : Console σ) (w : World σ) : Option GoError × World σ :=
  match lookPath cs.toOS "sudo" w with
  | ((_, some _), w1) =>
    (some (Errorf "sudo is not available - upgrade requires sudo privileges"), w1)
  | ((_, none), w1) =>
    match stat cs.toOS "/run/systemd/system" w1 with
    | (err, w2) =>
      if IsNotExist err then
        match lookPath cs.toOS "launchctl" w2 with
        | ((_, some _), w3) =>
          (some (Errorf "neither systemd nor launchd is available - unsupported platform"), w3)
        | ((_, none), w3) => checkSudoPrivileges cs (print cs "Using launchd (macOS)\n" w3)
      else checkSudoPrivileges cs (print cs "Using systemd (Linux)\n" w2)

/-- The version a command takes from its arguments: `"latest"` unless one is given. -/
def versionOf (args : List String) : String :=
  match args with
  | [] => "latest"
  | v :: _ => v

/-- The function `installAgent`; `GOARCH` is the constant `runtime.GOARCH`. -/
def installAgent (cs : Console σ) (GOARCH : String) (args : List String) (w : World σ) :
    Option GoError × World σ :=
  let version := versionOf args
  match (NewManager cs "" w.host).GetString cs "controller.ip" w with
  | ((_, some err), w1) =>
    (some (ErrorfW "failed to get controller IP from config: " (some err)), w1)
  | ((controllerIP, none), w1) =>
    let w2 := print cs ("Installing morpher agent " ++ version ++ "...\n") w1
    let w3 := print cs ("Controller IP: " ++ controllerIP ++ "\n") w2
    let ag := NewAgent GOARCH controllerIP
    let w4 := print cs "Running preflight checks... " w3
    match runPreflight cs w4 with
    | (some err, w5) => (some (ErrorfW "preflight failed: " (some err)), print cs "FAILED\n" w5)
    | (none, w5) =>
      let w6 := print cs "Installing agent... " (print cs "OK\n" w5)
      match ag.Install cs.toOS version w6 with
      | (some err, w7) =>
        (some (ErrorfW "installation failed: " (some err)), print cs "FAILED\n" w7)
      | (none, w7) =>
        (none, print cs "Installation completed successfully\n" (print cs "OK\n" w7))

/-- The part of `uninstallAgent` after the confirmation: the preflight checks and the
uninstallation. -/
def uninstallConfirmed (cs : Console σ) (ag : Agent) (w : World σ) :
    Option GoError × World σ :=
  let w1 := print cs "Running preflight checks... " w
  match runUninstallPreflight cs w1 with
  | (some err, w2) => (some (ErrorfW "preflight failed: " (some err)), print cs "FAILED\n" w2)
  | (none, w2) =>
    let w3 := print cs "Uninstalling agent... " (print cs "OK\n" w2)
    match ag.Uninstall cs.toOS w3 with
    | (some err, w4) =>
      (some (ErrorfW "uninstallation failed: " (some err)), print cs "FAILED\n" w4)
    | (none, w4) =>
      (none, print cs "Uninstallation completed successfully\n" (print cs "OK\n" w4))

/-- The function `uninstallAgent`. -/
def uninstallAgent (cs : Console σ) (GOARCH : String) (w : World σ) :
    Option GoError × World σ :=
  let w0 := print cs "Uninstalling morpher agent...\n" w
  match (NewManager cs "" w0.host).GetString cs "controller.ip" w0 with
  | ((_, some err), w1) =>
    (some (ErrorfW "failed to get controller IP from config: " (some err)), w1)
  | ((controllerIP, none), w1) =>
    let ag := NewAgent GOARCH controllerIP
    match ag.Status cs.toOS w1 with
    | ((_, some err), w2) => (some (ErrorfW "failed to check agent status: " (some err)), w2)
    | ((status, none), w2) =>
      if !status.Installed then (some (Errorf "agent is not installed"), w2)
      else
        match scanln cs (print cs "Are you sure you want to uninstall the agent? (y/N): " w2)
          with
        | ((_, some _), w3) =>
          uninstallConfirmed cs ag
            (print cs "Failed to read input, proceeding with uninstallation\n" w3)
        | ((response, none), w3) =>
          if response != "y" && response != "Y" then
            (none, print cs "Uninstallation cancelled\n" w3)
          else uninstallConfirmed cs ag w3

/-- The function `upgradeAgent`. -/
def upgradeAgent (cs : Console σ) (GOARCH : String) (args : List String) (w : World σ) :
    Option GoError × World σ :=
  let version := versionOf args
  match (NewManager cs "" w.host).GetString cs "controller.ip" w with
  | ((_, some err), w1) =>
    (some (ErrorfW "failed to get controller IP from config: " (some err)), w1)
  | ((controllerIP, none), w1) =>
    let w2 := print cs ("Upgrading morpher agent to " ++ version ++ "...\n") w1
    let w3 := print cs ("Controller IP: " ++ controllerIP ++ "\n") w2
    let ag := NewAgent GOARCH controllerIP
    let w4 := print cs "Checking current installation... " w3
    match ag.Status cs.toOS w4 with
    | ((_, some err), w5) =>
      (some (ErrorfW "failed to check agent status: " (some err)), print cs "FAILED\n" w5)
    | ((status, none), w5) =>
      if !status.Installed then
        (some (Errorf "agent is not installed"), print cs "FAILED\n" w5)
      else
        let w6 := print cs "Running preflight checks... " (print cs "OK\n" w5)
        match runUpgradePreflight cs w6 with
        | (some err, w7) =>
          (some (ErrorfW "preflight failed: " (some err)), print cs "FAILED\n" w7)
        | (none, w7) =>
          let w8 := print cs "Upgrading agent... " (print cs "OK\n" w7)
          match ag.Upgrade cs.toOS version w8 with
          | (some err, w9) =>
            (some (ErrorfW "upgrade failed: " (some err)), print cs "FAILED\n" w9)
          | (none, w9) =>
            (none, print cs "Upgrade completed successfully\n" (print cs "OK\n" w9))

/-- Whether a call only examines the host: a `stat`, a query read with `Output`, a
lookup on `PATH`, or the run of `sudo -n true`, which asks whether sudo would need a
password.  Every other run of a command, and every removal, creation, mode change and
close, is not a probe. -/
def Action.isProbe : Action → Bool
  | .Stat _ => true
  | .Output _ => true
  | .LookPath _ => true
  | .Run cmd => cmd == Command "sudo" ["-n", "true"]
  | _ => false

/-- The world in which `installAgent` calls its preflight, when it gets that far. -/
def installAgent.atPreflight (cs : Console σ) (args : List String) (w : World σ) :
    Option (World σ) :=
  match (NewManager cs "" w.host).GetString cs "controller.ip" w with
  | ((_, some _), _) => none
  | ((controllerIP, none), w1) =>
    some (print cs "Running preflight checks... "
      (print cs ("Controller IP: " ++ controllerIP ++ "\n")
        (print cs ("Installing morpher agent " ++ versionOf args ++ "...\n") w1)))

/-- The world in which `uninstallAgent` calls its preflight, when it gets that far:
the configuration was read, the agent is reported installed, and the confirmation
was not declined. -/
def uninstallAgent.atPreflight (cs : Console σ) (GOARCH : String) (w : World σ) :
    Option (World σ) :=
  let w0 := print cs "Uninstalling morpher agent...\n" w
  match (NewManager cs "" w0.host).GetString cs "controller.ip" w0 with
  | ((_, some _), _) => none
  | ((controllerIP, none), w1) =>
    match (NewAgent GOARCH controllerIP).Status cs.toOS w1 with
    | ((status, _), w2) =>
      if !status.Installed then none
      else
        match scanln cs (print cs "Are you sure you want to uninstall the agent? (y/N): " w2)
          with
        | ((_, some _), w3) =>
          some (print cs "Running preflight checks... "
            (print cs "Failed to read input, proceeding with uninstallation\n" w3))
        | ((response, none), w3) =>
          if response != "y" && response != "Y" then none
          else some (print cs "Running preflight checks... " w3)

/-- The world in which `upgradeAgent` calls its preflight, when it gets that far. -/
def upgradeAgent.atPreflight (cs : Console σ) (GOARCH : String) (args : List String)
    (w : World σ) : Option (World σ) :=
  match (NewManager cs "" w.host).GetString cs "controller.ip" w with
  | ((_, some _), _) => none
  | ((controllerIP, none), w1) =>
    match (NewAgent GOARCH controllerIP).Status cs.toOS
      (print cs "Checking current installation... "
        (print cs ("Controller IP: " ++ controllerIP ++ "\n")
          (print cs ("Upgrading morpher agent to " ++ versionOf args ++ "...\n") w1))) with
    | ((status, _), w5) =>
      if !status.Installed then none
      else some (print cs "Running preflight checks... " (print cs "OK\n" w5))

/-! ## A concrete console -/

/-- The calls of package `agent` on a host state that carries a second component,
which they leave alone. -/
def OS.onFst (os : OS σ) (τ : Type) : OS (σ × τ) where
  LookPath s file := ((os.LookPath s.1 file).1, ((os.LookPath s.1 file).2, s.2))
  Run s cmd := ((os.Run s.1 cmd).1, ((os.Run s.1 cmd).2, s.2))
  Output s cmd := ((os.Output s.1 cmd).1, ((os.Output s.1 cmd).2, s.2))
  Stat s name := ((os.Stat s.1 name).1, ((os.Stat s.1 name).2, s.2))
  Chmod s name mode := ((os.Chmod s.1 name mode).1, ((os.Chmod s.1 name mode).2, s.2))
  Remove s name := ((os.Remove s.1 name).1, ((os.Remove s.1 name).2, s.2))
  RemoveAll s path := ((os.RemoveAll s.1 path).1, ((os.RemoveAll s.1 path).2, s.2))
  CreateTemp s dir pattern :=
    ((os.CreateTemp s.1 dir pattern).1, ((os.CreateTemp s.1 dir pattern).2, s.2))
  Close s name := (os.Close s.1 name, s.2)
  Environ s := os.Environ s.1

/-- The process and terminal side of the concrete console. -/
structure Term where
  /-- The effective user id of the process. -/
  euid : Int
  /-- The home directory, when `$HOME` is set. -/
  home : Option String
  /-- The readable configuration files, each with its settings as strings. -/
  configs : List (String × List (String × String))
  /-- The settings the configuration library holds after its last read. -/
  loaded : List (String × String)
  /-- The lines waiting on standard input. -/
  stdin : List String
  /-- The texts written to standard output, oldest first. -/
  stdout : List String
  deriving DecidableEq, Repr

/-- The blank-separated fields of a line; `cur` is the field being read, reversed. -/
def fieldsFrom : List Char → List Char → List (List Char)
  | [], cur => if cur = [] then [] else [cur.reverse]
  | c :: cs, cur =>
    if c = ' ' ∨ c = '\t' then
      if cur = [] then fieldsFrom cs [] else cur.reverse :: fieldsFrom cs []
    else fieldsFrom cs (c :: cur)

/-- The result of `fmt.Scanln(&response)` on one typed line: a line with a single
field is read into `response`; an empty line is an error, and so is a line with more
than one field, after the first was read. -/
def scanLine (line : String) : String × Option GoError :=
  match fieldsFrom line.data [] with
  | [] => ("", some (.errorString "unexpected newline"))
  | [field] => (String.mk field, none)
  | field :: _ => (String.mk field, some (.errorString "expected newline"))

/-- The concrete console: the concrete host together with a process and terminal. -/
def stdConsole : Console (Host × Term) where
  toOS := stdOS.onFst Term
  Geteuid s := s.2.euid
  UserHomeDir s :=
    match s.2.home with
    | some home => (home, none)
    | none => ("", some (.errorString "$HOME is not defined"))
  ReadInConfig s file :=
    match s.2.configs.lookup file with
    | some settings => (none, (s.1, { s.2 with loaded := settings }))
    | none => (some (.pathError "open" file .ENOENT), s)
  GetString s key := (s.2.loaded.lookup key).getD ""
  Scanln s :=
    match s.2.stdin with
    | [] => (("", some (.errorString "EOF")), s)
    | line :: rest => (scanLine line, (s.1, { s.2 with stdin := rest }))
  Print s text := (s.1, { s.2 with stdout := s.2.stdout ++ [text] })

/-- A terminal of the user root who answers "y", with the controller address
10.0.0.1 configured. -/
def termRoot : Term :=
  { euid := 0
    home := some "/root"
    configs := [("/root/.morpherctl/config.yaml", [("controller.ip", "10.0.0.1")])]
    loaded := []
    stdin := ["y"]
    stdout := [] }

/-- A terminal of an unprivileged user who answers "y". -/
def termUser : Term :=
  { termRoot with
    euid := 1000
    home := some "/home/op"
    configs := [("/home/op/.morpherctl/config.yaml", [("controller.ip", "10.0.0.1")])] }

/-- A host with the agent installed and the systemd runtime directory present. -/
def hostSystemd : Host :=
  { hostInstalled with files := "/run/systemd/system" :: hostInstalled.files }

/-! ## The checks of the upgrade preflight, one by one -/

/-- The first check of `runUpgradePreflight`: sudo is on `PATH`. -/
def sudoOnPath (cs : Console σ) (w : World σ) : Bool :=
  (lookPath cs.toOS "sudo" w).1.2.isNone

/-- The second check of `runUpgradePreflight`, made after the first: the `stat` of
`/run/systemd/system` does not report that the directory is missing, or launchctl is
on `PATH`. -/
def initSystemFound (cs : Console σ) (w : World σ) : Bool :=
  let w1 := (lookPath cs.toOS "sudo" w).2
  !IsNotExist (stat cs.toOS "/run/systemd/system" w1).1 ||
    (lookPath cs.toOS "launchctl" (stat cs.toOS "/run/systemd/system" w1).2).1.2.isNone

/-- The world in which `runUpgradePreflight` makes its third check, once the first two
have passed and the init system found has been printed. -/
def beforeSudoCheck (cs : Console σ) (w : World σ) : World σ :=
  let w1 := (lookPath cs.toOS "sudo" w).2
  let r2 := stat cs.toOS "/run/systemd/system" w1
  if IsNotExist r2.1 then
    print cs "Using launchd (macOS)\n" (lookPath cs.toOS "launchctl" r2.2).2
  else print cs "Using systemd (Linux)\n" r2.2

/-- The third check of `runUpgradePreflight`: the process is root, or `sudo -n true`
succeeds. -/
def canSudo (cs : Console σ) (w : World σ) : Bool :=
  cs.Geteuid (beforeSudoCheck cs w).host == 0 ||
    (run cs.toOS (Command "sudo" ["-n", "true"])
      (print cs "Checking sudo privileges... " (beforeSudoCheck cs w))).1.isNone

/-- A host with sudo and systemd where `sudo -n true` asks for a password. -/
def hostSudoAsks : Host :=
  { hostSystemd with failing := [(["sudo", "-n", "true"], 1)] }

/-! ## The stages of `uninstallAgent` -/

/-- The configuration read of `uninstallAgent`: the controller address, the error,
and the world after it. -/
def uninstallAgent.config (cs : Console σ) (w : World σ) :
    (String × Option GoError) × World σ :=
  (NewManager cs "" (print cs "Uninstalling morpher agent...\n" w).host).GetString cs
    "controller.ip" (print cs "Uninstalling morpher agent...\n" w)

/-- The agent `uninstallAgent` builds from the configured controller address. -/
def uninstallAgent.agent (cs : Console σ) (GOARCH : String) (w : World σ) : Agent :=
  NewAgent GOARCH (uninstallAgent.config cs w).1.1

/-- The status `uninstallAgent` obtains after a successful configuration read. -/
def uninstallAgent.status (cs : Console σ) (GOARCH : String) (w : World σ) :
    (StatusResult × Option GoError) × World σ :=
  (uninstallAgent.agent cs GOARCH w).Status cs.toOS (uninstallAgent.config cs w).2

/-- The reading of the confirmation, after the prompt "(y/N)" was printed. -/
def uninstallAgent.answer (cs : Console σ) (GOARCH : String) (w : World σ) :
    (String × Option GoError) × World σ :=
  scanln cs (print cs "Are you sure you want to uninstall the agent? (y/N): "
    (uninstallAgent.status cs GOARCH w).2)

/-- Whether the confirmation lets the uninstallation go on: reading it failed, or it
is exactly "y" or "Y". -/
def uninstallAgent.confirmed (cs : Console σ) (GOARCH : String) (w : World σ) : Bool :=
  (uninstallAgent.answer cs GOARCH w).1.2.isSome ||
    (uninstallAgent.answer cs GOARCH w).1.1 == "y" ||
    (uninstallAgent.answer cs GOARCH w).1.1 == "Y"

/-- The uninstall preflight, run where `uninstallAgent` runs it after a confirmation
that lets it go on. -/
def uninstallAgent.preflight (cs : Console σ) (GOARCH : String) (w : World σ) :
    Option GoError × World σ :=
  runUninstallPreflight cs (print cs "Running preflight checks... "
    (if (uninstallAgent.answer cs GOARCH w).1.2.isSome then
      print cs "Failed to read input, proceeding with uninstallation\n"
        (uninstallAgent.answer cs GOARCH w).2
    else (uninstallAgent.answer cs GOARCH w).2))

/-- Whether `uninstallAgent` has the agent reported installed: it read the controller
address from the configuration, and the `Status` of the agent it then built says
`Installed`.  Without the address no agent is built and no report is asked for. -/
def uninstallAgent.reportsInstalled (cs : Console σ) (GOARCH : String) (w : World σ) : Bool :=
  (uninstallAgent.config cs w).1.2.isNone && (uninstallAgent.status cs GOARCH w).1.1.Installed

/-- A terminal of the user root who presses return at the prompt. -/
def termRootReturn : Term :=
  { termRoot with stdin := [""] }

/-- A terminal of the user root who answers "n". -/
def termRootNo : Term :=
  { termRoot with stdin := ["n"] }

/-- A terminal of the user root who presses return at the prompt and has no
configuration file. -/
def termRootUnconfigured : Term :=
  { termRootReturn with configs := [] }

/-! ## Package `controller` -/

/-- A `context.Context` as the client hands it on: its deadline, if it has one, in
nanoseconds. -/
structure Context where
  Deadline : Option Int
  deriving DecidableEq, Repr

/-- An `http.Header`: canonical keys, each with its values in order. -/
structure Header where
  entries : List (String × List String)
  deriving DecidableEq, Repr

/-- The method `Header.Get` for a key in canonical form: the first value of the key,
or the empty string. -/
def Header.Get (h : Header) (key : String) : String :=
  match h.entries.lookup key with
  | some (v :: _) => v
  | _ => ""

/-- The method `Header.Set` for a key in canonical form: the key gets the single
value, replacing any it had. -/
def Header.Set (h : Header) (key value : String) : Header :=
  { entries := (key, [value]) :: h.entries.filter (fun e => e.1 != key) }

/-- An `*http.Request` with a nil body. -/
structure Request where
  Method : String
  URL : String
  Header : Header
  Ctx : Context
  deriving DecidableEq, Repr

/-- The part of an `*http.Response` the client reads. -/
structure Response where
  StatusCode : Int
  Header : Header
  deriving DecidableEq, Repr

/-- The package `net/http` as the client uses it. -/
structure Transport (σ : Type) where
  /-- The error of `http.NewRequestWithContext(ctx, method, url, nil)`: an invalid
  method or an address that does not parse. -/
  NewRequestError : Context → String → String → Option GoError
  /-- The method `(*http.Client).Do` of a client with the given `Timeout`. -/
  Do : σ → Int → Request → Except GoError Response × σ
  /-- The call `resp.Body.Close()`. -/
  CloseBody : σ → σ

/-- The constant `http.StatusOK`. -/
def StatusOK : Int := 200

/-- The duration `time.Second`, in nanoseconds. -/
def Second : Int := 1000000000

/-- The struct `Client`; `httpTimeout` is the `Timeout` of its `httpClient`. -/
structure Client where
  baseURL : String
  timeout : Int
  httpTimeout : Int
  token : String
  deriving DecidableEq, Repr

/-- The struct `PingResponse`. -/
structure PingResponse where
  StatusCode : Int
  ResponseTime : String
  Success : Bool
  deriving DecidableEq, Repr

/-- The function `NewClient`. -/
def NewClient (baseURL : String) (timeout : Int) (token : String) : Client :=
  let timeout := if timeout = 0 then 30 * Second else timeout
  { baseURL := baseURL, timeout := timeout, httpTimeout := timeout, token := token }

/-- The method `Client.newRequest`.  A request made by `http.NewRequestWithContext`
has the method given (`GET` for the empty one), the address given and no header. -/
def Client.newRequest (tp : Transport σ) (c : Client) (ctx : Context) (method path : String) :
    Except GoError Request :=
  match tp.NewRequestError ctx method (c.baseURL ++ path) with
  | some err => .error (ErrorfW "failed to create HTTP request: " (some err))
  | none =>
    let req : Request :=
      { Method := if method = "" then "GET" else method
        URL := c.baseURL ++ path
        Header := { entries := [] }
        Ctx := ctx }
    if c.token ≠ "" then
      .ok { req with Header := req.Header.Set "Authorization" ("Bearer " ++ c.token) }
    else .ok req

/-- The method `Client.Ping`; the deferred `resp.Body.Close()` runs on return. -/
def Client.Ping (tp : Transport σ) (c : Client) (ctx : Context) (s : σ) :
    Except GoError PingResponse × σ :=
  match c.newRequest tp ctx "GET" "/ping" with
  | .error err => (.error (ErrorfW "failed to create ping request: " (some err)), s)
  | .ok req =>
    match tp.Do s c.httpTimeout req with
    | (.error err, s1) => (.error (ErrorfW "failed to send ping request: " (some err)), s1)
    | (.ok resp, s1) =>
      (.ok { StatusCode := resp.StatusCode
             ResponseTime := resp.Header.Get "X-Response-Time"
             Success := resp.StatusCode == StatusOK },
        tp.CloseBody s1)

/-- The method `Client.IsHealthy`. -/
def Client.IsHealthy (tp : Transport σ) (c : Client) (ctx : Context) (s : σ) :
    (Bool × Option GoError) × σ :=
  match c.Ping tp ctx s with
  | (.error err, s1) => ((false, some err), s1)
  | (.ok response, s1) => ((response.Success, none), s1)

/-- A transport that answers each request with the next of a queue of canned results
and refuses a method with a blank in it. -/
def stdTransport : Transport (List (Except GoError Response)) where
  NewRequestError _ method _ :=
    if ' ' ∈ method.data then
      some (.errorString ("net/http: invalid method \"" ++ method ++ "\""))
    else none
  Do s _ _ :=
    match s with
    | [] => (.error (.errorString "connection refused"), [])
    | r :: rest => (r, rest)
  CloseBody s := s

/-- The client of the package's test with an authorization token. -/
def exClient : Client := NewClient "http://127.0.0.1:8080" (30 * Second) "test-token"

/-! ## Package `config`: the remaining methods -/

/-- A value the configuration library holds for a key: a text or a whole number; a
key that names a section, with keys below it, holds a nested map, shown as `group`. -/
inductive Value
  | str (s : String)
  | int (n : Int)
  | group
  deriving DecidableEq, Repr

/-- The host as package `config` sees it: the console together with the further calls
of the configuration library and the creation of directories. -/
structure Store (σ : Type) extends Console σ where
  /-- The function `os.MkdirAll`. -/
  MkdirAll : σ → String → Nat → Option GoError × σ
  /-- The function `viper.SetDefault`. -/
  SetDefault : σ → String → Value → σ
  /-- The calls `viper.SetConfigFile(file)`, `viper.SetConfigType("yaml")` and
  `viper.WriteConfigAs(file)` in a row; the result is that of `WriteConfigAs`. -/
  WriteConfigAs : σ → String → Option GoError × σ
  /-- The function `viper.Set`. -/
  ViperSet : σ → String → Value → σ
  /-- The function `viper.WriteConfig`. -/
  WriteConfig : σ → Option GoError × σ
  /-- The function `viper.Get`; `none` is Go's nil. -/
  ViperGet : σ → String → Option Value
  /-- The function `viper.AllSettings`, the nested map flattened to dotted keys. -/
  AllSettings : σ → List (String × Value)
  /-- The function `viper.GetDuration`, in nanoseconds. -/
  GetDuration : σ → String → Int

/-- The method `Manager.Init`. -/
def Manager.Init (st : Store σ) (m : Manager) (w : World σ) : Option GoError × World σ :=
  match st.MkdirAll w.host (Dir m.configFile) 0o755 with
  | (some err, s1) =>
    (some (ErrorfW "failed to create configuration directory: " (some err)), w.move s1)
  | (none, s1) =>
    let s2 := st.SetDefault s1 "controller.ip" (.str "localhost")
    let s3 := st.SetDefault s2 "controller.port" (.int 9000)
    let s4 := st.SetDefault s3 "controller.timeout" (.str "30s")
    let s5 := st.SetDefault s4 "auth.token" (.str "")
    let s6 := st.SetDefault s5 "auth.refresh_token" (.str "")
    let s7 := st.SetDefault s6 "agent.install_path" (.str "/opt/morpher")
    let s8 := st.SetDefault s7 "agent.log_level" (.str "info")
    match st.WriteConfigAs s8 m.configFile with
    | (some err, s9) =>
      (some (ErrorfW "failed to save configuration file: " (some err)), w.move s9)
    | (none, s9) => (none, w.move s9)

/-- The method `Manager.Set`. -/
def Manager.Set (st : Store σ) (m : Manager) (key value : String) (w : World σ) :
    Option GoError × World σ :=
  match m.load st.toConsole w with
  | (some err, w1) => (some err, w1)
  | (none, w1) =>
    match st.WriteConfig (st.ViperSet w1.host key (.str value)) with
    | (some err, s3) => (some (ErrorfW "failed to save configuration: " (some err)), w1.move s3)
    | (none, s3) => (none, w1.move s3)

/-- The method `Manager.Get`. -/
def Manager.Get (st : Store σ) (m : Manager) (key : String) (w : World σ) :
    (Option Value × Option GoError) × World σ :=
  match m.load st.toConsole w with
  | (some err, w1) => ((none, some err), w1)
  | (none, w1) =>
    match st.ViperGet w1.host key with
    | none => ((none, some (Errorf ("configuration key '" ++ key ++ "' not found"))), w1)
    | some value => ((some value, none), w1)

/-- The method `Manager.GetAll`; a nil map is the empty list. -/
def Manager.GetAll (st : Store σ) (m : Manager) (w : World σ) :
    (List (String × Value) × Option GoError) × World σ :=
  match m.load st.toConsole w with
  | (some err, w1) => (([], some err), w1)
  | (none, w1) => ((st.AllSettings w1.host, none), w1)

/-- The method `Manager.GetDuration`. -/
def Manager.GetDuration (st : Store σ) (m : Manager) (key : String) (w : World σ) :
    (Int × Option GoError) × World σ :=
  match m.load st.toConsole w with
  | (some err, w1) => ((0, some err), w1)
  | (none, w1) => ((st.GetDuration w1.host key, none), w1)

/-- Set the given keys one after the other; the flag tells whether every `Set`
succeeded. -/
def Manager.SetAll (st : Store σ) (m : Manager) :
    List (String × String) → World σ → Bool × World σ
  | [], w => (true, w)
  | (key, value) :: rest, w =>
    match m.Set st key value w with
    | (some _, w1) => (false, w1)
    | (none, w1) => m.SetAll st rest w1

/-! ## A concrete configuration library

A small executable model of the configuration library.  Keys are folded to lower case
by `lower` (the function `strings.ToLower`) and held, with their dotted path, in three
layers searched in the order overrides, configuration file, defaults.  A key set
below a value, or a value set above keys, replaces them, as in the nested maps of the
library. -/

/-- Whether `p` followed by a dot starts `k`: the key `p` is a section above `k`. -/
def above (p k : String) : Bool :=
  (p.data ++ ['.']).isPrefixOf k.data

/-- One layer of settings: dotted keys in lower case with their values. -/
abbrev Layer := List (String × Value)

/-- The value a layer holds at a key: the value set there, or a nested map when keys
are set below it. -/
def layerFind (layer : Layer) (k : String) : Option Value :=
  match layer.lookup k with
  | some v => some v
  | none => if layer.any (fun e => above k e.1) then some .group else none

/-- Whether a layer holds a value at a section above the key, which hides the key in
the layers after it. -/
def shadowed (layer : Layer) (k : String) : Bool :=
  layer.any (fun e => above e.1 k)

/-- Set a key in a layer: the entry replaces the key's own, those below it and those
above it. -/
def layerSet (layer : Layer) (k : String) (v : Value) : Layer :=
  (k, v) :: layer.filter (fun e => e.1 != k && !above k e.1 && !above e.1 k)

/-- The state of the configuration library. -/
structure Viper where
  /-- The file named by the last `SetConfigFile`. -/
  configFile : String
  /-- The values set with `Set`. -/
  overrides : Layer
  /-- The values read from the configuration file. -/
  config : Layer
  /-- The values set with `SetDefault`. -/
  defaults : Layer
  deriving DecidableEq, Repr

/-- The search of `viper.Get` through the layers, for a key already in lower case. -/
def Viper.find (v : Viper) (k : String) : Option Value :=
  match layerFind v.overrides k with
  | some x => some x
  | none =>
    if shadowed v.overrides k then none
    else
      match layerFind v.config k with
      | some x => some x
      | none =>
        if shadowed v.config k then none
        else layerFind v.defaults k

/-- The keys of `viper.AllKeys`: those of the layers in search order, without
repetition and without the keys hidden by a value above them. -/
def Viper.allKeys (v : Viper) : List String :=
  (v.overrides ++ v.config ++ v.defaults).foldl
    (fun acc e => if acc.contains e.1 || acc.any (fun p => above p e.1) then acc
      else acc ++ [e.1]) []

/-- The settings of `viper.AllSettings`, flattened: every key that holds a text or a
number, with it. -/
def Viper.allSettings (v : Viper) : Layer :=
  v.allKeys.filterMap (fun k =>
    match v.find k with
    | some (.str s) => some (k, .str s)
    | some (.int n) => some (k, .int n)
    | _ => none)

/-- The nanoseconds of a unit of `time.ParseDuration`. -/
def unitNanos (u : List Char) : Option Int :=
  if u = ['n', 's'] then some 1
  else if u = ['u', 's'] ∨ u = ['µ', 's'] ∨ u = ['μ', 's'] then some 1000
  else if u = ['m', 's'] then some 1000000
  else if u = ['s'] then some 1000000000
  else if u = ['m'] then some 60000000000
  else if u = ['h'] then some 3600000000000
  else none

/-- The number written by a list of decimal digits. -/
def digitsValue (ds : List Char) : Nat :=
  ds.foldl (fun n d => 10 * n + (d.toNat - '0'.toNat)) 0

/-- The sum of a sequence of whole amounts with units, as in `1h30m`; `none` for
anything else.  Amounts with a fraction are not modelled and are refused. -/
def durationFrom : Nat → List Char → Option Int
  | 0, _ => none
  | fuel + 1, cs =>
    match cs.span Char.isDigit with
    | ([], _) => none
    | (ds, rest) =>
      match rest.span (fun c => !c.isDigit && c != '.') with
      | ([], _) => none
      | (u, rest2) =>
        match unitNanos u with
        | none => none
        | some f =>
          if rest2 = [] then some (digitsValue ds * f)
          else (durationFrom fuel rest2).map (fun d => digitsValue ds * f + d)

/-- The function `time.ParseDuration` on texts without a fraction; `none` is an
error. -/
def ParseDuration (s : String) : Option Int :=
  match s.data with
  | [] => none
  | ['0'] => some 0
  | '-' :: cs => (durationFrom cs.length cs).map (fun d => -d)
  | '+' :: cs => durationFrom cs.length cs
  | cs => durationFrom cs.length cs

/-- The function `cast.ToString` on the library's values; nil and a nested map give
the empty string. -/
def castToString : Option Value → String
  | some (.str s) => s
  | some (.int n) => toString n
  | _ => ""

/-- The function `cast.ToDuration` on the library's values: a number is taken as
nanoseconds, a text is parsed, with the unit `ns` when it names none; what does not
convert gives 0. -/
def castToDuration : Option Value → Int
  | some (.int n) => n
  | some (.str s) =>
    if s.data.any (fun c => c = 'n' ∨ c = 's' ∨ c = 'u' ∨ c = 'µ' ∨ c = 'm' ∨ c = 'h') then
      (ParseDuration s).getD 0
    else (ParseDuration (s ++ "ns")).getD 0
  | _ => 0

/-- The state of the concrete store: the configuration library, the configuration
files on disk with their settings, and the directories. -/
structure Conf where
  /-- The configuration library of the process. -/
  viper : Viper
  /-- The configuration files on disk, each with its settings. -/
  files : List (String × Layer)
  /-- The directories that exist. -/
  dirs : List String
  /-- The directories in which nothing can be created or written. -/
  readonly : List String
  /-- The home directory, when `$HOME` is set. -/
  home : Option String
  deriving DecidableEq, Repr

/-- Write the settings to a file: refused when the directory of the file is missing
or cannot be written. -/
def Conf.write (s : Conf) (file : String) : Option GoError × Conf :=
  if Dir file ∈ s.dirs ∧ Dir file ∉ s.readonly then
    (none, { s with files := (file, s.viper.allSettings) ::
      s.files.filter (fun f => f.1 != file) })
  else (some (.pathError "open" file (if Dir file ∈ s.dirs then .EACCES else .ENOENT)), s)

/-- A host without programs and without files, for the calls of package `agent`. -/
def nullOS (σ : Type) : OS σ where
  LookPath s file := (("", some (notFound file)), s)
  Run s cmd := (some (notFound cmd.Path), s)
  Output s cmd := (("", some (notFound cmd.Path)), s)
  Stat s name := (some (.pathError "stat" name .ENOENT), s)
  Chmod s name _ := (some (.pathError "chmod" name .ENOENT), s)
  Remove s name := (some (.pathError "remove" name .ENOENT), s)
  RemoveAll s _ := (none, s)
  CreateTemp s _ pattern := (("", some (.pathError "open" pattern .EACCES)), s)
  Close s _ := s
  Environ _ := []

/-- The concrete store; `lower` is the function `strings.ToLower`. -/
def viperStore (lower : String → String) : Store Conf where
  toOS := nullOS Conf
  Geteuid _ := 1000
  UserHomeDir s :=
    match s.home with
    | some home => (home, none)
    | none => ("", some (.errorString "$HOME is not defined"))
  ReadInConfig s file :=
    match s.files.lookup file with
    | some settings =>
      (none, { s with viper := { s.viper with configFile := file, config := settings } })
    | none =>
      (some (.pathError "open" file .ENOENT),
        { s with viper := { s.viper with configFile := file } })
  GetString s key := castToString (s.viper.find (lower key))
  Scanln s := (("", some (.errorString "EOF")), s)
  Print s _ := s
  MkdirAll s path _ :=
    if path ∈ s.dirs then (none, s)
    else if Dir path ∈ s.readonly then (some (.pathError "mkdir" path .EACCES), s)
    else (none, { s with dirs := path :: s.dirs })
  SetDefault s key value :=
    { s with viper := { s.viper with defaults := layerSet s.viper.defaults (lower key) value } }
  WriteConfigAs s file :=
    Conf.write { s with viper := { s.viper with configFile := file } } file
  ViperSet s key value :=
    { s with viper := { s.viper with overrides := layerSet s.viper.overrides (lower key) value } }
  WriteConfig s := Conf.write s s.viper.configFile
  ViperGet s key := s.viper.find (lower key)
  AllSettings s := s.viper.allSettings
  GetDuration s key := castToDuration (s.viper.find (lower key))

/-- The lower-case form of a text of ASCII letters. -/
def asciiLower (s : String) : String :=
  String.mk (s.data.map Char.toLower)

/-- A process that has not touched the configuration library, on a disk without
configuration files. -/
def confFresh : Conf :=
  { viper := { configFile := "", overrides := [], config := [], defaults := [] }
    files := []
    dirs := ["/tmp"]
    readonly := []
    home := some "/home/op" }

/-- The manager of the package's tests. -/
def exManager : Manager := NewManager (viperStore asciiLower).toConsole "/tmp/t/test_config.yaml" confFresh

/-- The same disk seen by a new process: the configuration library starts empty. -/
def Conf.restart (s : Conf) : Conf :=
  { s with viper := { configFile := "", overrides := [], config := [], defaults := [] } }

/-- What keeps `Get(k)` at `v`: the overrides hold `v` at the key, and the manager's
file is on disk. -/
def Keeps (lower : String → String) (m : Manager) (k v : String) (s : Conf) : Prop :=
  s.viper.overrides.lookup (lower k) = some (.str v) ∧ (s.files.lookup m.configFile).isSome = true

/-! ## The environment of a started process -/

/-- Whether an environment entry holds a NUL byte. -/
def hasNUL (kv : String) : Bool :=
  kv.data.contains (Char.ofNat 0)

/-- The key of an environment entry as `dedupEnv` of package `os/exec` reads it: the
text before the first "="; when the entry opens with "=", the text before the next
"=", and the empty key when there is none.  An entry without "=" has no key. -/
def envKey (kv : List Char) : Option (List Char) :=
  match kv with
  | [] => none
  | c :: rest =>
    if c = '=' then
      if '=' ∈ rest then some (c :: rest.takeWhile (fun x => x != '=')) else some []
    else if '=' ∈ rest then some (c :: rest.takeWhile (fun x => x != '=')) else none

/-- The loop of `dedupEnv` of package `os/exec` on Linux.  The entries arrive last
first, as the loop reads them, and `saw` holds the keys met so far; the entries kept
are returned in the order they were met.  An entry with a NUL byte is dropped, an
entry without "=" is kept unless it is empty, and an entry with a key is kept when its
key was not met before. -/
def dedupKept : List String → List (List Char) → List String
  | [], _ => []
  | kv :: rest, saw =>
    if hasNUL kv then dedupKept rest saw
    else
      match envKey kv.data with
      | none => if kv = "" then dedupKept rest saw else kv :: dedupKept rest saw
      | some k => if k ∈ saw then dedupKept rest saw else kv :: dedupKept rest (k :: saw)

/-- The function `dedupEnv` of package `os/exec` on Linux: `env` with, of the entries
of one key, only the last, in the order of `env`, and an error when an entry held a
NUL byte. -/
def dedupEnv (env : List String) : List String × Option GoError :=
  ((dedupKept env.reverse []).reverse,
    if env.any hasNUL then some (.errorString "exec: environment variable contains NUL")
    else none)

/-- The method `environ` of `*exec.Cmd` on Linux for a command without a working
directory: the environment `Start` hands to the new process, and the error that keeps
`Start` from starting it.  A nil `Env` stands for the environment `parent` of the
calling process. -/
def Cmd.environ (c : Cmd) (parent : List String) : List String × Option GoError :=
  dedupEnv (c.Env.getD parent)

/-- The host `hostBare` for a caller whose environment already holds a controller
address. -/
def hostControllerSet : Host :=
  { hostBare with environ := ["PATH=/usr/bin", "MORPHER_CONTROLLER_IP=192.168.0.9"] }

/-! # Properties -/

/-! ## Uninstall -/

/-- C1: the calls issued by `Agent.Uninstall` are the first `n` of the fixed sequence
stop-and-disable, remove unit file, remove binary, remove configuration directory,
daemon-reload; every attempted call but the last succeeded; `Uninstall` returns nil
exactly when all five were attempted and succeeded, and otherwise the last attempted
call failed; and when the unit-file removal fails, the only calls issued are the stop
command and that removal. -/
theorem Uninstall_attempts_steps_in_order (os : OS σ) (a : Agent) (w : World σ) :
    (∃ n, n ≤ 5 ∧
      (a.Uninstall os w).2.log = w.log ++ a.uninstallSteps.take n ∧
      (a.Uninstall os w).2.host = os.after w.host (a.uninstallSteps.take n) ∧
      (∀ r ∈ (os.outcomes w.host (a.uninstallSteps.take n)).dropLast, r = none) ∧
      ((a.Uninstall os w).1 = none ↔
        n = 5 ∧ ∀ r ∈ os.outcomes w.host a.uninstallSteps, r = none) ∧
      ((a.Uninstall os w).1 ≠ none →
        ∃ e, (os.outcomes w.host (a.uninstallSteps.take n)).getLast? = some (some e))) ∧
    (∀ e, os.outcomes w.host (a.uninstallSteps.take 2) = [none, some e] →
      (a.Uninstall os w).2.log = w.log ++ [.Run a.stopCmd, .Remove a.servicePath]) := by
  rcases h1 : os.Run w.host a.stopCmd with ⟨_ | e1, s1⟩
  · rcases h2 : os.Remove s1 a.servicePath with ⟨_ | e2, s2⟩
    · rcases h3 : os.Remove s2 a.binaryPath with ⟨_ | e3, s3⟩
      · rcases h4 : os.RemoveAll s3 configPath with ⟨_ | e4, s4⟩
        · rcases h5 : os.Run s4 reloadCmd with ⟨_ | e5, s5⟩
          · refine ⟨⟨5, le_refl _, ?_⟩, ?_⟩ <;>
            simp [Agent.Uninstall, Agent.stopService, Agent.removeServiceFile,
              Agent.removeAgentBinary, Agent.removeConfigDirectory, Agent.reloadSystemd,
              run, remove, removeAll, World.next, Agent.uninstallSteps, OS.after, OS.outcomes,
              OS.call, h1, h2, h3, h4, h5]
          · refine ⟨⟨5, le_refl _, ?_⟩, ?_⟩ <;>
            simp [Agent.Uninstall, Agent.stopService, Agent.removeServiceFile,
              Agent.removeAgentBinary, Agent.removeConfigDirectory, Agent.reloadSystemd,
              run, remove, removeAll, World.next, Agent.uninstallSteps, OS.after, OS.outcomes,
              OS.call, h1, h2, h3, h4, h5]
        · refine ⟨⟨4, by decide, ?_⟩, ?_⟩ <;>
          simp [Agent.Uninstall, Agent.stopService, Agent.removeServiceFile,
            Agent.removeAgentBinary, Agent.removeConfigDirectory, Agent.reloadSystemd,
            run, remove, removeAll, World.next, Agent.uninstallSteps, OS.after, OS.outcomes,
            OS.call, h1, h2, h3, h4]
      · refine ⟨⟨3, by decide, ?_⟩, ?_⟩ <;>
        simp [Agent.Uninstall, Agent.stopService, Agent.removeServiceFile,
          Agent.removeAgentBinary, Agent.removeConfigDirectory, Agent.reloadSystemd,
          run, remove, removeAll, World.next, Agent.uninstallSteps, OS.after, OS.outcomes,
          OS.call, h1, h2, h3]
    · refine ⟨⟨2, by decide, ?_⟩, ?_⟩ <;>
      simp [Agent.Uninstall, Agent.stopService, Agent.removeServiceFile,
        Agent.removeAgentBinary, Agent.removeConfigDirectory, Agent.reloadSystemd,
        run, remove, removeAll, World.next, Agent.uninstallSteps, OS.after, OS.outcomes,
        OS.call, h1, h2]
  · refine ⟨⟨1, by decide, ?_⟩, ?_⟩ <;>
    simp [Agent.Uninstall, Agent.stopService, Agent.removeServiceFile,
      Agent.removeAgentBinary, Agent.removeConfigDirectory, Agent.reloadSystemd,
      run, remove, removeAll, World.next, Agent.uninstallSteps, OS.after, OS.outcomes,
      OS.call, h1]

/-- C1, on the host whose unit file is locked: the stop command succeeds, the
unit-file removal fails, and neither the binary removal, the configuration-directory
removal nor the daemon-reload is issued. -/
theorem Uninstall_attempts_steps_in_order_witness :
    (exAgent.Uninstall stdOS ⟨hostUnitLocked, []⟩).2.log =
      [] ++ [.Run exAgent.stopCmd, .Remove "/etc/systemd/system/morpher-agent.service"] :=
  (Uninstall_attempts_steps_in_order stdOS exAgent ⟨hostUnitLocked, []⟩).2
    (.pathError "remove" "/etc/systemd/system/morpher-agent.service" .EPERM) (by decide)

/-! ## Upgrade of an agent that is not installed -/

/-- C2: when `os.Stat` of `Join(InstallPath, ServiceName)` fails, `Agent.Upgrade`
returns the error "agent is not installed", which wraps nothing, and the one call it
issues is that `os.Stat`: no command is run, nothing is looked up, downloaded,
created, changed or removed. -/
theorem Upgrade_not_installed (os : OS σ) (a : Agent) (version : String) (w : World σ)
    (h : (os.Stat w.host (Join a.InstallPath a.ServiceName)).1 ≠ none) :
    (a.Upgrade os version w).1 = some (.errorString "agent is not installed") ∧
    (a.Upgrade os version w).2.log = w.log ++ [.Stat (Join a.InstallPath a.ServiceName)] ∧
    (a.Upgrade os version w).2.host = (os.Stat w.host (Join a.InstallPath a.ServiceName)).2 := by
  rcases h1 : os.Stat w.host (Join a.InstallPath a.ServiceName) with ⟨_ | e, s1⟩
  · simp [h1] at h
  · simp [Agent.Upgrade, Agent.isInstalled, stat, World.next, Errorf, h1]

/-- C2 on the bare host: `Upgrade` is refused after the single existence probe. -/
theorem Upgrade_not_installed_witness :
    (stdOS.Stat hostBare (Join exAgent.InstallPath exAgent.ServiceName)).1 ≠ none ∧
    (exAgent.Upgrade stdOS "latest" ⟨hostBare, []⟩).1 =
      some (.errorString "agent is not installed") ∧
    (exAgent.Upgrade stdOS "latest" ⟨hostBare, []⟩).2.log =
      [.Stat "/usr/local/bin/morpher-agent"] :=
  ⟨by decide,
    (Upgrade_not_installed stdOS exAgent "latest" ⟨hostBare, []⟩ (by decide)).1,
    (Upgrade_not_installed stdOS exAgent "latest" ⟨hostBare, []⟩ (by decide)).2.1⟩

/-! ## The download step -/

/-- Every return of `Agent.downloadFile` carries a non-nil error. -/
theorem downloadFile_ne_nil (os : OS σ) (a : Agent) (url dest : String) (w : World σ) :
    (a.downloadFile os url dest w).1 ≠ none := by
  rcases h1 : os.LookPath w.host "wget" with ⟨⟨p1, _ | e1⟩, s1⟩
  · simp [Agent.downloadFile, lookPath, run, h1]
  · rcases h2 : os.LookPath s1 "curl" with ⟨⟨p2, _ | e2⟩, s2⟩ <;>
      simp [Agent.downloadFile, lookPath, run, World.next, h1, h2]

/-- C3 at a host where wget is on `PATH` and every command exits with status 0: the
transfer reports nil, yet `downloadFile` returns the non-nil error
"wget failed: %!w(<nil>)", and `Install` stops at the download step with an error
although chmod of the script would succeed. -/
theorem downloadFile_wraps_nil_transfer_result :
    (stdOS.LookPath hostBare "wget").1.2 = none ∧
    (stdOS.Run hostBare
      (Command "wget" ["-O", "/tmp/install_amd64.sh1234567890", exAgent.scriptURL])).1 = none ∧
    (exAgent.downloadFile stdOS exAgent.scriptURL "/tmp/install_amd64.sh1234567890"
      ⟨hostBare, []⟩).1 = some (.errorString "wget failed: %!w(<nil>)") ∧
    ((exAgent.Install stdOS "latest" ⟨hostBare, []⟩).1.map GoError.Error =
      some ("failed to download install script: failed to download script: " ++
        "wget failed: %!w(<nil>)")) ∧
    (exAgent.Install stdOS "latest" ⟨hostBare, []⟩).2.log =
      [.CreateTemp "" "install_amd64.sh", .LookPath "wget",
        .Run (Command "wget" ["-O", "/tmp/install_amd64.sh1234567890", exAgent.scriptURL]),
        .Close "/tmp/install_amd64.sh1234567890"] := by
  decide

/-- C4: `downloadFile` runs wget exactly when wget is on `PATH`, runs curl exactly
when wget is absent and curl is present, and runs no other command; when wget (or,
wget being absent, curl) is present and its transfer fails, the returned error wraps
that failure under the tool's name; when neither is on `PATH` no command is run and
the error is "neither wget nor curl found". -/
theorem downloadFile_transport_selection (os : OS σ) (a : Agent) (url dest : String)
    (w : World σ) :
    ∃ tr, (a.downloadFile os url dest w).2.log = w.log ++ tr ∧
      (.Run (Command "wget" ["-O", dest, url]) ∈ tr ↔ (os.LookPath w.host "wget").1.2 = none) ∧
      (.Run (Command "curl" ["-o", dest, url]) ∈ tr ↔
        (os.LookPath w.host "wget").1.2 ≠ none ∧
        (os.LookPath (os.LookPath w.host "wget").2 "curl").1.2 = none) ∧
      (∀ c, .Run c ∈ tr → c = Command "wget" ["-O", dest, url] ∨
        c = Command "curl" ["-o", dest, url]) ∧
      ((os.LookPath w.host "wget").1.2 = none →
        ∀ e, (os.Run (os.LookPath w.host "wget").2 (Command "wget" ["-O", dest, url])).1 = some e →
          (a.downloadFile os url dest w).1 = some (.wrapError ("wget failed: " ++ e.Error) e)) ∧
      ((os.LookPath w.host "wget").1.2 ≠ none →
        (os.LookPath (os.LookPath w.host "wget").2 "curl").1.2 = none →
        ∀ e, (os.Run (os.LookPath (os.LookPath w.host "wget").2 "curl").2
            (Command "curl" ["-o", dest, url])).1 = some e →
          (a.downloadFile os url dest w).1 = some (.wrapError ("curl failed: " ++ e.Error) e)) ∧
      ((os.LookPath w.host "wget").1.2 ≠ none →
        (os.LookPath (os.LookPath w.host "wget").2 "curl").1.2 ≠ none →
        (∀ c, .Run c ∉ tr) ∧
        (a.downloadFile os url dest w).1 = some (.errorString "neither wget nor curl found")) := by
  rcases h1 : os.LookPath w.host "wget" with ⟨⟨p1, _ | e1⟩, s1⟩
  · refine ⟨[.LookPath "wget", .Run (Command "wget" ["-O", dest, url])], ?_⟩
    rcases h3 : os.Run s1 (Command "wget" ["-O", dest, url]) with ⟨_ | e3, s3⟩ <;>
      simp only [Command] at h3 <;>
      simp [Agent.downloadFile, lookPath, run, World.next, ErrorfW, Command, h1, h3]
  · rcases h2 : os.LookPath s1 "curl" with ⟨⟨p2, _ | e2⟩, s2⟩
    · refine ⟨[.LookPath "wget", .LookPath "curl", .Run (Command "curl" ["-o", dest, url])], ?_⟩
      rcases h3 : os.Run s2 (Command "curl" ["-o", dest, url]) with ⟨_ | e3, s3⟩ <;>
        simp only [Command] at h3 <;>
        simp [Agent.downloadFile, lookPath, run, World.next, ErrorfW, Command, h1, h2, h3]
    · refine ⟨[.LookPath "wget", .LookPath "curl"], ?_⟩
      simp [Agent.downloadFile, lookPath, run, World.next, Errorf, h1, h2]

/-- C4 on a host where wget is on `PATH` and its transfer exits with status 4: wget
is run, curl is not, and the error wraps wget's exit error. -/
theorem downloadFile_transport_selection_witness :
    (stdOS.LookPath hostWgetFails "wget").1.2 = none ∧
    (exAgent.downloadFile stdOS "u" "d" ⟨hostWgetFails, []⟩).1 =
      some (.wrapError ("wget failed: " ++ (GoError.exitError 4).Error) (.exitError 4)) :=
  ⟨by decide,
    (downloadFile_transport_selection stdOS exAgent "u" "d"
      ⟨hostWgetFails, []⟩).choose_spec.2.2.2.2.1 (by decide) (.exitError 4) (by decide)⟩

/-! ## Upgrade of an installed agent -/

/-- The commands run by `Agent.downloadFile` are the wget and the curl transfer. -/
theorem downloadFile_runs (os : OS σ) (a : Agent) (url dest : String) (w : World σ) :
    ∃ tr, (a.downloadFile os url dest w).2.log = w.log ++ tr ∧
      (∀ c, .Run c ∈ tr → c = Command "wget" ["-O", dest, url] ∨
        c = Command "curl" ["-o", dest, url]) ∧
      ∀ name, .Remove name ∉ tr := by
  rcases h1 : os.LookPath w.host "wget" with ⟨⟨p1, _ | e1⟩, s1⟩
  · exact ⟨[.LookPath "wget", .Run (Command "wget" ["-O", dest, url])], by
      simp [Agent.downloadFile, lookPath, run, World.next, h1]⟩
  · rcases h2 : os.LookPath s1 "curl" with ⟨⟨p2, _ | e2⟩, s2⟩
    · exact ⟨[.LookPath "wget", .LookPath "curl", .Run (Command "curl" ["-o", dest, url])], by
        simp [Agent.downloadFile, lookPath, run, World.next, h1, h2]⟩
    · exact ⟨[.LookPath "wget", .LookPath "curl"], by
        simp [Agent.downloadFile, lookPath, run, World.next, h1, h2]⟩

/-- Every return of `Agent.downloadInstallScript` carries a non-nil error. -/
theorem downloadInstallScript_ne_nil (os : OS σ) (a : Agent) (w : World σ) :
    (a.downloadInstallScript os w).1.2 ≠ none := by
  rcases h1 : os.CreateTemp w.host "" a.scriptName with ⟨⟨tmp, _ | e1⟩, s1⟩
  · rcases h2 : a.downloadFile os a.scriptURL tmp (w.next (.CreateTemp "" a.scriptName) s1)
      with ⟨_ | e2, w2⟩
    · exact absurd (congrArg Prod.fst h2) (downloadFile_ne_nil os a _ _ _)
    · simp [Agent.downloadInstallScript, createTemp, h1, h2]
  · simp [Agent.downloadInstallScript, createTemp, h1]

/-- The method `Agent.Install` returns whatever `downloadInstallScript` leaves: the
download never reports success, so no later step of `Install` is reached. -/
theorem Install_eq_download (os : OS σ) (a : Agent) (version : String) (w : World σ) :
    ∃ err, (a.downloadInstallScript os w).1.2 = some err ∧
      a.Install os version w =
        (some (ErrorfW "failed to download install script: " (some err)),
          (a.downloadInstallScript os w).2) := by
  rcases h : a.downloadInstallScript os w with ⟨⟨p, _ | e⟩, w1⟩
  · exact absurd (congrArg (fun r => r.1.2) h) (downloadInstallScript_ne_nil os a w)
  · exact ⟨e, rfl, by simp [Agent.Install, h]⟩

/-- The calls of `Agent.Install`: it runs only the wget or the curl transfer of the
install script, and it removes nothing. -/
theorem Install_runs (os : OS σ) (a : Agent) (version : String) (w : World σ) :
    ∃ tr, (a.Install os version w).2.log = w.log ++ tr ∧
      (∀ c, .Run c ∈ tr → ∃ dest, c = Command "wget" ["-O", dest, a.scriptURL] ∨
        c = Command "curl" ["-o", dest, a.scriptURL]) ∧
      ∀ name, .Remove name ∉ tr := by
  obtain ⟨err, -, hI⟩ := Install_eq_download os a version w
  rw [hI]
  rcases h1 : os.CreateTemp w.host "" a.scriptName with ⟨⟨tmp, _ | e1⟩, s1⟩
  · obtain ⟨tr, htr, hruns, hrm⟩ :=
      downloadFile_runs os a a.scriptURL tmp (w.next (.CreateTemp "" a.scriptName) s1)
    refine ⟨.CreateTemp "" a.scriptName :: tr ++ [.Close tmp], ?_, ?_, ?_⟩
    · rcases h2 : a.downloadFile os a.scriptURL tmp (w.next (.CreateTemp "" a.scriptName) s1)
        with ⟨_ | e2, w2⟩ <;>
      · rw [h2] at htr
        simp only [World.next] at htr h2
        simp [Agent.downloadInstallScript, createTemp, close, World.next, h1, h2, htr]
    · intro c hc
      simp at hc
      exact ⟨tmp, hruns c hc⟩
    · intro name hn
      simp at hn
      exact hrm name hn
  · exact ⟨[.CreateTemp "" a.scriptName], by
      simp [Agent.downloadInstallScript, createTemp, World.next, h1]⟩

/-- C5: when the binary is installed, `Agent.Upgrade` is the pipeline of the three
named steps stop-and-disable, `Install`, start, run in that order after the existence
probe and aborted at the first failing step with that step's error; the stop step
issues the one command `sudo systemctl disable --now <ServiceName>` and the start step
the one command `sudo systemctl start <ServiceName>`; and no command run by `Upgrade`
enables the unit at boot. -/
theorem Upgrade_is_stop_install_start (os : OS σ) (a : Agent) (version : String)
    (w : World σ) :
    ((os.Stat w.host (Join a.InstallPath a.ServiceName)).1 = none →
      a.Upgrade os version w =
        pipeline
          [("failed to stop service: ", a.stopService os),
            ("failed to install new version: ", a.Install os version),
            ("failed to start service: ", a.startService os)]
          (stat os (Join a.InstallPath a.ServiceName) w).2) ∧
    (∀ w1 : World σ, (a.stopService os w1).2.log =
      w1.log ++ [.Run (Command "sudo" ["systemctl", "disable", "--now", a.ServiceName])]) ∧
    (∀ w1 : World σ, (a.startService os w1).2.log =
      w1.log ++ [.Run (Command "sudo" ["systemctl", "start", a.ServiceName])]) ∧
    (∃ tr, (a.Upgrade os version w).2.log = w.log ++ tr ∧
      ∀ c, .Run c ∈ tr → c.enablesAtBoot = false) := by
  refine ⟨?_, ?_, ?_, ?_⟩
  · intro h
    rcases h0 : os.Stat w.host (Join a.InstallPath a.ServiceName) with ⟨_ | e0, s0⟩
    · rcases h1 : a.stopService os (w.next (.Stat (Join a.InstallPath a.ServiceName)) s0)
        with ⟨_ | e1, w1⟩
      · rcases h2 : a.Install os version w1 with ⟨_ | e2, w2⟩
        · rcases h3 : a.startService os w2 with ⟨_ | e3, w3⟩ <;>
            simp [Agent.Upgrade, Agent.isInstalled, stat, pipeline, h0, h1, h2, h3]
        · simp [Agent.Upgrade, Agent.isInstalled, stat, pipeline, h0, h1, h2]
      · simp [Agent.Upgrade, Agent.isInstalled, stat, pipeline, h0, h1]
    · simp [h0] at h
  · intro w1
    show (a.stopService os w1).2.log = w1.log ++ [.Run a.stopCmd]
    rcases h1 : os.Run w1.host a.stopCmd with ⟨_ | e1, s1⟩ <;>
      simp [Agent.stopService, run, World.next, h1]
  · intro w1
    show (a.startService os w1).2.log = w1.log ++ [.Run a.startCmd]
    rcases h1 : os.Run w1.host a.startCmd with ⟨_ | e1, s1⟩ <;>
      simp [Agent.startService, run, World.next, h1]
  · rcases h0 : os.Stat w.host (Join a.InstallPath a.ServiceName) with ⟨_ | e0, s0⟩
    · rcases h1 : os.Run s0 a.stopCmd with ⟨_ | e1, s1⟩
      · obtain ⟨err, -, hI⟩ := Install_eq_download os a version
          ⟨s1, w.log ++ [.Stat (Join a.InstallPath a.ServiceName), .Run a.stopCmd]⟩
        obtain ⟨tr, htr, hruns, -⟩ := Install_runs os a version
          ⟨s1, w.log ++ [.Stat (Join a.InstallPath a.ServiceName), .Run a.stopCmd]⟩
        refine ⟨.Stat (Join a.InstallPath a.ServiceName) :: .Run a.stopCmd :: tr, ?_, ?_⟩
        · rw [hI] at htr
          simp only [List.append_assoc, List.cons_append, List.nil_append] at htr
          simp [Agent.Upgrade, Agent.isInstalled, Agent.stopService, stat, run, World.next,
            h0, h1, hI, htr]
        · intro c hc
          simp at hc
          rcases hc with hc | hc
          · subst hc
            simp [Agent.stopCmd, Command, Cmd.enablesAtBoot]
          · obtain ⟨dest, hd | hd⟩ := hruns c hc <;>
              simp [hd, Command, Cmd.enablesAtBoot]
      · refine ⟨[.Stat (Join a.InstallPath a.ServiceName), .Run a.stopCmd], ?_, ?_⟩
        · simp [Agent.Upgrade, Agent.isInstalled, Agent.stopService, stat, run, World.next,
            h0, h1]
        · intro c hc
          simp at hc
          subst hc
          simp [Agent.stopCmd, Command, Cmd.enablesAtBoot]
    · exact ⟨[.Stat (Join a.InstallPath a.ServiceName)], by
        simp [Agent.Upgrade, Agent.isInstalled, stat, World.next, h0]⟩

/-- C5 on a host with the binary installed: `Upgrade` is the three-step pipeline run
after the probe of `/usr/local/bin/morpher-agent`. -/
theorem Upgrade_is_stop_install_start_witness :
    exAgent.Upgrade stdOS "1.2.3" ⟨hostUnitLocked, []⟩ =
      pipeline
        [("failed to stop service: ", exAgent.stopService stdOS),
          ("failed to install new version: ", exAgent.Install stdOS "1.2.3"),
          ("failed to start service: ", exAgent.startService stdOS)]
        (stat stdOS "/usr/local/bin/morpher-agent" ⟨hostUnitLocked, []⟩).2 :=
  (Upgrade_is_stop_install_start stdOS exAgent "1.2.3" ⟨hostUnitLocked, []⟩).1 (by decide)

/-! ## Re-running Uninstall -/

/-- C6 fails on the code: a first `Uninstall` stops at the binary removal after it
has removed the unit file; a second run on the host so left, with every call behaving
normally, is refused at the unit-file removal with "no such file or directory" and
never reaches the binary. -/
theorem Uninstall_rerun_fails_once_unit_removed :
    (exAgent.Uninstall stdOS ⟨hostBinLocked, []⟩).1 ≠ none ∧
    (exAgent.Uninstall stdOS ⟨hostBinLocked, []⟩).2.log =
      [.Run exAgent.stopCmd, .Remove "/etc/systemd/system/morpher-agent.service",
        .Remove "/usr/local/bin/morpher-agent"] ∧
    (exAgent.Uninstall stdOS ⟨hostBinLocked, []⟩).2.host.files =
      ["/usr/local/bin/morpher-agent", "/etc/morpher-agent"] ∧
    (exAgent.Uninstall stdOS
      ⟨{ (exAgent.Uninstall stdOS ⟨hostBinLocked, []⟩).2.host with locked := [] }, []⟩).1 =
      some (.wrapError
        ("failed to remove service file: failed to remove service file: " ++
          "remove /etc/systemd/system/morpher-agent.service: no such file or directory")
        (.wrapError
          ("failed to remove service file: " ++
            "remove /etc/systemd/system/morpher-agent.service: no such file or directory")
          (.pathError "remove" "/etc/systemd/system/morpher-agent.service" .ENOENT))) ∧
    (exAgent.Uninstall stdOS
      ⟨{ (exAgent.Uninstall stdOS ⟨hostBinLocked, []⟩).2.host with locked := [] }, []⟩).2.log =
      [.Run exAgent.stopCmd, .Remove "/etc/systemd/system/morpher-agent.service"] := by
  decide

/-- C6 as amended: on a host where every call behaves normally (nothing is locked, no
command fails, sudo is on `PATH`) a run of `Uninstall` returns nil, having issued all
five steps, exactly when the unit file and the binary both still exist; when the unit
file is already gone the run is refused at the unit-file removal with the not-exist
error and issues nothing after it. -/
theorem Uninstall_rerun_on_normal_host (a : Agent) (h : Host) (log : List Action)
    (hl : h.locked = []) (hf : h.failing = []) (hs : "sudo" ∈ h.tools) :
    ((a.Uninstall stdOS ⟨h, log⟩).1 = none ↔
      a.servicePath ∈ h.files ∧ a.binaryPath ∈ h.files ∧ a.binaryPath ≠ a.servicePath) ∧
    ((a.Uninstall stdOS ⟨h, log⟩).1 = none →
      (a.Uninstall stdOS ⟨h, log⟩).2.log = log ++ a.uninstallSteps) ∧
    (a.servicePath ∉ h.files →
      (a.Uninstall stdOS ⟨h, log⟩).1 =
        some (ErrorfW "failed to remove service file: "
          (some (ErrorfW "failed to remove service file: "
            (some (.pathError "remove" a.servicePath .ENOENT))))) ∧
      (a.Uninstall stdOS ⟨h, log⟩).2.log = log ++ [.Run a.stopCmd, .Remove a.servicePath]) := by
  obtain ⟨files, locked, unreadable, tools, failing, prints, environ⟩ := h
  simp only at hl hf hs
  subst hl hf
  have hfind : ∀ l : List String, List.find? (fun _ => false) l = none := by
    intro l
    induction l with
    | nil => rfl
    | cons x xs ih => simp [List.find?]
  by_cases hu : a.servicePath ∈ files
  · by_cases hb : a.binaryPath ∈ files
    · by_cases hne : a.binaryPath = a.servicePath
      · simp [Agent.Uninstall, Agent.stopService, Agent.removeServiceFile,
          Agent.removeAgentBinary, Agent.removeConfigDirectory, Agent.reloadSystemd,
          run, remove, removeAll, World.next, stdOS, Host.exit, Agent.stopCmd, reloadCmd,
          Command, Agent.uninstallSteps, hfind, hs, hu, hb, hne]
      · simp [Agent.Uninstall, Agent.stopService, Agent.removeServiceFile,
          Agent.removeAgentBinary, Agent.removeConfigDirectory, Agent.reloadSystemd,
          run, remove, removeAll, World.next, stdOS, Host.exit, Agent.stopCmd, reloadCmd,
          Command, Agent.uninstallSteps, hfind, hs, hu, hb, hne]
    · simp [Agent.Uninstall, Agent.stopService, Agent.removeServiceFile,
        Agent.removeAgentBinary, Agent.removeConfigDirectory, Agent.reloadSystemd,
        run, remove, removeAll, World.next, stdOS, Host.exit, Agent.stopCmd, reloadCmd,
        Command, Agent.uninstallSteps, hfind, hs, hu, hb]
  · simp [Agent.Uninstall, Agent.stopService, Agent.removeServiceFile,
      Agent.removeAgentBinary, Agent.removeConfigDirectory, Agent.reloadSystemd,
      run, remove, removeAll, World.next, stdOS, Host.exit, Agent.stopCmd, reloadCmd,
      Command, Agent.uninstallSteps, hfind, hs, hu]

/-- C6 as amended, on a host with the unit file and the binary in place and every
call behaving normally: the hypotheses hold and `Uninstall` returns nil. -/
theorem Uninstall_rerun_on_normal_host_witness :
    hostInstalled.locked = [] ∧ hostInstalled.failing = [] ∧ "sudo" ∈ hostInstalled.tools ∧
    (exAgent.Uninstall stdOS ⟨hostInstalled, []⟩).1 = none :=
  ⟨by decide, by decide, by decide,
    (Uninstall_rerun_on_normal_host exAgent hostInstalled [] (by decide) (by decide)
      (by decide)).1.mpr (by decide)⟩

/-! ## The removal steps on paths that are already absent -/

/-- C7 fails on the code: on a host with no unit file and no binary,
`removeServiceFile` and `removeAgentBinary` each return the not-exist error of
`os.Remove`, wrapped. -/
theorem remove_absent_file_is_error :
    "/etc/systemd/system/morpher-agent.service" ∉ hostBare.files ∧
    "/usr/local/bin/morpher-agent" ∉ hostBare.files ∧
    (exAgent.removeServiceFile stdOS ⟨hostBare, []⟩).1 =
      some (.wrapError
        ("failed to remove service file: " ++
          "remove /etc/systemd/system/morpher-agent.service: no such file or directory")
        (.pathError "remove" "/etc/systemd/system/morpher-agent.service" .ENOENT)) ∧
    (exAgent.removeAgentBinary stdOS ⟨hostBare, []⟩).1 =
      some (.wrapError
        ("failed to remove agent binary: " ++
          "remove /usr/local/bin/morpher-agent: no such file or directory")
        (.pathError "remove" "/usr/local/bin/morpher-agent" .ENOENT)) := by
  decide

/-- C7 as amended: each removal step returns nil exactly when its library call does,
adding no tolerance of its own; so on a host where `os.Remove` rejects a missing path
and `os.RemoveAll` accepts one, `removeConfigDirectory` returns nil when nothing
exists at or below the configuration directory, while `removeServiceFile` and
`removeAgentBinary` return the wrapped not-exist error when their file is absent. -/
theorem removal_steps_on_absent_paths (os : OS σ) (a : Agent) (w : World σ) (h : Host)
    (log : List Action) :
    ((a.removeServiceFile os w).1 = none ↔ (os.Remove w.host a.servicePath).1 = none) ∧
    ((a.removeAgentBinary os w).1 = none ↔
      (os.Remove w.host (Join a.InstallPath a.ServiceName)).1 = none) ∧
    ((a.removeConfigDirectory os w).1 = none ↔
      (os.RemoveAll w.host "/etc/morpher-agent").1 = none) ∧
    ((∀ f ∈ h.files, below "/etc/morpher-agent" f = false) →
      (a.removeConfigDirectory stdOS ⟨h, log⟩).1 = none) ∧
    (a.servicePath ∉ h.files →
      (a.removeServiceFile stdOS ⟨h, log⟩).1 =
        some (ErrorfW "failed to remove service file: "
          (some (.pathError "remove" a.servicePath .ENOENT)))) ∧
    (Join a.InstallPath a.ServiceName ∉ h.files →
      (a.removeAgentBinary stdOS ⟨h, log⟩).1 =
        some (ErrorfW "failed to remove agent binary: "
          (some (.pathError "remove" (Join a.InstallPath a.ServiceName) .ENOENT)))) := by
  refine ⟨?_, ?_, ?_, ?_, ?_, ?_⟩
  · rcases h1 : os.Remove w.host a.servicePath with ⟨_ | e, s1⟩ <;>
      simp [Agent.removeServiceFile, remove, h1]
  · rcases h1 : os.Remove w.host (Join a.InstallPath a.ServiceName) with ⟨_ | e, s1⟩ <;>
      simp [Agent.removeAgentBinary, Agent.binaryPath, remove, h1]
  · rcases h1 : os.RemoveAll w.host "/etc/morpher-agent" with ⟨_ | e, s1⟩ <;>
      simp [Agent.removeConfigDirectory, configPath, removeAll, h1]
  · intro hab
    have hfind : List.find? (fun f => below "/etc/morpher-agent" f && decide (f ∈ h.locked))
        h.files = none := by
      rw [List.find?_eq_none]
      intro f hf
      simp [hab f hf]
    simp [Agent.removeConfigDirectory, configPath, removeAll, stdOS, hfind]
  · intro hab
    simp [Agent.removeServiceFile, remove, stdOS, hab]
  · intro hab
    simp [Agent.removeAgentBinary, Agent.binaryPath, remove, stdOS, hab]

/-- C7 as amended, on the bare host: the configuration directory is absent and
`removeConfigDirectory` returns nil. -/
theorem removal_steps_on_absent_paths_witness :
    (∀ f ∈ hostBare.files, below "/etc/morpher-agent" f = false) ∧
    (exAgent.removeConfigDirectory stdOS ⟨hostBare, []⟩).1 = none :=
  ⟨by decide,
    (removal_steps_on_absent_paths stdOS exAgent ⟨hostBare, []⟩ hostBare []).2.2.2.1
      (by decide)⟩

/-! ## The temporary script of Install -/

/-- C8 at a host where the temporary file is created and the wget transfer exits with
status 4: `Install` returns after the failed download having issued no `os.Remove`,
and the temporary file is still there; and on no host does a run of `Install` issue
an `os.Remove` at all. -/
theorem Install_leaves_script_after_failed_download :
    (stdOS.CreateTemp hostDownloadFails "" "install_amd64.sh").1 =
      ("/tmp/install_amd64.sh1234567890", none) ∧
    (exAgent.Install stdOS "latest" ⟨hostDownloadFails, []⟩).1.map GoError.Error =
      some ("failed to download install script: failed to download script: " ++
        "wget failed: exit status 4") ∧
    (exAgent.Install stdOS "latest" ⟨hostDownloadFails, []⟩).2.log =
      [.CreateTemp "" "install_amd64.sh", .LookPath "wget",
        .Run (Command "wget" ["-O", "/tmp/install_amd64.sh1234567890", exAgent.scriptURL]),
        .Close "/tmp/install_amd64.sh1234567890"] ∧
    Action.Remove "/tmp/install_amd64.sh1234567890" ∉
      (exAgent.Install stdOS "latest" ⟨hostDownloadFails, []⟩).2.log ∧
    "/tmp/install_amd64.sh1234567890" ∈
      (exAgent.Install stdOS "latest" ⟨hostDownloadFails, []⟩).2.host.files ∧
    (∀ (τ : Type) (os : OS τ) (a : Agent) (version : String) (w : World τ),
      ∃ tr, (a.Install os version w).2.log = w.log ++ tr ∧ ∀ name, .Remove name ∉ tr) := by
  refine ⟨by decide, by decide, by decide, by decide, by decide, ?_⟩
  intro τ os a version w
  obtain ⟨tr, htr, -, hrm⟩ := Install_runs os a version w
  exact ⟨tr, htr, hrm⟩

/-! ## Status and Verify -/

/-- C9: `Status` and `Verify` return a nil error; their installed flag is true exactly
when `os.Stat` of `Join(InstallPath, ServiceName)` succeeds; the reported path is that
joined path when the flag is true and the empty string when it is false, whatever the
two service queries return. -/
theorem Status_Verify_installed_flag (os : OS σ) (a : Agent) (w : World σ) :
    (a.Status os w).1.2 = none ∧
    ((a.Status os w).1.1.Installed = true ↔
      (os.Stat w.host (Join a.InstallPath a.ServiceName)).1 = none) ∧
    (a.Status os w).1.1.InstallPath =
      (if (a.Status os w).1.1.Installed then Join a.InstallPath a.ServiceName else "") ∧
    (a.Verify os w).1.2 = none ∧
    ((a.Verify os w).1.1.BinaryInstalled = true ↔
      (os.Stat w.host (Join a.InstallPath a.ServiceName)).1 = none) ∧
    (a.Verify os w).1.1.BinaryPath =
      (if (a.Verify os w).1.1.BinaryInstalled then Join a.InstallPath a.ServiceName else "") := by
  rcases h0 : os.Stat w.host (Join a.InstallPath a.ServiceName) with ⟨_ | e0, s0⟩ <;>
  rcases h1 : a.getServiceStatus os (w.next (.Stat (Join a.InstallPath a.ServiceName)) s0)
    with ⟨⟨st, _ | e1⟩, w1⟩ <;>
  rcases h2 : a.isServiceEnabled os w1 with ⟨⟨en, _ | e2⟩, w2⟩ <;>
  simp [Agent.Status, Agent.Verify, Agent.isInstalled, stat, h0, h1, h2]

/-- C10 fails on the code: on a host where the binary exists but `os.Stat` of its
path is refused with "permission denied", `Status` and `Verify` return a nil error
and report the agent as not installed. -/
theorem Status_permission_denied_is_not_installed :
    "/usr/local/bin/morpher-agent" ∈ hostUnreadable.files ∧
    (stdOS.Stat hostUnreadable (Join exAgent.InstallPath exAgent.ServiceName)).1 =
      some (.pathError "stat" "/usr/local/bin/morpher-agent" .EACCES) ∧
    (exAgent.Status stdOS ⟨hostUnreadable, []⟩).1 =
      ({ Installed := false, InstallPath := "", ServiceStatus := "", ServiceEnabled := false },
        none) ∧
    (exAgent.Verify stdOS ⟨hostUnreadable, []⟩).1 =
      ({ BinaryInstalled := false, BinaryPath := "", ServiceStatus := "",
         ServiceRunning := false, ServiceEnabled := false }, none) := by
  decide

/-- C10 as amended: `Status` and `Verify` never return an error; whenever `os.Stat`
of `Join(InstallPath, ServiceName)` fails, for whatever reason, they return a nil
error with the installed flag false and the path empty. -/
theorem Status_Verify_any_stat_failure (os : OS σ) (a : Agent) (w : World σ) (e : GoError)
    (h : (os.Stat w.host (Join a.InstallPath a.ServiceName)).1 = some e) :
    (a.Status os w).1.2 = none ∧ (a.Status os w).1.1.Installed = false ∧
    (a.Status os w).1.1.InstallPath = "" ∧
    (a.Verify os w).1.2 = none ∧ (a.Verify os w).1.1.BinaryInstalled = false ∧
    (a.Verify os w).1.1.BinaryPath = "" := by
  rcases h0 : os.Stat w.host (Join a.InstallPath a.ServiceName) with ⟨_ | e0, s0⟩
  · simp [h0] at h
  · rcases h1 : a.getServiceStatus os (w.next (.Stat (Join a.InstallPath a.ServiceName)) s0)
      with ⟨⟨st, _ | e1⟩, w1⟩ <;>
    rcases h2 : a.isServiceEnabled os w1 with ⟨⟨en, _ | e2⟩, w2⟩ <;>
    simp [Agent.Status, Agent.Verify, Agent.isInstalled, stat, h0, h1, h2]

/-- C10 as amended, on the host whose binary path is refused with "permission
denied": the probe fails with `EACCES` and both operations still return a nil error. -/
theorem Status_Verify_any_stat_failure_witness :
    (stdOS.Stat hostUnreadable (Join exAgent.InstallPath exAgent.ServiceName)).1 =
      some (.pathError "stat" "/usr/local/bin/morpher-agent" .EACCES) ∧
    (exAgent.Status stdOS ⟨hostUnreadable, []⟩).1.2 = none ∧
    (exAgent.Verify stdOS ⟨hostUnreadable, []⟩).1.2 = none :=
  ⟨by decide,
    (Status_Verify_any_stat_failure stdOS exAgent ⟨hostUnreadable, []⟩
      (.pathError "stat" "/usr/local/bin/morpher-agent" .EACCES) (by decide)).1,
    (Status_Verify_any_stat_failure stdOS exAgent ⟨hostUnreadable, []⟩
      (.pathError "stat" "/usr/local/bin/morpher-agent" .EACCES) (by decide)).2.2.2.1⟩

/-! ## The enabled flag when the query fails -/

/-- C11 fails on the code: on two hosts that differ only in that `systemctl
is-enabled` fails on one and answers "disabled" on the other, `Status` returns equal
results and so does `Verify`: both report `ServiceEnabled = false`. -/
theorem Status_same_for_failed_and_disabled :
    (stdOS.Output hostDisabled exAgent.isEnabledCmd).1 = ("disabled\n", none) ∧
    (stdOS.Output hostEnabledUnknown exAgent.isEnabledCmd).1 =
      ("disabled\n", some (.exitError 1)) ∧
    hostEnabledUnknown = { hostDisabled with
      failing := [(["systemctl", "is-enabled", "morpher-agent"], 1)] } ∧
    (exAgent.Status stdOS ⟨hostEnabledUnknown, []⟩).1 =
      (exAgent.Status stdOS ⟨hostDisabled, []⟩).1 ∧
    (exAgent.Verify stdOS ⟨hostEnabledUnknown, []⟩).1 =
      (exAgent.Verify stdOS ⟨hostDisabled, []⟩).1 ∧
    (exAgent.Status stdOS ⟨hostEnabledUnknown, []⟩).1.1.ServiceEnabled = false := by
  decide

/-- C11 as amended: a failed `systemctl is-enabled` query is reported as
`ServiceEnabled = false`, exactly like the answer "disabled": when the query answers
"disabled" on a host, then on the host that differs only in that this query fails,
`Status` returns the same result and final log, and so does `Verify`. -/
theorem Status_failed_enabled_query_is_false (os : OS σ) (a : Agent) (w : World σ)
    (e : GoError)
    (hok : (os.Output (os.Output (os.Stat w.host (Join a.InstallPath a.ServiceName)).2
      a.isActiveCmd).2 a.isEnabledCmd).1.2 = none)
    (hdis : TrimSpace (os.Output (os.Output (os.Stat w.host
      (Join a.InstallPath a.ServiceName)).2 a.isActiveCmd).2 a.isEnabledCmd).1.1 = "disabled") :
    (a.Status (os.failingQuery a.isEnabledCmd e) w).1 = (a.Status os w).1 ∧
    (a.Status (os.failingQuery a.isEnabledCmd e) w).2.log = (a.Status os w).2.log ∧
    (a.Verify (os.failingQuery a.isEnabledCmd e) w).1 = (a.Verify os w).1 ∧
    (a.Verify (os.failingQuery a.isEnabledCmd e) w).2.log = (a.Verify os w).2.log ∧
    (a.Status os w).1.1.ServiceEnabled = false ∧
    (a.Verify os w).1.1.ServiceEnabled = false := by
  have hne : a.isActiveCmd ≠ a.isEnabledCmd := by
    simp [Agent.isActiveCmd, Agent.isEnabledCmd, Command]
  rcases h0 : os.Stat w.host (Join a.InstallPath a.ServiceName) with ⟨r0, s0⟩
  rw [h0] at hok hdis
  rcases h1 : os.Output s0 a.isActiveCmd with ⟨⟨o1, r1⟩, s1⟩
  rw [h1] at hok hdis
  rcases h2 : os.Output s1 a.isEnabledCmd with ⟨⟨o2, r2⟩, s2⟩
  rw [h2] at hok hdis
  simp only at hok hdis
  subst hok
  cases r0 <;> cases r1 <;>
    simp [Agent.Status, Agent.Verify, Agent.isInstalled, Agent.getServiceStatus,
      Agent.isServiceEnabled, stat, output, World.next, OS.failingQuery, h0, h1, h2, hne, hdis]

/-- C11 as amended, on the host where `systemctl is-enabled` answers "disabled":
making that query fail with exit status 1 leaves the result of `Status` unchanged. -/
theorem Status_failed_enabled_query_is_false_witness :
    (exAgent.Status (stdOS.failingQuery exAgent.isEnabledCmd (.exitError 1))
      ⟨hostDisabled, []⟩).1 = (exAgent.Status stdOS ⟨hostDisabled, []⟩).1 :=
  (Status_failed_enabled_query_is_false stdOS exAgent ⟨hostDisabled, []⟩ (.exitError 1)
    (by decide) (by decide)).1

/-! ## The summaries -/

/-- C12: the status summary is a total function into four categories, and each
category is chosen on exactly its own condition: running-and-enabled iff installed,
status "active" and enabled; running-not-enabled iff installed, status "active" and
not enabled; installed-not-running iff installed and status other than "active";
not-installed iff not installed.  The four lines printed are pairwise distinct. -/
theorem summaryCase_characterised (status : StatusResult) :
    (summaryCase status = .runningEnabled ↔
      status.Installed = true ∧ status.ServiceStatus = "active" ∧
        status.ServiceEnabled = true) ∧
    (summaryCase status = .runningNotEnabled ↔
      status.Installed = true ∧ status.ServiceStatus = "active" ∧
        status.ServiceEnabled = false) ∧
    (summaryCase status = .installedNotRunning ↔
      status.Installed = true ∧ status.ServiceStatus ≠ "active") ∧
    (summaryCase status = .notInstalled ↔ status.Installed = false) ∧
    (∀ c d : Summary, summaryText c = summaryText d → c = d) := by
  obtain ⟨inst, path, st, en⟩ := status
  refine ⟨?_, ?_, ?_, ?_, ?_⟩
  · cases inst <;> cases en <;> by_cases hs : st = "active" <;> simp [summaryCase, hs]
  · cases inst <;> cases en <;> by_cases hs : st = "active" <;> simp [summaryCase, hs]
  · cases inst <;> cases en <;> by_cases hs : st = "active" <;> simp [summaryCase, hs]
  · cases inst <;> cases en <;> by_cases hs : st = "active" <;> simp [summaryCase, hs]
  · intro c d h
    cases c <;> cases d <;> first | rfl | exact absurd h (by decide)

/-- C13: on every host and for every agent, the summary arm that the status command
takes on the result of `Status` is the arm that the verify command takes on the
result of `Verify`; `Verify` sets `ServiceRunning` exactly when the `ServiceStatus`
it reports is "active", and the two operations report the same installed flag,
service status and enabled flag. -/
theorem summaryCase_Status_eq_overallCase_Verify (os : OS σ) (a : Agent) (w : World σ) :
    summaryCase (a.Status os w).1.1 = overallCase (a.Verify os w).1.1 ∧
    ((a.Verify os w).1.1.ServiceRunning = true ↔
      (a.Verify os w).1.1.ServiceStatus = "active") ∧
    (a.Verify os w).1.1.BinaryInstalled = (a.Status os w).1.1.Installed ∧
    (a.Verify os w).1.1.ServiceStatus = (a.Status os w).1.1.ServiceStatus ∧
    (a.Verify os w).1.1.ServiceEnabled = (a.Status os w).1.1.ServiceEnabled ∧
    (a.Verify os w).2 = (a.Status os w).2 := by
  rcases h0 : os.Stat w.host (Join a.InstallPath a.ServiceName) with ⟨_ | e0, s0⟩ <;>
  rcases h1 : a.getServiceStatus os (w.next (.Stat (Join a.InstallPath a.ServiceName)) s0)
    with ⟨⟨st, _ | e1⟩, w1⟩ <;>
  rcases h2 : a.isServiceEnabled os w1 with ⟨⟨en, _ | e2⟩, w2⟩ <;>
  simp [Agent.Status, Agent.Verify, Agent.isInstalled, stat, summaryCase, overallCase,
    h0, h1, h2]

/-- C14: on every host, the calls issued by `Status`, and those issued by `Verify`,
are exactly the three probes `os.Stat` of the binary path, `systemctl is-active
<ServiceName>` and `systemctl is-enabled <ServiceName>`, in that order and whatever
the earlier ones return; both queries are read with `Output`, and no command is run,
nothing is removed, created or changed. -/
theorem Status_Verify_issue_three_probes (os : OS σ) (a : Agent) (w : World σ) :
    (a.Status os w).2.log =
      w.log ++ [.Stat (Join a.InstallPath a.ServiceName),
        .Output (Command "systemctl" ["is-active", a.ServiceName]),
        .Output (Command "systemctl" ["is-enabled", a.ServiceName])] ∧
    (a.Verify os w).2.log =
      w.log ++ [.Stat (Join a.InstallPath a.ServiceName),
        .Output (Command "systemctl" ["is-active", a.ServiceName]),
        .Output (Command "systemctl" ["is-enabled", a.ServiceName])] := by
  rcases h0 : os.Stat w.host (Join a.InstallPath a.ServiceName) with ⟨r0, s0⟩
  rcases h1 : os.Output s0 a.isActiveCmd with ⟨⟨o1, r1⟩, s1⟩
  rcases h2 : os.Output s1 a.isEnabledCmd with ⟨⟨o2, r2⟩, s2⟩
  have e1 : Command "systemctl" ["is-active", a.ServiceName] = a.isActiveCmd := rfl
  have e2 : Command "systemctl" ["is-enabled", a.ServiceName] = a.isEnabledCmd := rfl
  rw [e1, e2]
  cases r0 <;> cases r1 <;> cases r2 <;>
    simp [Agent.Status, Agent.Verify, Agent.isInstalled, Agent.getServiceStatus,
      Agent.isServiceEnabled, stat, output, World.next, h0, h1, h2]

/-! ## The error of a failed Uninstall -/

/-- A text that agrees with `q` on its first 18 characters only if it is `q` on them:
`p` is not an initial segment of `q ++ r` when the two differ within 18 characters. -/
theorem not_initial_of_take_ne (p q r : String) (hp : 18 ≤ p.data.length)
    (hq : 18 ≤ q.data.length) (hne : p.data.take 18 ≠ q.data.take 18) :
    ¬ p.data <+: (q ++ r).data := by
  rintro ⟨t, ht⟩
  have h := congrArg (List.take 18) ht
  rw [String.data_append, List.take_append_of_le_length hp,
    List.take_append_of_le_length hq] at h
  exact hne h

/-- A message that is the name of step `k`, a colon and any text starts with the name
of step `k` and with the name of no other step of `Uninstall`. -/
theorem stepName_determined (k : Nat) (hk : k < 5) (t : String) :
    (uninstallStepNames.getD k "").data <+: (uninstallStepNames.getD k "" ++ ": " ++ t).data ∧
    ∀ j, j < 5 →
      (uninstallStepNames.getD j "").data <+: (uninstallStepNames.getD k "" ++ ": " ++ t).data →
      j = k := by
  refine ⟨⟨(": " ++ t).data, by simp [String.data_append]⟩, ?_⟩
  intro j hj hpre
  interval_cases k <;> interval_cases j <;>
    first
    | rfl
    | exact absurd hpre (not_initial_of_take_ne _ _ _ (by decide) (by decide) (by decide))

/-- The message of an error wrapped twice under the name of step `k`. -/
theorem stepName_wrapped_twice (k : Nat) (e : GoError) :
    (ErrorfW (uninstallStepNames.getD k "" ++ ": ")
      (some (ErrorfW (uninstallStepNames.getD k "" ++ ": ") (some e)))).Error =
      uninstallStepNames.getD k "" ++ ": " ++ (uninstallStepNames.getD k "" ++ ": " ++ e.Error) := by
  simp [ErrorfW, GoError.Error]

/-- C17: when `Uninstall` returns an error, some step `k` of the five is the first to
fail, with an underlying error `e`; the message returned is that step's name, a colon,
the same name again (the step function attaches it as well), a colon, and the text of
`e`; it therefore starts with the step's name and ends with the underlying text, and
it starts with the name of no other step, so the message determines the step. -/
theorem Uninstall_error_names_failed_step (os : OS σ) (a : Agent) (w : World σ)
    (err : GoError) (h : (a.Uninstall os w).1 = some err) :
    ∃ k e, k < 5 ∧
      (a.Uninstall os w).2.log = w.log ++ a.uninstallSteps.take (k + 1) ∧
      os.outcomes w.host (a.uninstallSteps.take (k + 1)) = List.replicate k none ++ [some e] ∧
      err.Error = uninstallStepNames.getD k "" ++ ": " ++
        (uninstallStepNames.getD k "" ++ ": " ++ e.Error) ∧
      (uninstallStepNames.getD k "").data <+: err.Error.data ∧
      e.Error.data <:+ err.Error.data ∧
      ∀ j, j < 5 → (uninstallStepNames.getD j "").data <+: err.Error.data → j = k := by
  have key : ∀ (k : Nat) (e : GoError), k < 5 →
      err = ErrorfW (uninstallStepNames.getD k "" ++ ": ")
        (some (ErrorfW (uninstallStepNames.getD k "" ++ ": ") (some e))) →
      err.Error = uninstallStepNames.getD k "" ++ ": " ++
        (uninstallStepNames.getD k "" ++ ": " ++ e.Error) ∧
      (uninstallStepNames.getD k "").data <+: err.Error.data ∧
      e.Error.data <:+ err.Error.data ∧
      ∀ j, j < 5 → (uninstallStepNames.getD j "").data <+: err.Error.data → j = k := by
    intro k e hk he
    have hm := stepName_wrapped_twice k e
    rw [← he] at hm
    rw [hm]
    exact ⟨rfl, (stepName_determined k hk _).1,
      ⟨(uninstallStepNames.getD k "" ++ ": " ++ (uninstallStepNames.getD k "" ++ ": ")).data,
        by simp [String.data_append]⟩,
      (stepName_determined k hk _).2⟩
  rcases h1 : os.Run w.host a.stopCmd with ⟨_ | e1, s1⟩
  · rcases h2 : os.Remove s1 a.servicePath with ⟨_ | e2, s2⟩
    · rcases h3 : os.Remove s2 a.binaryPath with ⟨_ | e3, s3⟩
      · rcases h4 : os.RemoveAll s3 configPath with ⟨_ | e4, s4⟩
        · rcases h5 : os.Run s4 reloadCmd with ⟨_ | e5, s5⟩
          · simp [Agent.Uninstall, Agent.stopService, Agent.removeServiceFile,
              Agent.removeAgentBinary, Agent.removeConfigDirectory, Agent.reloadSystemd,
              run, remove, removeAll, World.next, h1, h2, h3, h4, h5] at h
          · refine ⟨4, e5, by decide, ?_, ?_, key 4 e5 (by decide) ?_⟩
            · simp [Agent.Uninstall, Agent.stopService, Agent.removeServiceFile,
                Agent.removeAgentBinary, Agent.removeConfigDirectory, Agent.reloadSystemd,
                run, remove, removeAll, World.next, Agent.uninstallSteps, h1, h2, h3, h4, h5]
            · simp [Agent.uninstallSteps, OS.outcomes, OS.call, List.replicate,
                h1, h2, h3, h4, h5]
            · simpa [Agent.Uninstall, Agent.stopService, Agent.removeServiceFile,
                Agent.removeAgentBinary, Agent.removeConfigDirectory, Agent.reloadSystemd,
                run, remove, removeAll, World.next, uninstallStepNames, eq_comm,
                h1, h2, h3, h4, h5] using h
        · refine ⟨3, e4, by decide, ?_, ?_, key 3 e4 (by decide) ?_⟩
          · simp [Agent.Uninstall, Agent.stopService, Agent.removeServiceFile,
              Agent.removeAgentBinary, Agent.removeConfigDirectory, Agent.reloadSystemd,
              run, remove, removeAll, World.next, Agent.uninstallSteps, h1, h2, h3, h4]
          · simp [Agent.uninstallSteps, OS.outcomes, OS.call, List.replicate, h1, h2, h3, h4]
          · simpa [Agent.Uninstall, Agent.stopService, Agent.removeServiceFile,
              Agent.removeAgentBinary, Agent.removeConfigDirectory, Agent.reloadSystemd,
              run, remove, removeAll, World.next, uninstallStepNames, eq_comm,
              h1, h2, h3, h4] using h
      · refine ⟨2, e3, by decide, ?_, ?_, key 2 e3 (by decide) ?_⟩
        · simp [Agent.Uninstall, Agent.stopService, Agent.removeServiceFile,
            Agent.removeAgentBinary, Agent.removeConfigDirectory, Agent.reloadSystemd,
            run, remove, removeAll, World.next, Agent.uninstallSteps, h1, h2, h3]
        · simp [Agent.uninstallSteps, OS.outcomes, OS.call, List.replicate, h1, h2, h3]
        · simpa [Agent.Uninstall, Agent.stopService, Agent.removeServiceFile,
            Agent.removeAgentBinary, Agent.removeConfigDirectory, Agent.reloadSystemd,
            run, remove, removeAll, World.next, uninstallStepNames, eq_comm,
            h1, h2, h3] using h
    · refine ⟨1, e2, by decide, ?_, ?_, key 1 e2 (by decide) ?_⟩
      · simp [Agent.Uninstall, Agent.stopService, Agent.removeServiceFile,
          Agent.removeAgentBinary, Agent.removeConfigDirectory, Agent.reloadSystemd,
          run, remove, removeAll, World.next, Agent.uninstallSteps, h1, h2]
      · simp [Agent.uninstallSteps, OS.outcomes, OS.call, List.replicate, h1, h2]
      · simpa [Agent.Uninstall, Agent.stopService, Agent.removeServiceFile,
          Agent.removeAgentBinary, Agent.removeConfigDirectory, Agent.reloadSystemd,
          run, remove, removeAll, World.next, uninstallStepNames, eq_comm,
          h1, h2] using h
  · refine ⟨0, e1, by decide, ?_, ?_, key 0 e1 (by decide) ?_⟩
    · simp [Agent.Uninstall, Agent.stopService, Agent.removeServiceFile,
        Agent.removeAgentBinary, Agent.removeConfigDirectory, Agent.reloadSystemd,
        run, remove, removeAll, World.next, Agent.uninstallSteps, h1]
    · simp [Agent.uninstallSteps, OS.outcomes, OS.call, List.replicate, h1]
    · simpa [Agent.Uninstall, Agent.stopService, Agent.removeServiceFile,
        Agent.removeAgentBinary, Agent.removeConfigDirectory, Agent.reloadSystemd,
        run, remove, removeAll, World.next, uninstallStepNames, eq_comm,
        h1] using h

/-- C17 on the host whose unit file is locked: `Uninstall` returns the doubly wrapped
refusal of the unit-file removal, and the theorem applies to it. -/
theorem Uninstall_error_names_failed_step_witness :
    (exAgent.Uninstall stdOS ⟨hostUnitLocked, []⟩).1 = some errUnitLocked ∧
    errUnitLocked.Error = "failed to remove service file: failed to remove service file: " ++
      "remove /etc/systemd/system/morpher-agent.service: operation not permitted" ∧
    ∃ k e, k < 5 ∧
      (exAgent.Uninstall stdOS ⟨hostUnitLocked, []⟩).2.log =
        [] ++ exAgent.uninstallSteps.take (k + 1) ∧
      stdOS.outcomes hostUnitLocked (exAgent.uninstallSteps.take (k + 1)) =
        List.replicate k none ++ [some e] ∧
      errUnitLocked.Error = uninstallStepNames.getD k "" ++ ": " ++
        (uninstallStepNames.getD k "" ++ ": " ++ e.Error) ∧
      (uninstallStepNames.getD k "").data <+: errUnitLocked.Error.data ∧
      e.Error.data <:+ errUnitLocked.Error.data ∧
      ∀ j, j < 5 → (uninstallStepNames.getD j "").data <+: errUnitLocked.Error.data → j = k :=
  ⟨by decide, by decide,
    Uninstall_error_names_failed_step stdOS exAgent ⟨hostUnitLocked, []⟩ errUnitLocked
      (by decide)⟩

/-! ## The version argument -/

/-- C18 at the versions "1.0.0", "2.0.0" and "latest": `Install` issues the same
calls for each of them, and the one transfer it requests is that of
`.../scripts/install_amd64.sh`, a name built from the architecture alone; on every
host `Install` and `Upgrade` return the same result and world for any two versions. -/
theorem Install_ignores_version :
    (exAgent.Install stdOS "1.0.0" ⟨hostBare, []⟩).2.log =
      [.CreateTemp "" "install_amd64.sh", .LookPath "wget",
        .Run (Command "wget" ["-O", "/tmp/install_amd64.sh1234567890",
          "https://raw.githubusercontent.com/morpher-vm/morpher-agent/main/scripts/" ++
            "install_amd64.sh"]),
        .Close "/tmp/install_amd64.sh1234567890"] ∧
    (exAgent.Install stdOS "2.0.0" ⟨hostBare, []⟩).2.log =
      (exAgent.Install stdOS "1.0.0" ⟨hostBare, []⟩).2.log ∧
    (exAgent.Install stdOS "latest" ⟨hostBare, []⟩).2.log =
      (exAgent.Install stdOS "1.0.0" ⟨hostBare, []⟩).2.log ∧
    (exAgent.Upgrade stdOS "2.0.0" ⟨hostInstalled, []⟩).2.log =
      (exAgent.Upgrade stdOS "1.0.0" ⟨hostInstalled, []⟩).2.log ∧
    (∀ (τ : Type) (os : OS τ) (a : Agent) (v1 v2 : String) (w : World τ),
      a.Install os v1 w = a.Install os v2 w ∧ a.Upgrade os v1 w = a.Upgrade os v2 w) := by
  refine ⟨by decide, by decide, by decide, by decide, ?_⟩
  intro τ os a v1 v2 w
  exact ⟨rfl, rfl⟩

/-! ## The programs the service steps execute -/

/-- C19 fails on the code: the program that `stopService`, `startService` and
`reloadSystemd` execute is `sudo`; `systemctl` is only its first argument. -/
theorem service_steps_execute_sudo :
    (exAgent.stopService stdOS ⟨hostBare, []⟩).2.log =
      [.Run { Path := "sudo", Args := ["sudo", "systemctl", "disable", "--now", "morpher-agent"],
              Env := none, Stdout := false, Stderr := false }] ∧
    (exAgent.startService stdOS ⟨hostBare, []⟩).2.log =
      [.Run { Path := "sudo", Args := ["sudo", "systemctl", "start", "morpher-agent"],
              Env := none, Stdout := false, Stderr := false }] ∧
    (exAgent.reloadSystemd stdOS ⟨hostBare, []⟩).2.log =
      [.Run { Path := "sudo", Args := ["sudo", "systemctl", "daemon-reload"],
              Env := none, Stdout := false, Stderr := false }] ∧
    exAgent.stopCmd.Path ≠ "systemctl" ∧ exAgent.startCmd.Path ≠ "systemctl" ∧
    reloadCmd.Path ≠ "systemctl" := by
  decide

/-- C19 as amended: on every host each of `stopService`, `startService` and
`reloadSystemd` runs exactly one command, whose program is `sudo` and whose arguments
are `systemctl` and the action; only the two read-only queries `getServiceStatus` and
`isServiceEnabled` execute `systemctl` itself. -/
theorem service_steps_go_through_sudo (os : OS σ) (a : Agent) (w : World σ) :
    (a.stopService os w).2.log =
      w.log ++ [.Run { Path := "sudo",
                       Args := ["sudo", "systemctl", "disable", "--now", a.ServiceName],
                       Env := none, Stdout := false, Stderr := false }] ∧
    (a.startService os w).2.log =
      w.log ++ [.Run { Path := "sudo", Args := ["sudo", "systemctl", "start", a.ServiceName],
                       Env := none, Stdout := false, Stderr := false }] ∧
    (a.reloadSystemd os w).2.log =
      w.log ++ [.Run { Path := "sudo", Args := ["sudo", "systemctl", "daemon-reload"],
                       Env := none, Stdout := false, Stderr := false }] ∧
    (a.getServiceStatus os w).2.log =
      w.log ++ [.Output { Path := "systemctl", Args := ["systemctl", "is-active", a.ServiceName],
                          Env := none, Stdout := false, Stderr := false }] ∧
    (a.isServiceEnabled os w).2.log =
      w.log ++ [.Output { Path := "systemctl",
                          Args := ["systemctl", "is-enabled", a.ServiceName],
                          Env := none, Stdout := false, Stderr := false }] := by
  refine ⟨?_, ?_, ?_, ?_, ?_⟩
  · show (a.stopService os w).2.log = w.log ++ [.Run a.stopCmd]
    rcases h1 : os.Run w.host a.stopCmd with ⟨_ | e1, s1⟩ <;>
      simp [Agent.stopService, run, World.next, h1]
  · show (a.startService os w).2.log = w.log ++ [.Run a.startCmd]
    rcases h1 : os.Run w.host a.startCmd with ⟨_ | e1, s1⟩ <;>
      simp [Agent.startService, run, World.next, h1]
  · show (a.reloadSystemd os w).2.log = w.log ++ [.Run reloadCmd]
    rcases h1 : os.Run w.host reloadCmd with ⟨_ | e1, s1⟩ <;>
      simp [Agent.reloadSystemd, run, World.next, h1]
  · show (a.getServiceStatus os w).2.log = w.log ++ [.Output a.isActiveCmd]
    rcases h1 : os.Output w.host a.isActiveCmd with ⟨⟨o1, _ | e1⟩, s1⟩ <;>
      simp [Agent.getServiceStatus, output, World.next, h1]
  · show (a.isServiceEnabled os w).2.log = w.log ++ [.Output a.isEnabledCmd]
    rcases h1 : os.Output w.host a.isEnabledCmd with ⟨⟨o1, _ | e1⟩, s1⟩ <;>
      simp [Agent.isServiceEnabled, output, World.next, h1]

/-! ## The environment of the install script -/

/-- The last entry for a key is the one a started process sees. -/
theorem lookupEnv_append_entry (env : List String) (key value : String) :
    lookupEnv (env ++ [key ++ "=" ++ value]) key = some value := by
  have hp : (key.data ++ ['=']).isPrefixOf (key ++ "=" ++ value).data = true := by
    rw [List.isPrefixOf_iff_prefix]
    exact ⟨value.data, by simp [String.data_append]⟩
  have hd : (key ++ "=" ++ value).data.drop (key.data.length + 1) = value.data := by
    have : (key ++ "=" ++ value).data = (key.data ++ ['=']) ++ value.data := by
      simp [String.data_append]
    rw [this, List.drop_left']
    simp
  have hf : (env ++ [key ++ "=" ++ value]).reverse.find?
      (fun kv => (key.data ++ ['=']).isPrefixOf kv.data) = some (key ++ "=" ++ value) := by
    rw [List.reverse_append]
    simp only [List.reverse_cons, List.reverse_nil, List.nil_append, List.singleton_append,
      List.find?_cons, hp]
  unfold lookupEnv
  rw [hf]
  simp only [hd]

/-- The loop of `dedupEnv` keeps a sublist of what it reads. -/
theorem dedupKept_sublist (l : List String) (saw : List (List Char)) :
    (dedupKept l saw).Sublist l := by
  induction l generalizing saw with
  | nil => simp [dedupKept]
  | cons kv rest ih =>
    unfold dedupKept
    split
    · exact (ih saw).cons kv
    · split
      · split
        · exact (ih saw).cons kv
        · exact (ih saw).cons₂ kv
      · split
        · exact (ih saw).cons kv
        · exact (ih _).cons₂ kv

/-- The loop of `dedupEnv` keeps no entry whose key it had met. -/
theorem dedupKept_key_not_saw (l : List String) (saw : List (List Char)) :
    ∀ kv ∈ dedupKept l saw, ∀ k, envKey kv.data = some k → k ∉ saw := by
  induction l generalizing saw with
  | nil => simp [dedupKept]
  | cons x rest ih =>
    intro kv hkv k hk
    unfold dedupKept at hkv
    split at hkv
    · exact ih saw kv hkv k hk
    · split at hkv
      · rename_i hnone
        split at hkv
        · exact ih saw kv hkv k hk
        · rcases List.mem_cons.mp hkv with rfl | h
          · rw [hnone] at hk
            exact absurd hk (by simp)
          · exact ih saw kv h k hk
      · rename_i k0 hsome
        split at hkv
        · exact ih saw kv hkv k hk
        · rename_i hnot
          rcases List.mem_cons.mp hkv with rfl | h
          · rw [hsome] at hk
            simp only [Option.some.injEq] at hk
            subst hk
            exact hnot
          · intro hin
            exact ih (k0 :: saw) kv h k hk (List.mem_cons_of_mem _ hin)

/-- The key of the entry `runInstallScript` appends. -/
theorem envKey_controller_entry (ip : String) :
    envKey ("MORPHER_CONTROLLER_IP=" ++ ip).data = some "MORPHER_CONTROLLER_IP".data := by
  have h : ("MORPHER_CONTROLLER_IP=" ++ ip).data =
      'M' :: ("ORPHER_CONTROLLER_IP".data ++ '=' :: ip.data) := by
    simp [String.data_append]
  rw [h]
  simp [envKey, List.takeWhile]

/-- The entry `runInstallScript` appends holds a NUL byte exactly when the controller
address does. -/
theorem hasNUL_controller_entry (ip : String) :
    hasNUL ("MORPHER_CONTROLLER_IP=" ++ ip) = hasNUL ip := by
  simp [hasNUL, String.data_append]

/-- What `dedupEnv` makes of a list that ends in the entry of the controller address:
the entry stays last, and before it stand the entries the loop keeps of the rest once
it has met the key `MORPHER_CONTROLLER_IP`. -/
theorem dedupEnv_append_controller_entry (env : List String) (ip : String)
    (hip : hasNUL ip = false) :
    (dedupEnv (env ++ ["MORPHER_CONTROLLER_IP=" ++ ip])).1 =
      (dedupKept env.reverse ["MORPHER_CONTROLLER_IP".data]).reverse ++
        ["MORPHER_CONTROLLER_IP=" ++ ip] := by
  have hn := hasNUL_controller_entry ip
  rw [hip] at hn
  have hk := envKey_controller_entry ip
  simp only [dedupEnv, List.reverse_append, List.reverse_cons, List.reverse_nil,
    List.nil_append, List.singleton_append]
  rw [dedupKept, hn, hk]
  simp

/-- C20, the failing case: for a caller whose environment already holds
`MORPHER_CONTROLLER_IP`, `runInstallScript` sets `Env` to the caller's list followed by
the new entry, and the process is started with another list: `os/exec` drops the
inherited entry, so the script is not executed with the caller's environment list
followed by the entry. -/
theorem runInstallScript_drops_inherited_entry :
    (exAgent.runInstallScript stdOS "/tmp/install.sh" ⟨hostControllerSet, []⟩).2.log =
      [.Run (exAgent.installScriptCmd (stdOS.Environ hostControllerSet) "/tmp/install.sh")] ∧
    stdOS.Environ hostControllerSet =
      ["PATH=/usr/bin", "MORPHER_CONTROLLER_IP=192.168.0.9"] ∧
    (exAgent.installScriptCmd (stdOS.Environ hostControllerSet) "/tmp/install.sh").Env =
      some ["PATH=/usr/bin", "MORPHER_CONTROLLER_IP=192.168.0.9",
        "MORPHER_CONTROLLER_IP=10.0.0.1"] ∧
    (exAgent.installScriptCmd (stdOS.Environ hostControllerSet) "/tmp/install.sh").environ
        (stdOS.Environ hostControllerSet) =
      (["PATH=/usr/bin", "MORPHER_CONTROLLER_IP=10.0.0.1"], none) ∧
    ((exAgent.installScriptCmd (stdOS.Environ hostControllerSet) "/tmp/install.sh").environ
        (stdOS.Environ hostControllerSet)).1 ≠
      stdOS.Environ hostControllerSet ++ ["MORPHER_CONTROLLER_IP=" ++ exAgent.ControllerIP] := by
  decide

/-- C20, amended: on every host and for every agent and script path, `runInstallScript`
runs one command, `sudo -E <scriptPath>`, with the caller's standard output and
standard error passed through and with `Env` set to the caller's environment list
followed by the entry `MORPHER_CONTROLLER_IP=<ControllerIP>` as its last element.  For
a controller address without a NUL byte the process is started with that list less the
entries `os/exec` drops from it: the entry is still the last element and the only one
of its key, so the script sees the agent's controller address whatever the caller's
environment held; what stands before it is a sublist of the caller's list; and when
the caller's list holds an entry of that key the environment is not the caller's list
followed by the entry.  For a controller address with a NUL byte `Start` fails on the
environment. -/
theorem runInstallScript_process_environment (os : OS σ) (a : Agent) (scriptPath : String)
    (w : World σ) :
    (a.runInstallScript os scriptPath w).2.log =
      w.log ++ [.Run (a.installScriptCmd (os.Environ w.host) scriptPath)] ∧
    (a.installScriptCmd (os.Environ w.host) scriptPath).Path = "sudo" ∧
    (a.installScriptCmd (os.Environ w.host) scriptPath).Args = ["sudo", "-E", scriptPath] ∧
    (a.installScriptCmd (os.Environ w.host) scriptPath).Stdout = true ∧
    (a.installScriptCmd (os.Environ w.host) scriptPath).Stderr = true ∧
    (a.installScriptCmd (os.Environ w.host) scriptPath).Env =
      some (os.Environ w.host ++ ["MORPHER_CONTROLLER_IP=" ++ a.ControllerIP]) ∧
    (hasNUL a.ControllerIP = false →
      ∃ kept,
        ((a.installScriptCmd (os.Environ w.host) scriptPath).environ (os.Environ w.host)).1 =
          kept ++ ["MORPHER_CONTROLLER_IP=" ++ a.ControllerIP] ∧
        kept.Sublist (os.Environ w.host) ∧
        (∀ kv ∈ kept, envKey kv.data ≠ some "MORPHER_CONTROLLER_IP".data) ∧
        lookupEnv
          ((a.installScriptCmd (os.Environ w.host) scriptPath).environ (os.Environ w.host)).1
          "MORPHER_CONTROLLER_IP" = some a.ControllerIP ∧
        (((a.installScriptCmd (os.Environ w.host) scriptPath).environ (os.Environ w.host)).2 =
            none ↔ ∀ kv ∈ os.Environ w.host, hasNUL kv = false) ∧
        ((∃ kv ∈ os.Environ w.host, envKey kv.data = some "MORPHER_CONTROLLER_IP".data) →
          ((a.installScriptCmd (os.Environ w.host) scriptPath).environ (os.Environ w.host)).1 ≠
            os.Environ w.host ++ ["MORPHER_CONTROLLER_IP=" ++ a.ControllerIP])) ∧
    (hasNUL a.ControllerIP = true →
      ((a.installScriptCmd (os.Environ w.host) scriptPath).environ (os.Environ w.host)).2 =
        some (.errorString "exec: environment variable contains NUL")) := by
  have hrev : ((dedupKept (os.Environ w.host).reverse
      ["MORPHER_CONTROLLER_IP".data]).reverse).Sublist (os.Environ w.host) := by
    have h := (dedupKept_sublist (os.Environ w.host).reverse
      ["MORPHER_CONTROLLER_IP".data]).reverse
    rwa [List.reverse_reverse] at h
  have hkey : ∀ kv ∈ (dedupKept (os.Environ w.host).reverse
      ["MORPHER_CONTROLLER_IP".data]).reverse,
      envKey kv.data ≠ some "MORPHER_CONTROLLER_IP".data := by
    intro kv hkv hk
    exact dedupKept_key_not_saw _ _ kv (List.mem_reverse.mp hkv) _ hk
      (List.mem_singleton.mpr rfl)
  have hnul := hasNUL_controller_entry a.ControllerIP
  refine ⟨?_, rfl, rfl, rfl, rfl, rfl, ?_, ?_⟩
  · rcases h1 : os.Run w.host (a.installScriptCmd (os.Environ w.host) scriptPath)
      with ⟨_ | e1, s1⟩ <;>
      simp [Agent.runInstallScript, run, World.next, h1]
  · intro hip
    have henv : ((a.installScriptCmd (os.Environ w.host) scriptPath).environ
        (os.Environ w.host)).1 =
        (dedupKept (os.Environ w.host).reverse ["MORPHER_CONTROLLER_IP".data]).reverse ++
          ["MORPHER_CONTROLLER_IP=" ++ a.ControllerIP] :=
      dedupEnv_append_controller_entry (os.Environ w.host) a.ControllerIP hip
    refine ⟨_, henv, hrev, hkey, ?_, ?_, ?_⟩
    · rw [henv]
      have h := lookupEnv_append_entry
        (dedupKept (os.Environ w.host).reverse ["MORPHER_CONTROLLER_IP".data]).reverse
        "MORPHER_CONTROLLER_IP" a.ControllerIP
      have hk : ("MORPHER_CONTROLLER_IP" ++ "=" : String) = "MORPHER_CONTROLLER_IP=" := by
        decide
      rw [hk] at h
      exact h
    · rw [hip] at hnul
      simp [Cmd.environ, Agent.installScriptCmd, dedupEnv, hnul]
    · rintro ⟨kv, hkv, hk⟩ heq
      rw [henv] at heq
      have hk2 := List.append_cancel_right heq
      rw [← hk2] at hkv
      exact hkey kv hkv hk
  · intro hip
    rw [hip] at hnul
    simp [Cmd.environ, Agent.installScriptCmd, dedupEnv, hnul]

/-- C20, amended, for the agent of the controller 10.0.0.1 and a caller whose
environment holds the address 192.168.0.9: the script sees 10.0.0.1. -/
theorem runInstallScript_process_environment_witness :
    hasNUL exAgent.ControllerIP = false ∧
    lookupEnv (stdOS.Environ hostControllerSet) "MORPHER_CONTROLLER_IP" = some "192.168.0.9" ∧
    lookupEnv ((exAgent.installScriptCmd (stdOS.Environ hostControllerSet)
      "/tmp/install.sh").environ (stdOS.Environ hostControllerSet)).1
      "MORPHER_CONTROLLER_IP" = some "10.0.0.1" := by
  obtain ⟨kept, -, -, -, hlook, -⟩ :=
    (runInstallScript_process_environment stdOS exAgent "/tmp/install.sh"
      ⟨hostControllerSet, []⟩).2.2.2.2.2.2.1 (by decide)
  exact ⟨by decide, by decide, hlook⟩

/-! ## The preflight checks -/

/-- C15: the install and the uninstall preflight check the effective user first and
the systemd runtime directory second.  When the process is not root each returns its
root-privileges error at once, without examining the directory; each returns "systemd
is not available" exactly when the process is root and the `stat` of
`/run/systemd/system` reports that it does not exist; and the two accept exactly the
same hosts, leaving the same world. -/
theorem preflight_checks_in_order (cs : Console σ) (w : World σ) :
    (cs.Geteuid w.host ≠ 0 →
      runPreflight cs w = (some (.errorString "installation requires root privileges"), w) ∧
      runUninstallPreflight cs w =
        (some (.errorString "uninstallation requires root privileges"), w)) ∧
    ((runPreflight cs w).1 = some (.errorString "systemd is not available") ↔
      cs.Geteuid w.host = 0 ∧ IsNotExist (cs.Stat w.host "/run/systemd/system").1 = true) ∧
    ((runUninstallPreflight cs w).1 = some (.errorString "systemd is not available") ↔
      cs.Geteuid w.host = 0 ∧ IsNotExist (cs.Stat w.host "/run/systemd/system").1 = true) ∧
    ((runPreflight cs w).1 = none ↔
      cs.Geteuid w.host = 0 ∧ IsNotExist (cs.Stat w.host "/run/systemd/system").1 = false) ∧
    ((runPreflight cs w).1 = none ↔ (runUninstallPreflight cs w).1 = none) ∧
    (runPreflight cs w).2 = (runUninstallPreflight cs w).2 := by
  by_cases hu : cs.Geteuid w.host = 0
  · cases hx : IsNotExist (cs.Stat w.host "/run/systemd/system").1 <;>
      simp [runPreflight, runUninstallPreflight, stat, Errorf, hu, hx]
  · simp [runPreflight, runUninstallPreflight, Errorf, hu]

/-- C15 on a host without systemd and for an unprivileged user: both checks would
fail, and the error returned is the root-privileges one. -/
theorem preflight_checks_in_order_witness :
    stdConsole.Geteuid (hostBare, termUser) ≠ 0 ∧
    IsNotExist (stdConsole.Stat (hostBare, termUser) "/run/systemd/system").1 = true ∧
    runPreflight stdConsole ⟨(hostBare, termUser), []⟩ =
      (some (.errorString "installation requires root privileges"),
        ⟨(hostBare, termUser), []⟩) :=
  ⟨by decide, by decide,
    ((preflight_checks_in_order stdConsole ⟨(hostBare, termUser), []⟩).1 (by decide)).1⟩

/-! ## A failed preflight -/

/-- Printing leaves the log alone. -/
theorem print_log (cs : Console σ) (text : String) (w : World σ) :
    (print cs text w).log = w.log := rfl

/-- Reading a configuration value leaves the log alone. -/
theorem GetString_log (cs : Console σ) (m : Manager) (key : String) (w : World σ) :
    (m.GetString cs key w).2.log = w.log := by
  rcases h : cs.ReadInConfig w.host m.configFile with ⟨_ | e, s1⟩ <;>
    simp [Manager.GetString, Manager.load, World.move, h]

/-- The calls of `Status` are its three probes. -/
theorem Status_log (os : OS σ) (a : Agent) (w : World σ) :
    (a.Status os w).2.log =
      w.log ++ [.Stat (Join a.InstallPath a.ServiceName), .Output a.isActiveCmd,
        .Output a.isEnabledCmd] := by
  rcases h0 : os.Stat w.host (Join a.InstallPath a.ServiceName) with ⟨r0, s0⟩
  rcases h1 : os.Output s0 a.isActiveCmd with ⟨⟨o1, r1⟩, s1⟩
  rcases h2 : os.Output s1 a.isEnabledCmd with ⟨⟨o2, r2⟩, s2⟩
  cases r0 <;> cases r1 <;> cases r2 <;>
    simp [Agent.Status, Agent.isInstalled, Agent.getServiceStatus,
      Agent.isServiceEnabled, stat, output, World.next, h0, h1, h2]

/-- The method `Status` returns a nil error. -/
theorem Status_error_nil (os : OS σ) (a : Agent) (w : World σ) : (a.Status os w).1.2 = none := by
  rcases h0 : os.Stat w.host (Join a.InstallPath a.ServiceName) with ⟨_ | e0, s0⟩ <;>
  rcases h1 : a.getServiceStatus os (w.next (.Stat (Join a.InstallPath a.ServiceName)) s0)
    with ⟨⟨st, _ | e1⟩, w1⟩ <;>
  rcases h2 : a.isServiceEnabled os w1 with ⟨⟨en, _ | e2⟩, w2⟩ <;>
  simp [Agent.Status, Agent.isInstalled, stat, h0, h1, h2]

/-- The install preflight issues at most the `stat` of the systemd directory. -/
theorem runPreflight_probes (cs : Console σ) (w : World σ) :
    ∃ tr, (runPreflight cs w).2.log = w.log ++ tr ∧ ∀ x ∈ tr, x.isProbe = true := by
  by_cases hu : cs.Geteuid w.host = 0
  · refine ⟨[.Stat "/run/systemd/system"], ?_, by simp [Action.isProbe]⟩
    cases hx : IsNotExist (cs.Stat w.host "/run/systemd/system").1 <;>
      simp [runPreflight, stat, World.next, hu, hx]
  · exact ⟨[], by simp [runPreflight, hu], by simp⟩

/-- The uninstall preflight issues at most the `stat` of the systemd directory. -/
theorem runUninstallPreflight_probes (cs : Console σ) (w : World σ) :
    ∃ tr, (runUninstallPreflight cs w).2.log = w.log ++ tr ∧ ∀ x ∈ tr, x.isProbe = true := by
  by_cases hu : cs.Geteuid w.host = 0
  · refine ⟨[.Stat "/run/systemd/system"], ?_, by simp [Action.isProbe]⟩
    cases hx : IsNotExist (cs.Stat w.host "/run/systemd/system").1 <;>
      simp [runUninstallPreflight, stat, World.next, hu, hx]
  · exact ⟨[], by simp [runUninstallPreflight, hu], by simp⟩

/-- The sudo check issues at most the run of `sudo -n true`. -/
theorem checkSudoPrivileges_probes (cs : Console σ) (w : World σ) :
    ∃ tr, (checkSudoPrivileges cs w).2.log = w.log ++ tr ∧ ∀ x ∈ tr, x.isProbe = true := by
  by_cases hu : cs.Geteuid w.host = 0
  · exact ⟨[], by simp [checkSudoPrivileges, hu], by simp⟩
  · refine ⟨[.Run (Command "sudo" ["-n", "true"])], ?_, by simp [Action.isProbe]⟩
    rcases h1 : cs.Run (cs.Print w.host "Checking sudo privileges... ")
      (Command "sudo" ["-n", "true"]) with ⟨_ | e1, s1⟩ <;>
      simp [checkSudoPrivileges, run, print, World.next, World.move, hu, h1]

/-- The upgrade preflight issues lookups on `PATH`, the `stat` of the systemd
directory and the run of `sudo -n true`, nothing else. -/
theorem runUpgradePreflight_probes (cs : Console σ) (w : World σ) :
    ∃ tr, (runUpgradePreflight cs w).2.log = w.log ++ tr ∧ ∀ x ∈ tr, x.isProbe = true := by
  rcases h1 : cs.LookPath w.host "sudo" with ⟨⟨p1, _ | e1⟩, s1⟩
  · rcases h2 : cs.Stat s1 "/run/systemd/system" with ⟨r2, s2⟩
    cases hx : IsNotExist r2
    · obtain ⟨tr, htr, hp⟩ := checkSudoPrivileges_probes cs
        (print cs "Using systemd (Linux)\n"
          ⟨s2, w.log ++ [.LookPath "sudo", .Stat "/run/systemd/system"]⟩)
      refine ⟨.LookPath "sudo" :: .Stat "/run/systemd/system" :: tr, ?_, ?_⟩
      · simp only [print_log] at htr
        simp [runUpgradePreflight, lookPath, stat, World.next, h1, h2, hx, htr]
      · intro x hxm
        simp at hxm
        rcases hxm with rfl | rfl | hxm
        · rfl
        · rfl
        · exact hp x hxm
    · rcases h3 : cs.LookPath s2 "launchctl" with ⟨⟨p3, _ | e3⟩, s3⟩
      · obtain ⟨tr, htr, hp⟩ := checkSudoPrivileges_probes cs
          (print cs "Using launchd (macOS)\n"
            ⟨s3, w.log ++ [.LookPath "sudo", .Stat "/run/systemd/system",
              .LookPath "launchctl"]⟩)
        refine ⟨.LookPath "sudo" :: .Stat "/run/systemd/system" :: .LookPath "launchctl" :: tr,
          ?_, ?_⟩
        · simp only [print_log] at htr
          simp [runUpgradePreflight, lookPath, stat, World.next, h1, h2, h3, hx, htr]
        · intro x hxm
          simp at hxm
          rcases hxm with rfl | rfl | rfl | hxm
          · rfl
          · rfl
          · rfl
          · exact hp x hxm
      · exact ⟨[.LookPath "sudo", .Stat "/run/systemd/system", .LookPath "launchctl"], by
          simp [runUpgradePreflight, lookPath, stat, World.next, h1, h2, h3, hx],
          by simp [Action.isProbe]⟩
  · exact ⟨[.LookPath "sudo"], by simp [runUpgradePreflight, lookPath, World.next, h1],
      by simp [Action.isProbe]⟩
/-- The world in which `installAgent` calls its preflight has the log it started
with, and the command is determined by the preflight's result there. -/
theorem installAgent_at_preflight (cs : Console σ) (GOARCH : String) (args : List String)
    (w wp : World σ) (err : GoError) (hp : installAgent.atPreflight cs args w = some wp)
    (he : (runPreflight cs wp).1 = some err) :
    wp.log = w.log ∧
    installAgent cs GOARCH args w =
      (some (ErrorfW "preflight failed: " (some err)),
        print cs "FAILED\n" (runPreflight cs wp).2) := by
  have hlog := GetString_log cs (NewManager cs "" w.host) "controller.ip" w
  rcases hg : (NewManager cs "" w.host).GetString cs "controller.ip" w with ⟨⟨ip, _ | e⟩, w1⟩
  · rw [hg] at hlog
    simp only [installAgent.atPreflight, hg, Option.some.injEq] at hp
    subst hp
    rcases hr : runPreflight cs (print cs "Running preflight checks... "
      (print cs ("Controller IP: " ++ ip ++ "\n")
        (print cs ("Installing morpher agent " ++ versionOf args ++ "...\n") w1)))
      with ⟨_ | e1, w5⟩
    · rw [hr] at he
      simp at he
    · rw [hr] at he
      simp only [Option.some.injEq] at he
      subst he
      exact ⟨by simpa [print_log] using hlog, by simp [installAgent, hg, hr]⟩
  · simp [installAgent.atPreflight, hg] at hp

/-- The world in which `uninstallAgent` calls its preflight has the starting log
followed by the three probes of `Status`, and the command is determined by the
preflight's result there. -/
theorem uninstallAgent_at_preflight (cs : Console σ) (GOARCH : String)
    (w wp : World σ) (err : GoError) (hp : uninstallAgent.atPreflight cs GOARCH w = some wp)
    (he : (runUninstallPreflight cs wp).1 = some err) :
    (∃ a : Agent, wp.log = w.log ++ [.Stat (Join a.InstallPath a.ServiceName),
      .Output a.isActiveCmd, .Output a.isEnabledCmd]) ∧
    uninstallAgent cs GOARCH w =
      (some (ErrorfW "preflight failed: " (some err)),
        print cs "FAILED\n" (runUninstallPreflight cs wp).2) := by
  have hlog := GetString_log cs
    (NewManager cs "" (print cs "Uninstalling morpher agent...\n" w).host) "controller.ip"
    (print cs "Uninstalling morpher agent...\n" w)
  rcases hg : (NewManager cs "" (print cs "Uninstalling morpher agent...\n" w).host).GetString
    cs "controller.ip" (print cs "Uninstalling morpher agent...\n" w) with ⟨⟨ip, _ | e⟩, w1⟩
  · rw [hg] at hlog
    have hslog := Status_log cs.toOS (NewAgent GOARCH ip) w1
    have hserr := Status_error_nil cs.toOS (NewAgent GOARCH ip) w1
    rcases hs : (NewAgent GOARCH ip).Status cs.toOS w1 with ⟨⟨status, serr⟩, w2⟩
    rw [hs] at hslog hserr
    simp only at hslog hserr
    subst hserr
    have hw2 : w2.log = w.log ++ [.Stat (Join (NewAgent GOARCH ip).InstallPath
        (NewAgent GOARCH ip).ServiceName), .Output (NewAgent GOARCH ip).isActiveCmd,
        .Output (NewAgent GOARCH ip).isEnabledCmd] := by
      rw [hslog, hlog, print_log]
    cases hi : status.Installed
    · simp [uninstallAgent.atPreflight, hg, hs, hi] at hp
    · rcases hsc : scanln cs
        (print cs "Are you sure you want to uninstall the agent? (y/N): " w2)
        with ⟨⟨response, _ | e3⟩, w3⟩
      · have h3 : w3.log = w2.log := by
          have := congrArg (fun r => r.2.log) hsc
          simpa [scanln, World.move, print_log] using this.symm
        by_cases hresp : (response != "y" && response != "Y") = true
        · simp [uninstallAgent.atPreflight, hg, hs, hi, hsc, hresp] at hp
        · simp only [uninstallAgent.atPreflight, hg, hs, hi, hsc, hresp] at hp
          simp only [Bool.not_true, Bool.false_eq_true, ↓reduceIte, Option.some.injEq] at hp
          subst hp
          refine ⟨⟨NewAgent GOARCH ip, by rw [print_log, h3, hw2]⟩, ?_⟩
          rcases hr : runUninstallPreflight cs (print cs "Running preflight checks... " w3)
            with ⟨_ | e1, w5⟩
          · rw [hr] at he
            simp at he
          · rw [hr] at he
            simp only [Option.some.injEq] at he
            subst he
            simp [uninstallAgent, uninstallConfirmed, hg, hs, hi, hsc, hresp, hr]
      · have h3 : w3.log = w2.log := by
          have := congrArg (fun r => r.2.log) hsc
          simpa [scanln, World.move, print_log] using this.symm
        simp only [uninstallAgent.atPreflight, hg, hs, hi, hsc] at hp
        simp only [Bool.not_true, Bool.false_eq_true, ↓reduceIte, Option.some.injEq] at hp
        subst hp
        refine ⟨⟨NewAgent GOARCH ip, by rw [print_log, print_log, h3, hw2]⟩, ?_⟩
        rcases hr : runUninstallPreflight cs (print cs "Running preflight checks... "
          (print cs "Failed to read input, proceeding with uninstallation\n" w3))
          with ⟨_ | e1, w5⟩
        · rw [hr] at he
          simp at he
        · rw [hr] at he
          simp only [Option.some.injEq] at he
          subst he
          simp [uninstallAgent, uninstallConfirmed, hg, hs, hi, hsc, hr]
  · simp [uninstallAgent.atPreflight, hg] at hp
/-- The world in which `upgradeAgent` calls its preflight has the starting log
followed by the three probes of `Status`, and the command is determined by the
preflight's result there. -/
theorem upgradeAgent_at_preflight (cs : Console σ) (GOARCH : String) (args : List String)
    (w wp : World σ) (err : GoError)
    (hp : upgradeAgent.atPreflight cs GOARCH args w = some wp)
    (he : (runUpgradePreflight cs wp).1 = some err) :
    (∃ a : Agent, wp.log = w.log ++ [.Stat (Join a.InstallPath a.ServiceName),
      .Output a.isActiveCmd, .Output a.isEnabledCmd]) ∧
    upgradeAgent cs GOARCH args w =
      (some (ErrorfW "preflight failed: " (some err)),
        print cs "FAILED\n" (runUpgradePreflight cs wp).2) := by
  have hlog := GetString_log cs (NewManager cs "" w.host) "controller.ip" w
  rcases hg : (NewManager cs "" w.host).GetString cs "controller.ip" w with ⟨⟨ip, _ | e⟩, w1⟩
  · rw [hg] at hlog
    have hslog := Status_log cs.toOS (NewAgent GOARCH ip)
      (print cs "Checking current installation... "
        (print cs ("Controller IP: " ++ ip ++ "\n")
          (print cs ("Upgrading morpher agent to " ++ versionOf args ++ "...\n") w1)))
    have hserr := Status_error_nil cs.toOS (NewAgent GOARCH ip)
      (print cs "Checking current installation... "
        (print cs ("Controller IP: " ++ ip ++ "\n")
          (print cs ("Upgrading morpher agent to " ++ versionOf args ++ "...\n") w1)))
    rcases hs : (NewAgent GOARCH ip).Status cs.toOS
      (print cs "Checking current installation... "
        (print cs ("Controller IP: " ++ ip ++ "\n")
          (print cs ("Upgrading morpher agent to " ++ versionOf args ++ "...\n") w1)))
      with ⟨⟨status, serr⟩, w5⟩
    rw [hs] at hslog hserr
    simp only [print_log] at hslog hserr
    subst hserr
    cases hi : status.Installed
    · simp [upgradeAgent.atPreflight, hg, hs, hi] at hp
    · simp only [upgradeAgent.atPreflight, hg, hs, hi] at hp
      simp only [Bool.not_true, Bool.false_eq_true, ↓reduceIte, Option.some.injEq] at hp
      subst hp
      refine ⟨⟨NewAgent GOARCH ip, by rw [print_log, print_log, hslog, hlog]⟩, ?_⟩
      rcases hr : runUpgradePreflight cs
        (print cs "Running preflight checks... " (print cs "OK\n" w5)) with ⟨_ | e1, w7⟩
      · rw [hr] at he
        simp at he
      · rw [hr] at he
        simp only [Option.some.injEq] at he
        subst he
        simp [upgradeAgent, hg, hs, hi, hr]
  · simp [upgradeAgent.atPreflight, hg] at hp

/-- C16: in `installAgent`, `uninstallAgent` and `upgradeAgent`, when the command gets
as far as its preflight and the preflight returns an error there, the command returns
that error wrapped as "preflight failed: ..." in the world the preflight left, with
"FAILED" printed and nothing else done: every call in its log is a probe (the
`Status` probes, lookups on `PATH`, the `stat` of the systemd directory, `sudo -n
true`), so no service command, download, script or removal is issued. -/
theorem preflight_failure_aborts (cs : Console σ) (GOARCH : String) (args : List String)
    (w : World σ) :
    (∀ wp err, installAgent.atPreflight cs args w = some wp →
      (runPreflight cs wp).1 = some err →
      installAgent cs GOARCH args w =
        (some (.wrapError ("preflight failed: " ++ err.Error) err),
          print cs "FAILED\n" (runPreflight cs wp).2) ∧
      ∃ tr, (installAgent cs GOARCH args w).2.log = w.log ++ tr ∧
        ∀ x ∈ tr, x.isProbe = true) ∧
    (∀ wp err, uninstallAgent.atPreflight cs GOARCH w = some wp →
      (runUninstallPreflight cs wp).1 = some err →
      uninstallAgent cs GOARCH w =
        (some (.wrapError ("preflight failed: " ++ err.Error) err),
          print cs "FAILED\n" (runUninstallPreflight cs wp).2) ∧
      ∃ tr, (uninstallAgent cs GOARCH w).2.log = w.log ++ tr ∧
        ∀ x ∈ tr, x.isProbe = true) ∧
    (∀ wp err, upgradeAgent.atPreflight cs GOARCH args w = some wp →
      (runUpgradePreflight cs wp).1 = some err →
      upgradeAgent cs GOARCH args w =
        (some (.wrapError ("preflight failed: " ++ err.Error) err),
          print cs "FAILED\n" (runUpgradePreflight cs wp).2) ∧
      ∃ tr, (upgradeAgent cs GOARCH args w).2.log = w.log ++ tr ∧
        ∀ x ∈ tr, x.isProbe = true) := by
  refine ⟨?_, ?_, ?_⟩
  · intro wp err hp he
    obtain ⟨hlog, heq⟩ := installAgent_at_preflight cs GOARCH args w wp err hp he
    obtain ⟨tr, htr, hpr⟩ := runPreflight_probes cs wp
    refine ⟨heq, tr, ?_, hpr⟩
    rw [heq]
    simp only [print_log, htr, hlog]
  · intro wp err hp he
    obtain ⟨⟨a, hlog⟩, heq⟩ := uninstallAgent_at_preflight cs GOARCH w wp err hp he
    obtain ⟨tr, htr, hpr⟩ := runUninstallPreflight_probes cs wp
    refine ⟨heq, [.Stat (Join a.InstallPath a.ServiceName), .Output a.isActiveCmd,
      .Output a.isEnabledCmd] ++ tr, ?_, ?_⟩
    · rw [heq]
      simp only [print_log, htr, hlog, List.append_assoc]
    · intro x hx
      simp only [List.mem_append, List.mem_cons, List.mem_singleton, List.not_mem_nil,
        or_false] at hx
      rcases hx with (rfl | rfl | rfl) | hx
      · rfl
      · rfl
      · rfl
      · exact hpr x hx
  · intro wp err hp he
    obtain ⟨⟨a, hlog⟩, heq⟩ := upgradeAgent_at_preflight cs GOARCH args w wp err hp he
    obtain ⟨tr, htr, hpr⟩ := runUpgradePreflight_probes cs wp
    refine ⟨heq, [.Stat (Join a.InstallPath a.ServiceName), .Output a.isActiveCmd,
      .Output a.isEnabledCmd] ++ tr, ?_, ?_⟩
    · rw [heq]
      simp only [print_log, htr, hlog, List.append_assoc]
    · intro x hx
      simp only [List.mem_append, List.mem_cons, List.mem_singleton, List.not_mem_nil,
        or_false] at hx
      rcases hx with (rfl | rfl | rfl) | hx
      · rfl
      · rfl
      · rfl
      · exact hpr x hx

/-- C16 for an unprivileged user on a host with the agent installed: `uninstallAgent`
reaches its preflight, the preflight asks for root, and the command returns that
error wrapped, having issued the three `Status` probes only. -/
theorem preflight_failure_aborts_witness :
    (uninstallAgent.atPreflight stdConsole "amd64" ⟨(hostSystemd, termUser), []⟩).isSome = true ∧
    (uninstallAgent stdConsole "amd64" ⟨(hostSystemd, termUser), []⟩).1 =
      some (.wrapError "preflight failed: uninstallation requires root privileges"
        (.errorString "uninstallation requires root privileges")) ∧
    (uninstallAgent stdConsole "amd64" ⟨(hostSystemd, termUser), []⟩).2.log =
      [.Stat "/usr/local/bin/morpher-agent",
        .Output (Command "systemctl" ["is-active", "morpher-agent"]),
        .Output (Command "systemctl" ["is-enabled", "morpher-agent"])] :=
  ⟨by decide,
    congrArg Prod.fst ((preflight_failure_aborts stdConsole "amd64" []
      ⟨(hostSystemd, termUser), []⟩).2.1
      ((uninstallAgent.atPreflight stdConsole "amd64" ⟨(hostSystemd, termUser), []⟩).get
        (by decide))
      (.errorString "uninstallation requires root privileges") (by simp) (by decide)).1,
    by decide⟩

/-! ## The cleanup step of Install -/

/-- C21 at a host where wget is on `PATH` and every command exits with status 0, so
that the transfer, the mode change and the script would all succeed and the deletion
as well: `Install` returns the error of the download step and issues neither the mode
change, nor the script, nor the deletion; and on no host does `Install` return nil,
so the deletion, whose error `Install` would discard, is never reached. -/
theorem Install_fails_before_cleanup :
    (stdOS.Run (stdOS.CreateTemp hostBare "" "install_amd64.sh").2
      (Command "wget" ["-O", "/tmp/install_amd64.sh1234567890", exAgent.scriptURL])).1 = none ∧
    (stdOS.Chmod (stdOS.CreateTemp hostBare "" "install_amd64.sh").2
      "/tmp/install_amd64.sh1234567890" 0o755).1 = none ∧
    (stdOS.Run (stdOS.CreateTemp hostBare "" "install_amd64.sh").2
      (exAgent.installScriptCmd hostBare.environ "/tmp/install_amd64.sh1234567890")).1 = none ∧
    (stdOS.Remove (stdOS.CreateTemp hostBare "" "install_amd64.sh").2
      "/tmp/install_amd64.sh1234567890").1 = none ∧
    (exAgent.Install stdOS "latest" ⟨hostBare, []⟩).1 =
      some (ErrorfW "failed to download install script: "
        (some (ErrorfW "failed to download script: "
          (some (.errorString "wget failed: %!w(<nil>)"))))) ∧
    (exAgent.Install stdOS "latest" ⟨hostBare, []⟩).2.log =
      [.CreateTemp "" "install_amd64.sh", .LookPath "wget",
        .Run (Command "wget" ["-O", "/tmp/install_amd64.sh1234567890", exAgent.scriptURL]),
        .Close "/tmp/install_amd64.sh1234567890"] ∧
    (∀ (τ : Type) (os : OS τ) (a : Agent) (version : String) (w : World τ),
      (a.Install os version w).1 ≠ none) := by
  refine ⟨by decide, by decide, by decide, by decide, by decide, by decide, ?_⟩
  intro τ os a version w
  obtain ⟨err, -, hI⟩ := Install_eq_download os a version w
  rw [hI]
  simp

/-! ## NewAgent -/

/-- C22: for every controller address `ip`, `NewAgent(ip)` has `ControllerIP = ip`,
`ControllerPort = 9000`, `InstallPath = "/usr/local/bin"`, `ServiceName =
"morpher-agent"` and `Architecture = runtime.GOARCH`, which is non-empty when that
constant is; apart from `ControllerIP` the agent is the same for any two addresses,
and nothing is read from the host or from the configuration. -/
theorem NewAgent_defaults (GOARCH ip : String) :
    (NewAgent GOARCH ip).ControllerIP = ip ∧
    (NewAgent GOARCH ip).ControllerPort = 9000 ∧
    (NewAgent GOARCH ip).InstallPath = "/usr/local/bin" ∧
    (NewAgent GOARCH ip).ServiceName = "morpher-agent" ∧
    (NewAgent GOARCH ip).Architecture = GOARCH ∧
    (GOARCH ≠ "" → (NewAgent GOARCH ip).Architecture ≠ "") ∧
    (∀ ip2 : String, { NewAgent GOARCH ip2 with ControllerIP := ip } = NewAgent GOARCH ip) := by
  refine ⟨rfl, rfl, rfl, rfl, rfl, fun h => h, fun _ => rfl⟩

/-- C22 on an arm64 build for the address 192.168.1.100 of the package's test. -/
theorem NewAgent_defaults_witness :
    ("arm64" : String) ≠ "" ∧ (NewAgent "arm64" "192.168.1.100").Architecture ≠ "" ∧
    NewAgent "arm64" "192.168.1.100" =
      { ControllerIP := "192.168.1.100", ControllerPort := 9000, Architecture := "arm64",
        InstallPath := "/usr/local/bin", ServiceName := "morpher-agent" } :=
  ⟨by decide, (NewAgent_defaults "arm64" "192.168.1.100").2.2.2.2.2.1 (by decide), rfl⟩

/-! ## Upgrade never reaches the start -/

/-- C30: when the binary is present and the stop-and-disable command succeeds,
`Upgrade` returns the error of the install step, "failed to install new version:
failed to download install script: ...", because the download never reports success:
`downloadFile` returns a non-nil error on every host.  After the probe and the stop
command `Upgrade` runs at most the wget or the curl transfer; the start command is
not issued and the install script is not executed, so the service is left as the stop
command left it. -/
theorem Upgrade_stops_and_never_starts (os : OS σ) (a : Agent) (version : String)
    (w : World σ) (hi : (os.Stat w.host (Join a.InstallPath a.ServiceName)).1 = none)
    (hs : (os.Run (os.Stat w.host (Join a.InstallPath a.ServiceName)).2 a.stopCmd).1 = none) :
    ∃ err tr,
      (a.Upgrade os version w).1 =
        some (ErrorfW "failed to install new version: "
          (some (ErrorfW "failed to download install script: " (some err)))) ∧
      (a.Upgrade os version w).2.log =
        w.log ++ [.Stat (Join a.InstallPath a.ServiceName), .Run a.stopCmd] ++ tr ∧
      (∀ c, .Run c ∈ tr → ∃ dest, c = Command "wget" ["-O", dest, a.scriptURL] ∨
        c = Command "curl" ["-o", dest, a.scriptURL]) ∧
      .Run a.startCmd ∉ tr ∧
      (∀ env scriptPath, .Run (a.installScriptCmd env scriptPath) ∉ tr) ∧
      (∀ (url dest : String) (w1 : World σ), (a.downloadFile os url dest w1).1 ≠ none) := by
  rcases h0 : os.Stat w.host (Join a.InstallPath a.ServiceName) with ⟨r0, s0⟩
  rw [h0] at hi hs
  simp only at hi hs
  subst hi
  rcases h1 : os.Run s0 a.stopCmd with ⟨r1, s1⟩
  rw [h1] at hs
  simp only at hs
  subst hs
  obtain ⟨err, -, hI⟩ := Install_eq_download os a version
    ⟨s1, w.log ++ [.Stat (Join a.InstallPath a.ServiceName), .Run a.stopCmd]⟩
  obtain ⟨tr, htr, hruns, -⟩ := Install_runs os a version
    ⟨s1, w.log ++ [.Stat (Join a.InstallPath a.ServiceName), .Run a.stopCmd]⟩
  refine ⟨err, tr, ?_, ?_, hruns, ?_, ?_, fun url dest w1 => downloadFile_ne_nil os a url dest w1⟩
  · simp [Agent.Upgrade, Agent.isInstalled, Agent.stopService, stat, run, World.next,
      h0, h1, hI]
  · rw [hI] at htr
    simp only [List.append_assoc, List.cons_append, List.nil_append] at htr
    simp [Agent.Upgrade, Agent.isInstalled, Agent.stopService, stat, run, World.next,
      h0, h1, hI, htr]
  · intro hm
    obtain ⟨dest, hd | hd⟩ := hruns _ hm <;>
      simp [Agent.startCmd, Command] at hd
  · intro env scriptPath hm
    obtain ⟨dest, hd | hd⟩ := hruns _ hm <;>
      simp [Agent.installScriptCmd, Command] at hd

/-- C30 on the host with the agent installed and wget exiting with status 0: the
binary is present, the stop command succeeds, and `Upgrade` returns the error of the
install step without a start. -/
theorem Upgrade_stops_and_never_starts_witness :
    (stdOS.Stat hostInstalled (Join exAgent.InstallPath exAgent.ServiceName)).1 = none ∧
    (exAgent.Upgrade stdOS "latest" ⟨hostInstalled, []⟩).1.map GoError.Error =
      some ("failed to install new version: failed to download install script: " ++
        "failed to download script: wget failed: %!w(<nil>)") ∧
    ∃ err tr,
      (exAgent.Upgrade stdOS "latest" ⟨hostInstalled, []⟩).1 =
        some (ErrorfW "failed to install new version: "
          (some (ErrorfW "failed to download install script: " (some err)))) ∧
      (exAgent.Upgrade stdOS "latest" ⟨hostInstalled, []⟩).2.log =
        [] ++ [.Stat (Join exAgent.InstallPath exAgent.ServiceName), .Run exAgent.stopCmd] ++ tr ∧
      (∀ c, .Run c ∈ tr → ∃ dest, c = Command "wget" ["-O", dest, exAgent.scriptURL] ∨
        c = Command "curl" ["-o", dest, exAgent.scriptURL]) ∧
      .Run exAgent.startCmd ∉ tr ∧
      (∀ env scriptPath, .Run (exAgent.installScriptCmd env scriptPath) ∉ tr) ∧
      (∀ (url dest : String) (w1 : World Host),
        (exAgent.downloadFile stdOS url dest w1).1 ≠ none) :=
  ⟨by decide, by decide,
    Upgrade_stops_and_never_starts stdOS exAgent "latest" ⟨hostInstalled, []⟩ (by decide)
      (by decide)⟩

/-! ## The upgrade preflight -/

/-- C28: `runUpgradePreflight` returns nil exactly when sudo is on `PATH`, and the
systemd directory is not reported missing or launchctl is on `PATH`, and the process
is root or `sudo -n true` succeeds.  The checks are made in that order and the first
that fails alone fixes the error: without sudo the error is "sudo is not available
..." after the single lookup; with sudo and no init system it is "neither systemd nor
launchd is available ..." with no command run; with both, a caller who is neither
root nor allowed to sudo without a password gets "sudo privileges required ...". -/
theorem runUpgradePreflight_checks (cs : Console σ) (w : World σ) :
    ((runUpgradePreflight cs w).1 = none ↔
      sudoOnPath cs w = true ∧ initSystemFound cs w = true ∧ canSudo cs w = true) ∧
    (sudoOnPath cs w = false →
      (runUpgradePreflight cs w).1 =
        some (.errorString "sudo is not available - upgrade requires sudo privileges") ∧
      (runUpgradePreflight cs w).2.log = w.log ++ [.LookPath "sudo"]) ∧
    (sudoOnPath cs w = true → initSystemFound cs w = false →
      (runUpgradePreflight cs w).1 =
        some (.errorString
          "neither systemd nor launchd is available - unsupported platform") ∧
      (runUpgradePreflight cs w).2.log =
        w.log ++ [.LookPath "sudo", .Stat "/run/systemd/system", .LookPath "launchctl"]) ∧
    (sudoOnPath cs w = true → initSystemFound cs w = true → canSudo cs w = false →
      (runUpgradePreflight cs w).1 =
        some (.errorString ("sudo privileges required - please run with " ++
          "'sudo morpherctl agent upgrade' or ensure sudo access")) ∧
      (runUpgradePreflight cs w).2.log =
        (beforeSudoCheck cs w).log ++ [.Run (Command "sudo" ["-n", "true"])]) := by
  rcases h1 : cs.LookPath w.host "sudo" with ⟨⟨p1, _ | e1⟩, s1⟩
  · rcases h2 : cs.Stat s1 "/run/systemd/system" with ⟨r2, s2⟩
    cases hx : IsNotExist r2
    · by_cases hu : cs.Geteuid (cs.Print s2 "Using systemd (Linux)\n") = 0
      · simp [runUpgradePreflight, checkSudoPrivileges, sudoOnPath, initSystemFound, canSudo,
          beforeSudoCheck, lookPath, stat, run, print, World.next, World.move, Errorf,
          h1, h2, hx, hu]
      · rcases h4 : cs.Run (cs.Print (cs.Print s2 "Using systemd (Linux)\n")
          "Checking sudo privileges... ") (Command "sudo" ["-n", "true"]) with ⟨_ | e4, s4⟩ <;>
          simp [runUpgradePreflight, checkSudoPrivileges, sudoOnPath, initSystemFound, canSudo,
            beforeSudoCheck, lookPath, stat, run, print, World.next, World.move, Errorf,
            h1, h2, hx, hu, h4]
    · rcases h3 : cs.LookPath s2 "launchctl" with ⟨⟨p3, _ | e3⟩, s3⟩
      · by_cases hu : cs.Geteuid (cs.Print s3 "Using launchd (macOS)\n") = 0
        · simp [runUpgradePreflight, checkSudoPrivileges, sudoOnPath, initSystemFound, canSudo,
            beforeSudoCheck, lookPath, stat, run, print, World.next, World.move, Errorf,
            h1, h2, h3, hx, hu]
        · rcases h4 : cs.Run (cs.Print (cs.Print s3 "Using launchd (macOS)\n")
            "Checking sudo privileges... ") (Command "sudo" ["-n", "true"]) with ⟨_ | e4, s4⟩ <;>
            simp [runUpgradePreflight, checkSudoPrivileges, sudoOnPath, initSystemFound,
              canSudo, beforeSudoCheck, lookPath, stat, run, print, World.next, World.move,
              Errorf, h1, h2, h3, hx, hu, h4]
      · simp [runUpgradePreflight, checkSudoPrivileges, sudoOnPath, initSystemFound, canSudo,
          beforeSudoCheck, lookPath, stat, run, print, World.next, World.move, Errorf,
          h1, h2, h3, hx]
  · simp [runUpgradePreflight, sudoOnPath, initSystemFound, canSudo, lookPath, World.next,
      Errorf, h1]

/-- C28 for an unprivileged user on a host with sudo and systemd where `sudo -n true`
fails: the first two checks pass, the third does not, and the upgrade is rejected. -/
theorem runUpgradePreflight_checks_witness :
    sudoOnPath stdConsole ⟨(hostSudoAsks, termUser), []⟩ = true ∧
    initSystemFound stdConsole ⟨(hostSudoAsks, termUser), []⟩ = true ∧
    canSudo stdConsole ⟨(hostSudoAsks, termUser), []⟩ = false ∧
    (runUpgradePreflight stdConsole ⟨(hostSudoAsks, termUser), []⟩).1 =
      some (.errorString ("sudo privileges required - please run with " ++
        "'sudo morpherctl agent upgrade' or ensure sudo access")) :=
  ⟨by decide, by decide, by decide,
    ((runUpgradePreflight_checks stdConsole ⟨(hostSudoAsks, termUser), []⟩).2.2.2
      (by decide) (by decide) (by decide)).1⟩

/-! ## The uninstall command -/

/-- The first call of `Uninstall` is the stop command, whatever happens after it. -/
theorem Uninstall_log_head (os : OS σ) (a : Agent) (w : World σ) :
    ∃ rest, (a.Uninstall os w).2.log = w.log ++ .Run a.stopCmd :: rest := by
  rcases h1 : os.Run w.host a.stopCmd with ⟨_ | e1, s1⟩
  · rcases h2 : os.Remove s1 a.servicePath with ⟨_ | e2, s2⟩
    · rcases h3 : os.Remove s2 a.binaryPath with ⟨_ | e3, s3⟩
      · rcases h4 : os.RemoveAll s3 configPath with ⟨_ | e4, s4⟩
        · rcases h5 : os.Run s4 reloadCmd with ⟨_ | e5, s5⟩ <;>
          exact ⟨[.Remove a.servicePath, .Remove a.binaryPath, .RemoveAll configPath,
            .Run reloadCmd], by
            simp [Agent.Uninstall, Agent.stopService, Agent.removeServiceFile,
              Agent.removeAgentBinary, Agent.removeConfigDirectory, Agent.reloadSystemd,
              run, remove, removeAll, World.next, h1, h2, h3, h4, h5]⟩
        · exact ⟨[.Remove a.servicePath, .Remove a.binaryPath, .RemoveAll configPath], by
            simp [Agent.Uninstall, Agent.stopService, Agent.removeServiceFile,
              Agent.removeAgentBinary, Agent.removeConfigDirectory,
              run, remove, removeAll, World.next, h1, h2, h3, h4]⟩
      · exact ⟨[.Remove a.servicePath, .Remove a.binaryPath], by
          simp [Agent.Uninstall, Agent.stopService, Agent.removeServiceFile,
            Agent.removeAgentBinary, run, remove, World.next, h1, h2, h3]⟩
    · exact ⟨[.Remove a.servicePath], by
        simp [Agent.Uninstall, Agent.stopService, Agent.removeServiceFile,
          run, remove, World.next, h1, h2]⟩
  · exact ⟨[], by simp [Agent.Uninstall, Agent.stopService, run, World.next, h1]⟩

/-- The stop command is not a probe. -/
theorem stopCmd_not_probe (a : Agent) : (Action.Run a.stopCmd).isProbe = false := by
  simp [Action.isProbe, Agent.stopCmd, Command]

/-- The confirmed part of `uninstallAgent`, by the result of its preflight: a failure
aborts with probes only, a pass calls `Uninstall`. -/
theorem uninstallConfirmed_cases (cs : Console σ) (ag : Agent) (w : World σ) :
    ((runUninstallPreflight cs (print cs "Running preflight checks... " w)).1 ≠ none →
      ∃ tr, (uninstallConfirmed cs ag w).2.log = w.log ++ tr ∧ ∀ x ∈ tr, x.isProbe = true) ∧
    ((runUninstallPreflight cs (print cs "Running preflight checks... " w)).1 = none →
      (∃ tr rest, (uninstallConfirmed cs ag w).2.log = w.log ++ tr ++ .Run ag.stopCmd :: rest) ∧
      (uninstallConfirmed cs ag w).1 =
        (ag.Uninstall cs.toOS (print cs "Uninstalling agent... " (print cs "OK\n"
          (runUninstallPreflight cs (print cs "Running preflight checks... " w)).2))).1.map
          (fun e => ErrorfW "uninstallation failed: " (some e))) := by
  obtain ⟨ptr, hptr, hprobe⟩ :=
    runUninstallPreflight_probes cs (print cs "Running preflight checks... " w)
  rcases hr : runUninstallPreflight cs (print cs "Running preflight checks... " w)
    with ⟨_ | e, w2⟩
  · rw [hr] at hptr
    simp only [print_log] at hptr
    obtain ⟨rest, hrest⟩ := Uninstall_log_head cs.toOS ag
      (print cs "Uninstalling agent... " (print cs "OK\n" w2))
    simp only [print_log] at hrest
    refine ⟨by simp, fun _ => ⟨⟨ptr, rest, ?_⟩, ?_⟩⟩
    · rcases hu : ag.Uninstall cs.toOS (print cs "Uninstalling agent... " (print cs "OK\n" w2))
        with ⟨_ | eu, w4⟩ <;>
      · rw [hu] at hrest
        simp only at hrest
        simp [uninstallConfirmed, hr, hu, print_log, hrest, hptr]
    · rcases hu : ag.Uninstall cs.toOS (print cs "Uninstalling agent... " (print cs "OK\n" w2))
        with ⟨_ | eu, w4⟩ <;>
        simp [uninstallConfirmed, hr, hu]
  · rw [hr] at hptr
    simp only [print_log] at hptr
    refine ⟨fun _ => ⟨ptr, ?_, hprobe⟩, by simp⟩
    simp [uninstallConfirmed, hr, print_log, hptr]
/-- C29: on every console and in every world, `uninstallAgent` calls `Uninstall` (its
log then holds the stop command) if and only if the agent is reported installed, the
confirmation could not be read or is exactly "y" or "Y", and the uninstall preflight
passes; in that case it returns nil exactly when `Uninstall` does.  In every other
case the calls it issues are probes only.  When the configuration cannot be read
nothing is reported: the command fails with "failed to get controller IP from config"
and issues no call at all.  A not-installed agent gives the error "agent is not
installed" in the world `Status` left, before any prompt; any other answer that was
read gives a nil error right after the reading. -/
theorem uninstallAgent_calls_Uninstall (cs : Console σ) (GOARCH : String) (w : World σ) :
    ∃ tr, (uninstallAgent cs GOARCH w).2.log = w.log ++ tr ∧
      (.Run (uninstallAgent.agent cs GOARCH w).stopCmd ∈ tr ↔
        uninstallAgent.reportsInstalled cs GOARCH w = true ∧
        uninstallAgent.confirmed cs GOARCH w = true ∧
        (uninstallAgent.preflight cs GOARCH w).1 = none) ∧
      (.Run (uninstallAgent.agent cs GOARCH w).stopCmd ∉ tr → ∀ x ∈ tr, x.isProbe = true) ∧
      (∀ e, (uninstallAgent.config cs w).1.2 = some e →
        tr = [] ∧ uninstallAgent.reportsInstalled cs GOARCH w = false ∧
        uninstallAgent cs GOARCH w =
          (some (ErrorfW "failed to get controller IP from config: " (some e)),
            (uninstallAgent.config cs w).2)) ∧
      ((uninstallAgent.config cs w).1.2 = none →
        (uninstallAgent.status cs GOARCH w).1.1.Installed = false →
        uninstallAgent cs GOARCH w =
          (some (.errorString "agent is not installed"), (uninstallAgent.status cs GOARCH w).2)) ∧
      (uninstallAgent.reportsInstalled cs GOARCH w = true →
        uninstallAgent.confirmed cs GOARCH w = false →
        uninstallAgent cs GOARCH w =
          (none, print cs "Uninstallation cancelled\n" (uninstallAgent.answer cs GOARCH w).2)) ∧
      (uninstallAgent.reportsInstalled cs GOARCH w = true →
        uninstallAgent.confirmed cs GOARCH w = true →
        (uninstallAgent.preflight cs GOARCH w).1 = none →
        (uninstallAgent cs GOARCH w).1 =
          ((uninstallAgent.agent cs GOARCH w).Uninstall cs.toOS
            (print cs "Uninstalling agent... " (print cs "OK\n"
              (uninstallAgent.preflight cs GOARCH w).2))).1.map
            (fun e => ErrorfW "uninstallation failed: " (some e))) := by
  have hlog := GetString_log cs
    (NewManager cs "" (print cs "Uninstalling morpher agent...\n" w).host) "controller.ip"
    (print cs "Uninstalling morpher agent...\n" w)
  rcases hg : (NewManager cs "" (print cs "Uninstalling morpher agent...\n" w).host).GetString
    cs "controller.ip" (print cs "Uninstalling morpher agent...\n" w) with ⟨⟨ip, cerr⟩, w1⟩
  have hcf : uninstallAgent.config cs w = ((ip, cerr), w1) := by
    simp [uninstallAgent.config, hg]
  rw [hg] at hlog
  simp only [print_log] at hlog
  cases cerr with
  | some ce =>
    refine ⟨[], ?_, ?_, ?_, ?_, ?_, ?_, ?_⟩
    · simpa [uninstallAgent, hg] using hlog
    · simp [uninstallAgent.reportsInstalled, hcf]
    · simp
    · intro e he
      rw [hcf] at he
      simp only [Option.some.injEq] at he
      subst he
      simp [uninstallAgent, uninstallAgent.reportsInstalled, hcf, hg]
    · simp [hcf]
    · simp [uninstallAgent.reportsInstalled, hcf]
    · simp [uninstallAgent.reportsInstalled, hcf]
  | none =>
  have hrep : uninstallAgent.reportsInstalled cs GOARCH w =
      (uninstallAgent.status cs GOARCH w).1.1.Installed := by
    simp [uninstallAgent.reportsInstalled, hcf]
  rw [hrep]
  simp only [hcf, true_implies, reduceCtorEq, false_implies, implies_true, true_and]
  have hslog := Status_log cs.toOS (NewAgent GOARCH ip) w1
  have hserr := Status_error_nil cs.toOS (NewAgent GOARCH ip) w1
  rcases hs : (NewAgent GOARCH ip).Status cs.toOS w1 with ⟨⟨status, serr⟩, w2⟩
  rw [hs] at hslog hserr
  simp only at hslog hserr
  subst hserr
  rw [hlog] at hslog
  have hstop := stopCmd_not_probe (NewAgent GOARCH ip)
  have hprobes : ∀ x ∈ [Action.Stat (Join (NewAgent GOARCH ip).InstallPath
      (NewAgent GOARCH ip).ServiceName), .Output (NewAgent GOARCH ip).isActiveCmd,
      .Output (NewAgent GOARCH ip).isEnabledCmd], x.isProbe = true := by
    intro x hx
    simp only [List.mem_cons, List.mem_singleton, List.not_mem_nil, or_false] at hx
    rcases hx with rfl | rfl | rfl <;> rfl
  generalize hpr0 : [Action.Stat (Join (NewAgent GOARCH ip).InstallPath
      (NewAgent GOARCH ip).ServiceName), .Output (NewAgent GOARCH ip).isActiveCmd,
      .Output (NewAgent GOARCH ip).isEnabledCmd] = pr at hslog hprobes
  have hnotin : ∀ tr : List Action, (∀ x ∈ tr, x.isProbe = true) →
      Action.Run (NewAgent GOARCH ip).stopCmd ∉ tr := by
    intro tr h hm
    have := h _ hm
    rw [hstop] at this
    exact Bool.false_ne_true this
  cases hi : status.Installed
  · refine ⟨pr, ?_, ?_, fun _ => hprobes, ?_, ?_, ?_⟩
    · simpa [uninstallAgent, hg, hs, hi] using hslog
    · simp [uninstallAgent.status, uninstallAgent.agent, uninstallAgent.config, hg, hs, hi,
        hnotin _ hprobes]
    · intro _
      simp [uninstallAgent, uninstallAgent.status, uninstallAgent.agent, uninstallAgent.config,
        Errorf, hg, hs, hi]
    · simp [uninstallAgent.status, uninstallAgent.agent, uninstallAgent.config, hg, hs, hi]
    · simp [uninstallAgent.status, uninstallAgent.agent, uninstallAgent.config, hg, hs, hi]
  · rcases hsc : scanln cs
      (print cs "Are you sure you want to uninstall the agent? (y/N): " w2)
      with ⟨⟨response, aerr⟩, w3⟩
    have h3 : w3.log = w2.log := by
      have := congrArg (fun r => r.2.log) hsc
      simpa [scanln, World.move, print_log] using this.symm
    have hst : uninstallAgent.status cs GOARCH w = ((status, none), w2) := by
      simp [uninstallAgent.status, uninstallAgent.agent, uninstallAgent.config, hg, hs]
    have hag : uninstallAgent.agent cs GOARCH w = NewAgent GOARCH ip := by
      simp [uninstallAgent.agent, uninstallAgent.config, hg]
    have han : uninstallAgent.answer cs GOARCH w = ((response, aerr), w3) := by
      simp [uninstallAgent.answer, hst, hsc]
    simp only [hst, hag, uninstallAgent.confirmed, uninstallAgent.preflight, han, hi]
    cases aerr with
    | some e3 =>
      obtain ⟨hfail, hpass⟩ := uninstallConfirmed_cases cs (NewAgent GOARCH ip)
        (print cs "Failed to read input, proceeding with uninstallation\n" w3)
      have heq : uninstallAgent cs GOARCH w = uninstallConfirmed cs (NewAgent GOARCH ip)
          (print cs "Failed to read input, proceeding with uninstallation\n" w3) := by
        simp [uninstallAgent, hg, hs, hi, hsc]
      rw [heq]
      simp only [print_log, h3, hslog] at hfail hpass
      by_cases hp : (runUninstallPreflight cs (print cs "Running preflight checks... "
          (print cs "Failed to read input, proceeding with uninstallation\n" w3))).1 = none
      · obtain ⟨⟨ptr, rest, hlg⟩, hres⟩ := hpass hp
        refine ⟨pr ++ ptr ++ .Run (NewAgent GOARCH ip).stopCmd :: rest, ?_, ?_, ?_, ?_, ?_, ?_⟩
        · rw [hlg]
          simp
        · simp [hp]
        · intro hn
          exact absurd (by simp) hn
        · simp
        · simp
        · intro _ _ _
          simpa using hres
      · obtain ⟨ptr, hlg, hpr⟩ := hfail hp
        have hall : ∀ x ∈ pr ++ ptr, x.isProbe = true := by
          intro x hx
          rcases List.mem_append.mp hx with hx | hx
          · exact hprobes x hx
          · exact hpr x hx
        refine ⟨pr ++ ptr, ?_, ?_, fun _ => hall, ?_, ?_, ?_⟩
        · rw [hlg]
          simp
        · simp [hp, hnotin _ hall]
        · simp
        · simp
        · intro _ _ h
          exact absurd h (by simpa using hp)
    | none =>
      by_cases hresp : (response != "y" && response != "Y") = true
      · have hc : (response == "y" || response == "Y") = false := by
          simp only [Bool.and_eq_true, bne_iff_ne, ne_eq] at hresp
          simp [hresp.1, hresp.2]
        refine ⟨pr, ?_, ?_, fun _ => hprobes, ?_, ?_, ?_⟩
        · simpa [uninstallAgent, hg, hs, hi, hsc, hresp, print_log, h3] using hslog
        · simp [hc, hnotin _ hprobes]
        · simp
        · intro _ _
          simp [uninstallAgent, hg, hs, hi, hsc, hresp]
        · simp [hc]
      · have hc : (response == "y" || response == "Y") = true := by
          simp only [Bool.and_eq_true, bne_iff_ne, ne_eq, not_and, not_not] at hresp
          by_cases h1 : response = "y"
          · simp [h1]
          · simp [hresp h1]
        obtain ⟨hfail, hpass⟩ := uninstallConfirmed_cases cs (NewAgent GOARCH ip) w3
        have heq : uninstallAgent cs GOARCH w = uninstallConfirmed cs (NewAgent GOARCH ip) w3 := by
          simp [uninstallAgent, hg, hs, hi, hsc, hresp]
        rw [heq]
        simp only [h3, hslog] at hfail hpass
        by_cases hp : (runUninstallPreflight cs
            (print cs "Running preflight checks... " w3)).1 = none
        · obtain ⟨⟨ptr, rest, hlg⟩, hres⟩ := hpass hp
          refine ⟨pr ++ ptr ++ .Run (NewAgent GOARCH ip).stopCmd :: rest, ?_, ?_, ?_, ?_, ?_, ?_⟩
          · rw [hlg]
            simp
          · simp [hp, hc]
          · intro hn
            exact absurd (by simp) hn
          · simp
          · simp [hc]
          · intro _ _ _
            simpa using hres
        · obtain ⟨ptr, hlg, hpr⟩ := hfail hp
          have hall : ∀ x ∈ pr ++ ptr, x.isProbe = true := by
            intro x hx
            rcases List.mem_append.mp hx with hx | hx
            · exact hprobes x hx
            · exact hpr x hx
          refine ⟨pr ++ ptr, ?_, ?_, fun _ => hall, ?_, ?_, ?_⟩
          · rw [hlg]
            simp
          · simp [hp, hnotin _ hall]
          · simp
          · simp [hc]
          · intro _ _ h
            exact absurd h (by simpa using hp)
/-- C29 for the user root who presses return at the "(y/N)" prompt, on a host with
the agent installed and systemd present: the reading fails with "unexpected newline",
the uninstallation goes on, the preflight passes and `Uninstall` is called.  The same
user without a configuration file has nothing reported and no call issued, though the
agent is installed. -/
theorem uninstallAgent_calls_Uninstall_witness :
    (uninstallAgent.config stdConsole ⟨(hostSystemd, termRootReturn), []⟩).1.2 = none ∧
    (uninstallAgent.answer stdConsole "amd64" ⟨(hostSystemd, termRootReturn), []⟩).1 =
      ("", some (.errorString "unexpected newline")) ∧
    Action.Run exAgent.stopCmd ∈
      (uninstallAgent stdConsole "amd64" ⟨(hostSystemd, termRootReturn), []⟩).2.log ∧
    (uninstallAgent.config stdConsole ⟨(hostSystemd, termRootUnconfigured), []⟩).1.2 =
      some (ErrorfW "failed to read configuration file: "
        (some (.pathError "open" "/root/.morpherctl/config.yaml" .ENOENT))) ∧
    uninstallAgent.reportsInstalled stdConsole "amd64"
      ⟨(hostSystemd, termRootUnconfigured), []⟩ = false ∧
    (uninstallAgent stdConsole "amd64" ⟨(hostSystemd, termRootUnconfigured), []⟩).2.log = [] := by
  obtain ⟨tr, hlog, hiff, -⟩ := uninstallAgent_calls_Uninstall stdConsole "amd64"
    ⟨(hostSystemd, termRootReturn), []⟩
  obtain ⟨tr2, hlog2, -, -, hfail, -⟩ := uninstallAgent_calls_Uninstall stdConsole "amd64"
    ⟨(hostSystemd, termRootUnconfigured), []⟩
  refine ⟨by decide, by decide, ?_, by decide, by decide, ?_⟩
  · rw [hlog]
    exact List.mem_append_right _ (hiff.mpr ⟨by decide, by decide, by decide⟩)
  · rw [hlog2, (hfail (ErrorfW "failed to read configuration file: "
      (some (.pathError "open" "/root/.morpherctl/config.yaml" .ENOENT))) (by decide)).1]
    rfl

/-! ## The controller client -/

/-- C27: a request that `newRequest` builds has the address `baseURL ++ path`; it has
an `Authorization` header exactly when the client's token is not empty, and then its
value is `"Bearer " ++ token` and it is the only header; with an empty token the
request has no header at all. -/
theorem newRequest_authorization (tp : Transport σ) (c : Client) (ctx : Context)
    (method path : String) (req : Request)
    (h : c.newRequest tp ctx method path = .ok req) :
    req.URL = c.baseURL ++ path ∧
    ((req.Header.entries.lookup "Authorization").isSome = true ↔ c.token ≠ "") ∧
    (c.token ≠ "" →
      req.Header.entries = [("Authorization", ["Bearer " ++ c.token])] ∧
      req.Header.Get "Authorization" = "Bearer " ++ c.token) ∧
    (c.token = "" → req.Header.entries = []) := by
  rcases he : tp.NewRequestError ctx method (c.baseURL ++ path) with _ | e
  · by_cases ht : c.token = ""
    · simp [Client.newRequest, he, ht] at h
      subst h
      simp [ht]
    · simp [Client.newRequest, he, ht] at h
      subst h
      simp [ht, Header.Set, Header.Get]
  · simp [Client.newRequest, he] at h

/-- C27 for the client of the package's test: the request for `GET /ping` carries
`Authorization: Bearer test-token`. -/
theorem newRequest_authorization_witness :
    exClient.newRequest stdTransport ⟨none⟩ "GET" "/ping" =
      .ok { Method := "GET", URL := "http://127.0.0.1:8080/ping",
            Header := { entries := [("Authorization", ["Bearer test-token"])] },
            Ctx := ⟨none⟩ } ∧
    (exClient.token ≠ "" →
      ({ entries := [("Authorization", ["Bearer test-token"])] } : Header).entries =
        [("Authorization", ["Bearer " ++ exClient.token])] ∧
      ({ entries := [("Authorization", ["Bearer test-token"])] } : Header).Get "Authorization" =
        "Bearer " ++ exClient.token) :=
  ⟨rfl,
    (newRequest_authorization stdTransport exClient ⟨none⟩ "GET" "/ping"
      { Method := "GET", URL := "http://127.0.0.1:8080/ping",
        Header := { entries := [("Authorization", ["Bearer test-token"])] },
        Ctx := ⟨none⟩ } rfl).2.2.1⟩

/-- C26: when the request for `GET /ping` is built and the transport returns a
response to it, `Ping` returns no error and a result whose `StatusCode` is the
response's, whose `ResponseTime` is the first value of the `X-Response-Time` header
(the empty string when there is none) and whose `Success` holds exactly when the
status code is 200; `IsHealthy` returns that `Success` with a nil error.  When the
transport fails, `Ping` returns the failure wrapped and `IsHealthy` returns false
with that error. -/
theorem Ping_reports_response (tp : Transport σ) (c : Client) (ctx : Context) (s : σ)
    (req : Request) (hreq : c.newRequest tp ctx "GET" "/ping" = .ok req) :
    req.Method = "GET" ∧ req.URL = c.baseURL ++ "/ping" ∧
    (∀ resp, (tp.Do s c.httpTimeout req).1 = .ok resp →
      (c.Ping tp ctx s).1 =
        .ok { StatusCode := resp.StatusCode
              ResponseTime := resp.Header.Get "X-Response-Time"
              Success := resp.StatusCode == 200 } ∧
      ((resp.StatusCode == 200) = true ↔ resp.StatusCode = 200) ∧
      (resp.Header.entries.lookup "X-Response-Time" = none →
        resp.Header.Get "X-Response-Time" = "") ∧
      (c.IsHealthy tp ctx s).1 = (resp.StatusCode == 200, none)) ∧
    (∀ err, (tp.Do s c.httpTimeout req).1 = .error err →
      (c.Ping tp ctx s).1 = .error (ErrorfW "failed to send ping request: " (some err)) ∧
      (c.IsHealthy tp ctx s).1 =
        (false, some (ErrorfW "failed to send ping request: " (some err)))) := by
  have hm : req.Method = "GET" ∧ req.URL = c.baseURL ++ "/ping" := by
    rcases he : tp.NewRequestError ctx "GET" (c.baseURL ++ "/ping") with _ | e
    · by_cases ht : c.token = ""
      · simp [Client.newRequest, he, ht] at hreq
        subst hreq
        simp
      · simp [Client.newRequest, he, ht] at hreq
        subst hreq
        simp
    · simp [Client.newRequest, he] at hreq
  refine ⟨hm.1, hm.2, ?_, ?_⟩
  · intro resp hd
    rcases hdo : tp.Do s c.httpTimeout req with ⟨r, s1⟩
    rw [hdo] at hd
    simp only at hd
    subst hd
    refine ⟨?_, beq_iff_eq, ?_, ?_⟩
    · simp [Client.Ping, hreq, hdo, StatusOK]
    · intro hn
      simp [Header.Get, hn]
    · simp [Client.IsHealthy, Client.Ping, hreq, hdo, StatusOK]
  · intro err hd
    rcases hdo : tp.Do s c.httpTimeout req with ⟨r, s1⟩
    rw [hdo] at hd
    simp only at hd
    subst hd
    simp [Client.IsHealthy, Client.Ping, hreq, hdo]

/-- C26 for a response with status 500 and no `X-Response-Time` header: `Ping`
returns no error, an empty response time and `Success = false`. -/
theorem Ping_reports_response_witness :
    (exClient.Ping stdTransport ⟨none⟩ [.ok ⟨500, ⟨[]⟩⟩]).1 =
      .ok { StatusCode := 500, ResponseTime := "", Success := false } ∧
    (exClient.IsHealthy stdTransport ⟨none⟩ [.ok ⟨500, ⟨[]⟩⟩]).1 = (false, none) :=
  ⟨((Ping_reports_response stdTransport exClient ⟨none⟩ [.ok ⟨500, ⟨[]⟩⟩]
      { Method := "GET", URL := "http://127.0.0.1:8080/ping",
        Header := { entries := [("Authorization", ["Bearer test-token"])] },
        Ctx := ⟨none⟩ } rfl).2.2.1 ⟨500, ⟨[]⟩⟩ rfl).1,
    ((Ping_reports_response stdTransport exClient ⟨none⟩ [.ok ⟨500, ⟨[]⟩⟩]
      { Method := "GET", URL := "http://127.0.0.1:8080/ping",
        Header := { entries := [("Authorization", ["Bearer test-token"])] },
        Ctx := ⟨none⟩ } rfl).2.2.1 ⟨500, ⟨[]⟩⟩ rfl).2.2.2⟩

/-! ## The configuration manager -/

/-- C23 on a fresh disk and a fresh process, with the manager of the package's test:
`Init` succeeds and writes the file; read back, `controller.timeout` is 30 seconds,
`agent.install_path` is "/opt/morpher" and `agent.log_level` is "info", but
`GetString("controller.url")` returns the empty string, in the same process and in a
new one: `Init` sets no default for `controller.url` and the file holds no such
key. -/
theorem Init_sets_no_controller_url :
    (exManager.Init (viperStore asciiLower) ⟨confFresh, []⟩).1 = none ∧
    ((exManager.Init (viperStore asciiLower) ⟨confFresh, []⟩).2.host.files.lookup
      "/tmp/t/test_config.yaml").isSome = true ∧
    (exManager.GetString (viperStore asciiLower).toConsole "controller.url"
      (exManager.Init (viperStore asciiLower) ⟨confFresh, []⟩).2).1 = ("", none) ∧
    (exManager.GetString (viperStore asciiLower).toConsole "controller.url"
      ⟨(exManager.Init (viperStore asciiLower) ⟨confFresh, []⟩).2.host.restart, []⟩).1 =
      ("", none) ∧
    ((exManager.Init (viperStore asciiLower) ⟨confFresh, []⟩).2.host.files.lookup
      "/tmp/t/test_config.yaml").bind (fun settings => settings.lookup "controller.url") = none ∧
    (exManager.GetDuration (viperStore asciiLower) "controller.timeout"
      (exManager.Init (viperStore asciiLower) ⟨confFresh, []⟩).2).1 = (30 * Second, none) ∧
    (exManager.GetString (viperStore asciiLower).toConsole "agent.install_path"
      (exManager.Init (viperStore asciiLower) ⟨confFresh, []⟩).2).1 = ("/opt/morpher", none) ∧
    (exManager.GetString (viperStore asciiLower).toConsole "agent.log_level"
      (exManager.Init (viperStore asciiLower) ⟨confFresh, []⟩).2).1 = ("info", none) := by
  decide

/-- C24 fails on the code: after `Init`, `Set("Test.Key", "1")` succeeds and so does a
further `Set("test.key", "2")`; the two keys are distinct and neither is a dotted
prefix of the other, yet `Get("Test.Key")` now returns "2": the library folds keys to
lower case. -/
theorem Set_Get_differ_by_case :
    (exManager.Set (viperStore asciiLower) "Test.Key" "1"
      (exManager.Init (viperStore asciiLower) ⟨confFresh, []⟩).2).1 = none ∧
    (exManager.Set (viperStore asciiLower) "test.key" "2"
      (exManager.Set (viperStore asciiLower) "Test.Key" "1"
        (exManager.Init (viperStore asciiLower) ⟨confFresh, []⟩).2).2).1 = none ∧
    ("Test.Key" : String) ≠ "test.key" ∧
    above "Test.Key" "test.key" = false ∧ above "test.key" "Test.Key" = false ∧
    (exManager.Get (viperStore asciiLower) "Test.Key"
      (exManager.Set (viperStore asciiLower) "Test.Key" "1"
        (exManager.Init (viperStore asciiLower) ⟨confFresh, []⟩).2).2).1 =
      (some (.str "1"), none) ∧
    (exManager.Get (viperStore asciiLower) "Test.Key"
      (exManager.Set (viperStore asciiLower) "test.key" "2"
        (exManager.Set (viperStore asciiLower) "Test.Key" "1"
          (exManager.Init (viperStore asciiLower) ⟨confFresh, []⟩).2).2).2).1 =
      (some (.str "2"), none) := by
  decide

/-- A lookup is not changed by a filter that keeps every entry of the key. -/
theorem lookup_filter_keep (l : Layer) (k : String) (p : String × Value → Bool)
    (hp : ∀ e : String × Value, e.1 = k → p e = true) :
    (l.filter p).lookup k = l.lookup k := by
  induction l with
  | nil => rfl
  | cons e rest ih =>
    obtain ⟨ek, ev⟩ := e
    by_cases hk : k = ek
    · subst hk
      simp [List.filter, hp (k, ev) rfl, List.lookup]
    · have hne : (k == ek) = false := by simpa using hk
      cases hpe : p (ek, ev)
      · simp [List.filter, hpe, List.lookup, hne, ih]
      · simp [List.filter, hpe, List.lookup, hne, ih]
/-- A successful `Set(k, v)` leaves the overrides holding `v` at the key and the
manager's file on disk. -/
theorem Set_establishes (lower : String → String) (m : Manager) (k v : String)
    (w : World Conf) (h : (m.Set (viperStore lower) k v w).1 = none) :
    Keeps lower m k v (m.Set (viperStore lower) k v w).2.host := by
  rcases hf : w.host.files.lookup m.configFile with _ | settings
  · simp [Manager.Set, Manager.load, viperStore, hf] at h
  · by_cases hd : Dir m.configFile ∈ w.host.dirs ∧ Dir m.configFile ∉ w.host.readonly
    · simp [Keeps, Manager.Set, Manager.load, viperStore, Conf.write, World.move, hf, hd,
        layerSet, List.lookup]
    · simp [Manager.Set, Manager.load, viperStore, Conf.write, World.move, hf, hd] at h

/-- A successful `Set` of another key, no section above or below `k`, keeps `Get(k)`
where it was. -/
theorem Set_preserves (lower : String → String) (m : Manager) (k v k2 v2 : String)
    (w : World Conf) (hk : Keeps lower m k v w.host) (hne : lower k2 ≠ lower k)
    (h1 : above (lower k2) (lower k) = false) (h2 : above (lower k) (lower k2) = false)
    (h : (m.Set (viperStore lower) k2 v2 w).1 = none) :
    Keeps lower m k v (m.Set (viperStore lower) k2 v2 w).2.host := by
  obtain ⟨hov, hfile⟩ := hk
  have hkeep : (w.host.viper.overrides.filter (fun e =>
      e.1 != lower k2 && !above (lower k2) e.1 && !above e.1 (lower k2))).lookup (lower k) =
      some (.str v) := by
    rw [lookup_filter_keep _ _ _ (by
      intro e he
      simp [he, h1, h2, Ne.symm hne])]
    exact hov
  have hbeq : (lower k == lower k2) = false := by simpa using Ne.symm hne
  rcases hf : w.host.files.lookup m.configFile with _ | settings
  · simp [hf] at hfile
  · by_cases hd : Dir m.configFile ∈ w.host.dirs ∧ Dir m.configFile ∉ w.host.readonly
    · simp [Keeps, Manager.Set, Manager.load, viperStore, Conf.write, World.move, hf, hd,
        layerSet, List.lookup, hbeq, hkeep]
    · simp [Manager.Set, Manager.load, viperStore, Conf.write, World.move, hf, hd] at h

/-- While the overrides hold `v` at the key and the file is on disk, `Get(k)` returns
`v` and no error. -/
theorem Get_of_Keeps (lower : String → String) (m : Manager) (k v : String)
    (w : World Conf) (hk : Keeps lower m k v w.host) :
    (m.Get (viperStore lower) k w).1 = (some (.str v), none) := by
  obtain ⟨hov, hfile⟩ := hk
  rcases hf : w.host.files.lookup m.configFile with _ | settings
  · simp [hf] at hfile
  · simp [Manager.Get, Manager.load, viperStore, World.move, hf, Viper.find, layerFind, hov]

/-- Further successful `Set`s to keys that are not `k` and not a section above or
below it keep `Get(k)` where it was. -/
theorem SetAll_preserves (lower : String → String) (m : Manager) (k v : String)
    (kvs : List (String × String)) :
    ∀ w : World Conf, Keeps lower m k v w.host →
      (∀ e ∈ kvs, lower e.1 ≠ lower k ∧ above (lower e.1) (lower k) = false ∧
        above (lower k) (lower e.1) = false) →
      (m.SetAll (viperStore lower) kvs w).1 = true →
      Keeps lower m k v (m.SetAll (viperStore lower) kvs w).2.host := by
  induction kvs with
  | nil => intro w hk _ _; exact hk
  | cons e rest ih =>
    intro w hk hkeys hall
    obtain ⟨k2, v2⟩ := e
    have he := hkeys (k2, v2) (List.mem_cons_self _ _)
    rcases hs : m.Set (viperStore lower) k2 v2 w with ⟨_ | err, w1⟩
    · have hk1 := Set_preserves lower m k v k2 v2 w hk he.1 he.2.1 he.2.2 (by rw [hs])
      rw [hs] at hk1
      have := ih w1 hk1 (fun e he => hkeys e (List.mem_cons_of_mem _ he))
        (by simpa [Manager.SetAll, hs] using hall)
      simpa [Manager.SetAll, hs] using this
    · simp [Manager.SetAll, hs] at hall

/-- C24 as amended: whenever `Set(k, v)` succeeds, `Get(k)` returns `v` with no
error, and it still does after any further successful `Set`s to keys that, folded to
lower case, differ from `k` and are no dotted prefix of it nor have it as one. -/
theorem Set_Get_round_trip (lower : String → String) (m : Manager) (k v : String)
    (kvs : List (String × String)) (w : World Conf)
    (hset : (m.Set (viperStore lower) k v w).1 = none)
    (hkeys : ∀ e ∈ kvs, lower e.1 ≠ lower k ∧ above (lower e.1) (lower k) = false ∧
      above (lower k) (lower e.1) = false)
    (hall : (m.SetAll (viperStore lower) kvs (m.Set (viperStore lower) k v w).2).1 = true) :
    (m.Get (viperStore lower) k (m.Set (viperStore lower) k v w).2).1 =
      (some (.str v), none) ∧
    (m.Get (viperStore lower) k
      (m.SetAll (viperStore lower) kvs (m.Set (viperStore lower) k v w).2).2).1 =
      (some (.str v), none) :=
  ⟨Get_of_Keeps lower m k v _ (Set_establishes lower m k v w hset),
    Get_of_Keeps lower m k v _
      (SetAll_preserves lower m k v kvs _ (Set_establishes lower m k v w hset) hkeys hall)⟩

/-- C24 as amended, on the keys of the package's test: after `Init`,
`Set("test.key", "test_value")` and three further `Set`s, `Get("test.key")` returns
"test_value". -/
theorem Set_Get_round_trip_witness :
    (exManager.Set (viperStore asciiLower) "test.key" "test_value"
      (exManager.Init (viperStore asciiLower) ⟨confFresh, []⟩).2).1 = none ∧
    (exManager.Get (viperStore asciiLower) "test.key"
      (exManager.SetAll (viperStore asciiLower)
        [("test.key1", "value1"), ("test.key2", "value2"), ("test.key3", "value3")]
        (exManager.Set (viperStore asciiLower) "test.key" "test_value"
          (exManager.Init (viperStore asciiLower) ⟨confFresh, []⟩).2).2).2).1 =
      (some (.str "test_value"), none) :=
  ⟨by decide,
    (Set_Get_round_trip asciiLower exManager "test.key" "test_value"
      [("test.key1", "value1"), ("test.key2", "value2"), ("test.key3", "value3")]
      (exManager.Init (viperStore asciiLower) ⟨confFresh, []⟩).2 (by decide) (by decide)
      (by decide)).2⟩

/-- C25: when the configuration file cannot be read, `Get`, `GetAll`, `GetString`,
`GetDuration` and `Set` all return the read error wrapped as "failed to read
configuration file: ...", and `Set` stops there, leaving the world the failed read
left, so that on the concrete store the files on disk are unchanged.  When the file
is read and the library has no value for the key, `Get` returns the error
"configuration key '<key>' not found", whereas on the concrete store `GetString`
returns the empty string and no error. -/
theorem config_read_errors (st : Store σ) (m : Manager) (key value : String) (w : World σ)
    (lower : String → String) (wc : World Conf) :
    (∀ err, (st.ReadInConfig w.host m.configFile).1 = some err →
      (m.Get st key w).1 =
        (none, some (.wrapError ("failed to read configuration file: " ++ err.Error) err)) ∧
      (m.GetAll st w).1 =
        ([], some (.wrapError ("failed to read configuration file: " ++ err.Error) err)) ∧
      (m.GetString st.toConsole key w).1 =
        ("", some (.wrapError ("failed to read configuration file: " ++ err.Error) err)) ∧
      (m.GetDuration st key w).1 =
        (0, some (.wrapError ("failed to read configuration file: " ++ err.Error) err)) ∧
      m.Set st key value w =
        (some (.wrapError ("failed to read configuration file: " ++ err.Error) err),
          w.move (st.ReadInConfig w.host m.configFile).2) ∧
      "failed to read configuration file".data <+:
        ("failed to read configuration file: " ++ err.Error).data) ∧
    ((st.ReadInConfig w.host m.configFile).1 = none →
      st.ViperGet (st.ReadInConfig w.host m.configFile).2 key = none →
      (m.Get st key w).1 =
        (none, some (.errorString ("configuration key '" ++ key ++ "' not found"))) ∧
      "not found".data <:+ ("configuration key '" ++ key ++ "' not found").data) ∧
    (((viperStore lower).ReadInConfig wc.host m.configFile).1 = none →
      (viperStore lower).ViperGet ((viperStore lower).ReadInConfig wc.host m.configFile).2 key =
        none →
      (m.GetString (viperStore lower).toConsole key wc).1 = ("", none)) ∧
    (((viperStore lower).ReadInConfig wc.host m.configFile).1 ≠ none →
      (m.Set (viperStore lower) key value wc).2.host.files = wc.host.files ∧
      (m.Set (viperStore lower) key value wc).2.host.viper.overrides =
        wc.host.viper.overrides) := by
  refine ⟨?_, ?_, ?_, ?_⟩
  · intro err he
    rcases hr : st.ReadInConfig w.host m.configFile with ⟨r, s1⟩
    rw [hr] at he
    simp only at he
    subst he
    refine ⟨?_, ?_, ?_, ?_, ?_, ?_⟩
    · simp [Manager.Get, Manager.load, ErrorfW, hr]
    · simp [Manager.GetAll, Manager.load, ErrorfW, hr]
    · simp [Manager.GetString, Manager.load, ErrorfW, hr]
    · simp [Manager.GetDuration, Manager.load, ErrorfW, hr]
    · simp [Manager.Set, Manager.load, ErrorfW, hr]
    · exact ⟨(": " ++ err.Error).data, by
        have : ("failed to read configuration file: " : String) =
            "failed to read configuration file" ++ ": " := by decide
        rw [this]
        simp [String.data_append]⟩
  · intro he hn
    rcases hr : st.ReadInConfig w.host m.configFile with ⟨r, s1⟩
    rw [hr] at he hn
    simp only at he hn
    subst he
    refine ⟨?_, ?_⟩
    · simp [Manager.Get, Manager.load, Errorf, World.move, hr, hn]
    · exact ⟨("configuration key '" ++ key ++ "' ").data, by
        have : ("' not found" : String) = "' " ++ "not found" := by decide
        rw [this]
        simp [String.data_append]⟩
  · intro he hn
    rcases hf : wc.host.files.lookup m.configFile with _ | settings
    · simp [viperStore, hf] at he
    · simp only [viperStore, hf] at hn
      simp [Manager.GetString, Manager.load, viperStore, World.move, hf, hn, castToString]
  · intro he
    rcases hf : wc.host.files.lookup m.configFile with _ | settings
    · simp [Manager.Set, Manager.load, viperStore, World.move, hf]
    · simp [viperStore, hf] at he

/-- C25 for the manager of a file that does not exist and for the manager of the
package's test after `Init`: without the file `Get` fails with "failed to read
configuration file: ..."; with it, a key that has no value gives "configuration key
'non.existent.key' not found". -/
theorem config_read_errors_witness :
    (exManager.Get (viperStore asciiLower) "any.key" ⟨confFresh, []⟩).1 =
      (none, some (.wrapError ("failed to read configuration file: " ++
        (GoError.pathError "open" "/tmp/t/test_config.yaml" .ENOENT).Error)
        (.pathError "open" "/tmp/t/test_config.yaml" .ENOENT))) ∧
    (exManager.Get (viperStore asciiLower) "non.existent.key"
      (exManager.Init (viperStore asciiLower) ⟨confFresh, []⟩).2).1 =
      (none, some (.errorString ("configuration key '" ++ "non.existent.key" ++ "' not found"))) ∧
    (exManager.GetString (viperStore asciiLower).toConsole "non.existent.key"
      (exManager.Init (viperStore asciiLower) ⟨confFresh, []⟩).2).1 = ("", none) :=
  ⟨((config_read_errors (viperStore asciiLower) exManager "any.key" "" ⟨confFresh, []⟩
      asciiLower ⟨confFresh, []⟩).1 (.pathError "open" "/tmp/t/test_config.yaml" .ENOENT)
      (by decide)).1,
    ((config_read_errors (viperStore asciiLower) exManager "non.existent.key" ""
      (exManager.Init (viperStore asciiLower) ⟨confFresh, []⟩).2
      asciiLower ⟨confFresh, []⟩).2.1 (by decide) (by decide)).1,
    (config_read_errors (viperStore asciiLower) exManager "non.existent.key" ""
      ⟨confFresh, []⟩ asciiLower
      (exManager.Init (viperStore asciiLower) ⟨confFresh, []⟩).2).2.2.1 (by decide) (by decide)⟩

end Morpher
